import Mathlib

/-!
# jpy type bridge: a shallow embedding of `jpy_jtype.c` and `jpy_conv.h`

The C sources keep their state in process globals (the type registry `JPy_Types`, the Python
error indicator) and in heap objects reached through pointers (`JPy_JType*`).  The embedding
passes that state explicitly: a `JPy_State` holds the heap of type objects (a pointer is an index
into it) together with the registry, and every function that the C code runs for its effects
returns the successor state next to its C return value.  The foreign virtual machine and the
collaborators that live in other translation units are collected in `Runtime`.

Functions that recurse through `JType_GetType` are written in open-recursive style (the callee
is a parameter) and tied together by a recursion on a call-depth budget.
-/

namespace JPy

/-! ## Host values -/

/-- Address of a `JPy_JType` object on the host heap (index into `JPy_State.heap`). -/
abbrev TypeRef := Nat

/-- A `jclass` handle of the foreign virtual machine. -/
abbrev JClass := Nat

/-- A `jobject` handle of the foreign virtual machine. -/
abbrev JObject := Nat

/-- The fields of `Py_buffer` that the bridge reads. -/
structure Py_buffer where
  buf : List Nat
  len : Int
  itemsize : Int
  readonly : Bool
  format : Option String

/-- Request flag `PyBUF_SIMPLE`. -/
def PyBUF_SIMPLE : Nat := 0

/-- Request flag `PyBUF_WRITABLE`. -/
def PyBUF_WRITABLE : Nat := 1

/-- Request flag `PyBUF_FORMAT`. -/
def PyBUF_FORMAT : Nat := 4

/-- Host (Python) values as far as the bridge distinguishes them.  `PyLong` stands for an `int`
that is not one of the two `bool` singletons, `PyFloat` for a `float` instance (carried as its
bit pattern), `JObj` for a mirrored foreign object with its mirror type `Py_TYPE` and its handle,
and `PyOther` for every other object: whether its type implements the number protocol, and its
`bf_getbuffer` slot when it exports the buffer protocol. -/
inductive PyObject where
  | Py_None
  | PyBool (b : Bool)
  | PyLong (n : Int)
  | PyFloat (bits : Nat)
  | PyUnicode (s : String)
  | JObj (type : TypeRef) (objectRef : Option JObject)
  | PyOther (isNumber : Bool) (bf_getbuffer : Option (Nat → Option Py_buffer))

open PyObject

/-- `pyArg == Py_None`. -/
def PyObject.isNone : PyObject → Bool
  | Py_None => true
  | _ => false

/-- `PyBool_Check`: exactly `Py_True` or `Py_False`. -/
def PyBool_Check : PyObject → Bool
  | PyBool _ => true
  | _ => false

/-- `PyLong_Check`: an `int` or an instance of a subtype of `int`; `bool` is such a subtype. -/
def PyLong_Check : PyObject → Bool
  | PyBool _ => true
  | PyLong _ => true
  | _ => false

/-- `PyFloat_Check`. -/
def PyFloat_Check : PyObject → Bool
  | PyFloat _ => true
  | _ => false

/-- `PyNumber_Check`: the type provides numeric protocols; `int`, `bool` and `float` do. -/
def PyNumber_Check : PyObject → Bool
  | PyBool _ => true
  | PyLong _ => true
  | PyFloat _ => true
  | PyOther isNumber _ => isNumber
  | _ => false

/-- `PyUnicode_Check`. -/
def PyUnicode_Check : PyObject → Bool
  | PyUnicode _ => true
  | _ => false

/-- `JObj_Check`: the value is an instance wrapper of a mirrored foreign object. -/
def JObj_Check : PyObject → Bool
  | JObj _ _ => true
  | _ => false

/-- `PyObject_CheckBuffer`: the type has a `bf_getbuffer` slot. -/
def PyObject_CheckBuffer : PyObject → Bool
  | PyOther _ (some _) => true
  | _ => false

/-- `PyObject_GetBuffer`: calls the exporter; `none` stands for the return value `-1`. -/
def PyObject_GetBuffer : PyObject → Nat → Option Py_buffer
  | PyOther _ (some getbuffer), flags => getbuffer flags
  | _, _ => none

/-! ## Python dictionaries -/

/-- A `dict` keyed by strings, as an association list with at most one entry per key as long
as it is only changed through `PyDict_SetItem` and `PyDict_DelItem`. -/
abbrev PyDict (α : Type) := List (String × α)

/-- `PyDict_GetItem`: the value stored under `key`, `none` for `NULL`. -/
def PyDict_GetItem {α : Type} (d : PyDict α) (key : String) : Option α :=
  match d with
  | [] => none
  | (k, v) :: rest => if k = key then some v else PyDict_GetItem rest key

/-- `PyDict_DelItem`: removes the entry stored under `key`. -/
def PyDict_DelItem {α : Type} (d : PyDict α) (key : String) : PyDict α :=
  d.filter (fun e => decide (e.1 ≠ key))

/-- `PyDict_SetItem`: stores `value` under `key`, replacing an earlier entry. -/
def PyDict_SetItem {α : Type} (d : PyDict α) (key : String) (value : α) : PyDict α :=
  (key, value) :: PyDict_DelItem d key

/-- The keys of a dictionary. -/
def PyDict.keys {α : Type} (d : PyDict α) : List String := d.map (fun e => e.1)

/-! ## Descriptors and mirror types -/

/-- The functions a `paramAssessor` pointer can point to. -/
inductive ParamAssessor where
  | toJBoolean | toJByte | toJChar | toJShort | toJInt | toJLong | toJFloat | toJDouble
  | toJString | toJObject
  deriving DecidableEq, Repr

/-- The functions a `paramConverter` pointer can point to. -/
inductive ParamConverter where
  | toJBoolean | toJByte | toJChar | toJShort | toJInt | toJLong | toJFloat | toJDouble
  | toJString | toJObject
  deriving DecidableEq, Repr

/-- The struct `JPy_ParamDescriptor`. -/
structure JPy_ParamDescriptor where
  type : TypeRef
  isMutable : Bool
  paramAssessor : Option ParamAssessor
  paramConverter : Option ParamConverter
  deriving DecidableEq, Repr

/-- The struct `JPy_ReturnDescriptor`. -/
structure JPy_ReturnDescriptor where
  type : TypeRef
  deriving DecidableEq, Repr

/-- The struct `JPy_JMethod`. -/
structure JPy_JMethod where
  name : String
  paramCount : Nat
  paramDescriptors : List JPy_ParamDescriptor
  returnDescriptor : Option JPy_ReturnDescriptor
  isStatic : Bool
  mid : Nat
  deriving DecidableEq, Repr

/-- The struct `JPy_JField`. -/
structure JPy_JField where
  declaringClass : TypeRef
  name : String
  type : TypeRef
  isStatic : Bool
  isFinal : Bool
  fid : Nat
  deriving DecidableEq, Repr

/-- What a mirror type's `tp_dict` holds under a member name: an overload group
(`JPy_JOverloadedMethod`, the list of its methods), a field descriptor, or a plain value. -/
inductive Member where
  | overloadedMethod (declaringClass : TypeRef) (name : String) (methodList : List JPy_JMethod)
  | field (f : JPy_JField)
  | value (v : PyObject)

/-- The struct `JPy_JType`; of the embedded `typeObj` only the slots `tp_base` (when it is a
mirror type, `JType_Check`) and `tp_dict` are kept. -/
structure JPy_JType where
  javaName : String
  classRef : JClass
  isPrimitive : Bool
  isResolved : Bool
  isResolving : Bool
  superType : Option TypeRef
  componentType : Option TypeRef
  tp_base : Option TypeRef
  tp_dict : Option (PyDict Member)

/-- What reading through a pointer that addresses no type object yields in the embedding. -/
def JPy_JType.null : JPy_JType :=
  { javaName := "", classRef := 0, isPrimitive := false, isResolved := false,
    isResolving := false, superType := none, componentType := none, tp_base := none,
    tp_dict := none }

/-- Python exception classes raised by the bridge. -/
inductive PyExc where
  | RuntimeError | ValueError | MemoryError | TypeError | OverflowError | BufferError
  | SystemError
  deriving DecidableEq, Repr

/-- The mutable process state: the heap of type objects, the global registry `JPy_Types`
(`none` while the module is not initialised) and the Python error indicator. -/
structure JPy_State where
  heap : List JPy_JType
  JPy_Types : Option (PyDict TypeRef)
  pyErr : Option (PyExc × String)

/-- Dereference of a `JPy_JType*`. -/
def JPy_State.typeAt (s : JPy_State) (t : TypeRef) : JPy_JType := s.heap.getD t JPy_JType.null

/-- Assignment through a `JPy_JType*`. -/
def JPy_State.update (s : JPy_State) (t : TypeRef) (f : JPy_JType → JPy_JType) : JPy_State :=
  { s with heap := s.heap.set t (f (s.typeAt t)) }

/-- `PyErr_SetString`. -/
def PyErr_SetString (s : JPy_State) (exc : PyExc) (msg : String) : JPy_State :=
  { s with pyErr := some (exc, msg) }

/-- `PyErr_NoMemory`. -/
def PyErr_NoMemory (s : JPy_State) : JPy_State :=
  { s with pyErr := some (PyExc.MemoryError, "") }

/-- `PyDict_SetItem(JPy_Types, key, type)`. -/
def JPy_Types_SetItem (s : JPy_State) (key : String) (type : TypeRef) : JPy_State :=
  { s with JPy_Types := s.JPy_Types.map (fun d => PyDict_SetItem d key type) }

/-- `PyDict_DelItem(JPy_Types, key)`. -/
def JPy_Types_DelItem (s : JPy_State) (key : String) : JPy_State :=
  { s with JPy_Types := s.JPy_Types.map (fun d => PyDict_DelItem d key) }

/-! ## The foreign runtime and the other translation units -/

/-- A reflected constructor or method: name, modifier word, return type (`none` for a
constructor), parameter types and the method id. -/
structure JMethodInfo where
  name : String
  modifiers : Nat
  returnType : Option JClass
  parameterTypes : List JClass
  mid : Nat

/-- A reflected field. -/
structure JFieldInfo where
  name : String
  modifiers : Nat
  type : JClass
  fid : Nat

/-- A policy callback registered in `JPy_Type_Callbacks`: whether `PyCallable_Check` accepts it
and what `PyObject_CallFunction` returns; `Except.error` stands for `NULL`, with the exception
that the callback raised. -/
structure TypeCallback where
  callable : Bool
  call : TypeRef → JPy_JMethod → Except (PyExc × String) PyObject

/-- The union `jvalue`, with the member that was written last; floating members are bit
patterns, `l` holds an object or array handle or `NULL`. -/
inductive jvalue where
  | z (v : Int)
  | b (v : Int)
  | c (v : Int)
  | s (v : Int)
  | i (v : Int)
  | j (v : Int)
  | f (bits : Nat)
  | d (bits : Nat)
  | l (ref : Option JObject)

/-- The wrapper classes whose one-argument constructors `JType_ConvertPythonToJavaObject` calls
(`JPy_Boolean_JClass` with `JPy_Boolean_Init_MID`, and so on). -/
inductive BoxedClass where
  | Boolean | Character | Byte | Short | Integer | Long | Float | Double
  deriving DecidableEq, Repr

/-- A primitive array of the foreign virtual machine: its element count, its element width in
bytes and its content as bytes. -/
structure JArray where
  length : Int
  itemSize : Int
  items : List Nat

/-- Everything the functions of `jpy_jtype.c` read but never write: the reflection facility of
the foreign virtual machine (through JNI), the well-known type singletons of `jpy_module.h`,
the callback table, and the functions of this repository that live in other translation
units (`JType_InitSlots`) or in the C runtime (allocation), whose outcome is left open. -/
structure Runtime where
  /-- `JPy_FromTypeName` and `JPy_GetTypeName`: the canonical name of a class. -/
  typeName : JClass → String
  GetSuperclass : JClass → Option JClass
  getComponentType : JClass → Option JClass
  isPrimitive : JClass → Bool
  getDeclaredConstructors : JClass → List JMethodInfo
  getDeclaredMethods : JClass → List JMethodInfo
  getDeclaredFields : JClass → List JFieldInfo
  IsInstanceOf : Option JObject → JClass → Bool
  IsAssignableFrom : JClass → JClass → Bool
  /-- `GetStatic<T>Field` for the boolean and integral kinds. -/
  GetStaticIntegralField : JClass → Nat → Int
  /-- `GetStaticFloatField` and `GetStaticDoubleField`, as the bits of the host float. -/
  GetStaticFloatingField : JClass → Nat → Nat
  GetStaticObjectField : JClass → Nat → Option JObject
  JPy_FromJString : Option JObject → PyObject
  JPy_FromJObjectWithType : Option JObject → TypeRef → PyObject
  /-- Whether `JType_New` runs out of memory (in `tp_alloc`, `JPy_GetTypeName` or
  `NewGlobalRef`). -/
  JType_New_fails : JClass → JPy_State → Bool
  /-- Whether `PyMem_New` returns `NULL`. -/
  PyMem_New_fails : JPy_State → Bool
  /-- Whether `JMethod_New` returns `NULL`. -/
  JMethod_New_fails : String → JPy_State → Bool
  /-- Whether `JField_New` returns `NULL`. -/
  JField_New_fails : String → JPy_State → Bool
  /-- The function `JType_InitSlots` of `jpy_jobj.c`: `none` when it fails, else the `tp_base`
  and `tp_dict` slots it installs in the type object. -/
  JType_InitSlots : JPy_State → TypeRef → Option (Option TypeRef × Option (PyDict Member))
  JPy_Type_Callbacks : PyDict TypeCallback
  JPy_JVoid : Option TypeRef
  JPy_JBoolean : Option TypeRef
  JPy_JChar : Option TypeRef
  JPy_JByte : Option TypeRef
  JPy_JShort : Option TypeRef
  JPy_JInt : Option TypeRef
  JPy_JLong : Option TypeRef
  JPy_JFloat : Option TypeRef
  JPy_JDouble : Option TypeRef
  JPy_JString : Option TypeRef
  JPy_JBooleanObj : Option TypeRef
  JPy_JCharacterObj : Option TypeRef
  JPy_JByteObj : Option TypeRef
  JPy_JShortObj : Option TypeRef
  JPy_JIntegerObj : Option TypeRef
  JPy_JLongObj : Option TypeRef
  JPy_JFloatObj : Option TypeRef
  JPy_JDoubleObj : Option TypeRef
  /-- The width of the C type `long` in bits. -/
  LONG_BIT : Nat := 64
  /-- Whether `New<Type>Array` returns `NULL` for the given element count, with the arrays
  that exist. -/
  NewArray_fails : List JArray → Int → Bool := fun _ _ => false
  /-- Whether `GetPrimitiveArrayCritical` returns `NULL` for the given array. -/
  GetPrimitiveArrayCritical_fails : List JArray → JObject → Bool := fun _ _ => false
  /-- `PyFloat_AsDouble` for an object that is not a float instance: the bits of the result
  of its `__float__` conversion, or the failure. -/
  PyFloat_AsDouble_other : PyObject → Nat × Option PyExc := fun _ => (0, some PyExc.TypeError)
  /-- The C conversion from `double` to `float`, on bit patterns. -/
  doubleToFloat : Nat → Nat := fun bits => bits
  /-- `FindClass`: the class with the given resource name, or `NULL`. -/
  FindClass : String → Option JClass := fun _ => none
  /-- `CallBooleanMethod` with `Boolean.booleanValue`. -/
  CallBooleanMethod : JObject → Int := fun _ => 0
  /-- `CallCharMethod` with `Character.charValue`. -/
  CallCharMethod : JObject → Int := fun _ => 0
  /-- `CallIntMethod` with `Number.intValue`. -/
  CallIntMethod : JObject → Int := fun _ => 0
  /-- `CallLongMethod` with `Number.longValue`. -/
  CallLongMethod : JObject → Int := fun _ => 0
  /-- `CallDoubleMethod` with `Number.doubleValue`, as the bits of the result. -/
  CallDoubleMethod : JObject → Nat := fun _ => 0
  /-- `JObj_FromType` of `jpy_jobj.c`: the wrapper of an object handle, or `NULL`. -/
  JObj_FromType : TypeRef → JObject → Option PyObject :=
    fun type objectRef => some (PyObject.JObj type (some objectRef))
  /-- `NewObjectA` with the constructor of a wrapper class: the new object, or `NULL`. -/
  NewObjectA : BoxedClass → jvalue → Option JObject := fun _ _ => some 0
  /-- `JPy_AsJString` of `jpy_conv.c`: `none` for the return value `-1`, else the string
  handle written through the output pointer. -/
  JPy_AsJString : PyObject → Option (Option JObject) := fun _ => none
  /-- Whether `CArray_New` of `jpy_carray.c` returns `NULL`. -/
  CArray_New_fails : String → Int → Bool := fun _ _ => false
  /-- The item size that `CArray_New` of `jpy_carray.c` derives from a format. -/
  CArray_ItemSize : String → Int := fun _ => 1

/-- The constant `JPy_JINIT_ATTR_NAME`. -/
def JPy_JINIT_ATTR_NAME : String := "__jinit__"

/-- Result of a call that may exhaust the call-depth budget (`none`) or return a successor
state and a C return value. -/
abbrev Call (α : Type) := Option (JPy_State × α)

/-- The type of `JType_GetType`; a `NULL` result is `none`. -/
abbrev GetTypeFn := JClass → Bool → JPy_State → Call (Option TypeRef)

/-- The type of `JType_ResolveType` and of the three catalogers. -/
abbrev ResolveFn := TypeRef → JPy_State → Call Int

/-! ## Type creation -/

/-- `JType_New`: allocates a zero-initialised type object and fills in the name, the class
handle and the primitiveness flag.  Returns the new address, or `NULL` when out of memory. -/
def JType_New (rt : Runtime) (classRef : JClass) (_resolve : Bool) (s : JPy_State) :
    JPy_State × Option TypeRef :=
  if rt.JType_New_fails classRef s then (PyErr_NoMemory s, none)
  else
    ({ s with heap := s.heap ++ [{ javaName := rt.typeName classRef, classRef := classRef,
                                   isPrimitive := rt.isPrimitive classRef, isResolved := false,
                                   isResolving := false, superType := none,
                                   componentType := none, tp_base := none, tp_dict := none }] },
     some s.heap.length)

/-- The call `JType_InitSlots(type)`.  The function is defined in `jpy_jobj.c`; its outcome is
taken from the runtime and written to the slots of the type object. -/
def JType_InitSlots (rt : Runtime) (type : TypeRef) (s : JPy_State) : JPy_State × Int :=
  match rt.JType_InitSlots s type with
  | none => (s, -1)
  | some (base, dict) => (s.update type (fun t => { t with tp_base := base, tp_dict := dict }), 0)

/-- `JType_InitSuperType`. -/
def JType_InitSuperType (rt : Runtime) (getType : GetTypeFn) (type : TypeRef) (resolve : Bool)
    (s : JPy_State) : Call Int :=
  match rt.GetSuperclass (s.typeAt type).classRef with
  | some superClassRef =>
    match getType superClassRef resolve s with
    | none => none
    | some (s1, none) => some (s1.update type (fun t => { t with superType := none }), -1)
    | some (s1, some superType) =>
      some (s1.update type (fun t => { t with superType := some superType }), 0)
  | none => some (s.update type (fun t => { t with superType := none }), 0)

/-- `JType_InitComponentType`. -/
def JType_InitComponentType (rt : Runtime) (getType : GetTypeFn) (type : TypeRef)
    (resolve : Bool) (s : JPy_State) : Call Int :=
  match rt.getComponentType (s.typeAt type).classRef with
  | some componentTypeRef =>
    match getType componentTypeRef resolve s with
    | none => none
    | some (s1, none) => some (s1.update type (fun t => { t with componentType := none }), -1)
    | some (s1, some componentType) =>
      some (s1.update type (fun t => { t with componentType := some componentType }), 0)
  | none => some (s.update type (fun t => { t with componentType := none }), 0)

/-! ## Cataloging of members -/

/-- `JType_InitParamDescriptorFunctions`: selects the assessor and converter by comparing the
parameter type with the well-known type singletons. -/
def JType_InitParamDescriptorFunctions (rt : Runtime) (paramDescriptor : JPy_ParamDescriptor) :
    JPy_ParamDescriptor :=
  let paramType := some paramDescriptor.type
  if paramType = rt.JPy_JVoid then
    { paramDescriptor with paramAssessor := none, paramConverter := none }
  else if paramType = rt.JPy_JBoolean then
    { paramDescriptor with paramAssessor := some ParamAssessor.toJBoolean,
                           paramConverter := some ParamConverter.toJBoolean }
  else if paramType = rt.JPy_JByte then
    { paramDescriptor with paramAssessor := some ParamAssessor.toJByte,
                           paramConverter := some ParamConverter.toJByte }
  else if paramType = rt.JPy_JChar then
    { paramDescriptor with paramAssessor := some ParamAssessor.toJChar,
                           paramConverter := some ParamConverter.toJChar }
  else if paramType = rt.JPy_JShort then
    { paramDescriptor with paramAssessor := some ParamAssessor.toJShort,
                           paramConverter := some ParamConverter.toJShort }
  else if paramType = rt.JPy_JInt then
    { paramDescriptor with paramAssessor := some ParamAssessor.toJInt,
                           paramConverter := some ParamConverter.toJInt }
  else if paramType = rt.JPy_JLong then
    { paramDescriptor with paramAssessor := some ParamAssessor.toJLong,
                           paramConverter := some ParamConverter.toJLong }
  else if paramType = rt.JPy_JFloat then
    { paramDescriptor with paramAssessor := some ParamAssessor.toJFloat,
                           paramConverter := some ParamConverter.toJFloat }
  else if paramType = rt.JPy_JDouble then
    { paramDescriptor with paramAssessor := some ParamAssessor.toJDouble,
                           paramConverter := some ParamConverter.toJDouble }
  else if paramType = rt.JPy_JString then
    { paramDescriptor with paramAssessor := some ParamAssessor.toJString,
                           paramConverter := some ParamConverter.toJString }
  else
    { paramDescriptor with paramAssessor := some ParamAssessor.toJObject,
                           paramConverter := some ParamConverter.toJObject }

/-- `JType_InitMethodParamDescriptorFunctions`. -/
def JType_InitMethodParamDescriptorFunctions (rt : Runtime) (_type : TypeRef)
    (method : JPy_JMethod) : JPy_JMethod :=
  { method with
    paramDescriptors := method.paramDescriptors.map (JType_InitParamDescriptorFunctions rt) }

/-- Modelled from the spec: `JMethod_New` of `jpy_jmethod.c` is not among the sources.  A Method
Descriptor holds the name, the ordered list of Parameter Descriptors, the optional Return
Descriptor, the static flag and the foreign callable handle; `none` is `NULL`. -/
def JMethod_New (rt : Runtime) (s : JPy_State) (name : String) (paramCount : Nat)
    (paramDescriptors : List JPy_ParamDescriptor)
    (returnDescriptor : Option JPy_ReturnDescriptor) (isStatic : Bool) (mid : Nat) :
    Option JPy_JMethod :=
  if rt.JMethod_New_fails name s then none
  else some { name := name, paramCount := paramCount, paramDescriptors := paramDescriptors,
              returnDescriptor := returnDescriptor, isStatic := isStatic, mid := mid }

/-- Modelled from the spec: `JField_New` of `jpy_jfield.c` is not among the sources.  A Field
Descriptor holds the declaring Mirror Type, the name, the field Mirror Type, the static and
final flags and the foreign field handle; `none` is `NULL`. -/
def JField_New (rt : Runtime) (s : JPy_State) (declaringClass : TypeRef) (name : String)
    (type : TypeRef) (isStatic isFinal : Bool) (fid : Nat) : Option JPy_JField :=
  if rt.JField_New_fails name s then none
  else some { declaringClass := declaringClass, name := name, type := type,
              isStatic := isStatic, isFinal := isFinal, fid := fid }

/-- `PyObject_CallFunction(callable, "OO", declaringClass, method)`: the result of the
callback, or `NULL` with the exception it raised.  A call that is made while an exception is
already pending gives `NULL` whatever the callback returns: the interpreter drops the result
and raises a `SystemError` ("returned a result with an error set"). -/
def PyObject_CallFunction (s : JPy_State) (callable : TypeCallback) (declaringClass : TypeRef)
    (method : JPy_JMethod) : JPy_State × Option PyObject :=
  match callable.call declaringClass method with
  | Except.error e => (PyErr_SetString s e.1 e.2, none)
  | Except.ok result =>
    match s.pyErr with
    | none => (s, some result)
    | some _ =>
      (PyErr_SetString s PyExc.SystemError "returned a result with an error set", none)

/-- `JType_AcceptMethod`: the veto of a registered policy callback.  The exception of a call
that fails is not cleared and stays pending. -/
def JType_AcceptMethod (rt : Runtime) (s : JPy_State) (declaringClass : TypeRef)
    (method : JPy_JMethod) : JPy_State × Bool :=
  match PyDict_GetItem rt.JPy_Type_Callbacks (s.typeAt declaringClass).javaName with
  | some callable =>
    if callable.callable then
      match PyObject_CallFunction s callable declaringClass method with
      | (s1, some Py_None) => (s1, false)
      | (s1, some (PyBool false)) => (s1, false)
      | (s1, _) => (s1, true)
    else (s, true)
  | none => (s, true)

/-- `JType_AddMethod`: opens a new overload group under the method name (`JOverloadedMethod_New`)
or appends to the existing one (`JOverloadedMethod_AddMethod`). -/
def JType_AddMethod (s : JPy_State) (type : TypeRef) (method : JPy_JMethod) : JPy_State × Int :=
  match (s.typeAt type).tp_dict with
  | none =>
    (PyErr_SetString s PyExc.RuntimeError "internal error: missing attribute '__dict__' in JType",
     -1)
  | some typeDict =>
    match PyDict_GetItem typeDict method.name with
    | none =>
      (s.update type (fun t => { t with tp_dict := some (PyDict_SetItem typeDict method.name
          (Member.overloadedMethod type method.name [method])) }), 0)
    | some (Member.overloadedMethod declaringClass name methodList) =>
      (s.update type (fun t => { t with tp_dict := some (PyDict_SetItem typeDict method.name
          (Member.overloadedMethod declaringClass name (methodList ++ [method]))) }), 0)
    | some _ =>
      (PyErr_SetString s PyExc.RuntimeError
        "internal error: expected type 'JOverloadedMethod' in '__dict__' of a JType", -1)

/-- The loop of `JType_CreateParamDescriptors`.  The fields that the C code leaves unset in the
fresh memory are given as `false` and `NULL`. -/
def JType_CreateParamDescriptors_loop (getType : GetTypeFn) :
    List JClass → List JPy_ParamDescriptor → JPy_State → Call (Option (List JPy_ParamDescriptor))
  | [], acc, s => some (s, some acc)
  | paramClass :: rest, acc, s =>
    match getType paramClass false s with
    | none => none
    | some (s1, none) => some (s1, none)
    | some (s1, some type) =>
      JType_CreateParamDescriptors_loop getType rest
        (acc ++ [{ type := type, isMutable := false, paramAssessor := none,
                   paramConverter := none }]) s1

/-- `JType_CreateParamDescriptors`; `none` in the result is `NULL`. -/
def JType_CreateParamDescriptors (rt : Runtime) (getType : GetTypeFn)
    (paramClasses : List JClass) (s : JPy_State) : Call (Option (List JPy_ParamDescriptor)) :=
  if rt.PyMem_New_fails s then some (PyErr_NoMemory s, none)
  else JType_CreateParamDescriptors_loop getType paramClasses [] s

/-- `JType_CreateReturnDescriptor`; `none` in the result is `NULL`. -/
def JType_CreateReturnDescriptor (rt : Runtime) (getType : GetTypeFn) (returnClass : JClass)
    (s : JPy_State) : Call (Option JPy_ReturnDescriptor) :=
  if rt.PyMem_New_fails s then some (PyErr_NoMemory s, none)
  else
    match getType returnClass false s with
    | none => none
    | some (s1, none) => some (s1, none)
    | some (s1, some type) => some (s1, some { type := type })

/-- The last part of `JType_ProcessMethod`, from `JMethod_New` on. -/
def JType_ProcessMethod_finish (rt : Runtime) (type : TypeRef) (methodKey : String)
    (paramCount : Nat) (paramDescriptors : List JPy_ParamDescriptor)
    (returnDescriptor : Option JPy_ReturnDescriptor) (isStatic : Bool) (mid : Nat)
    (s : JPy_State) : JPy_State × Int :=
  match JMethod_New rt s methodKey paramCount paramDescriptors returnDescriptor isStatic mid with
  | none => (s, -1)
  | some method =>
    match JType_AcceptMethod rt s type method with
    | (s1, true) =>
      ((JType_AddMethod s1 type (JType_InitMethodParamDescriptorFunctions rt type method)).1, 0)
    | (s1, false) => (s1, 0)

/-- `JType_ProcessMethod`: builds the descriptors of one constructor or method and adds it to
the member table of `type`. -/
def JType_ProcessMethod (rt : Runtime) (getType : GetTypeFn) (type : TypeRef)
    (methodKey : String) (returnType : Option JClass) (paramTypes : List JClass)
    (isStatic : Bool) (mid : Nat) (s : JPy_State) : Call Int :=
  let paramCount := paramTypes.length
  let created : Call (Option (List JPy_ParamDescriptor)) :=
    if paramCount > 0 then JType_CreateParamDescriptors rt getType paramTypes s
    else some (s, some [])
  match created with
  | none => none
  | some (s1, none) => some (s1, -1)
  | some (s1, some paramDescriptors) =>
    match returnType with
    | some returnClass =>
      match JType_CreateReturnDescriptor rt getType returnClass s1 with
      | none => none
      | some (s2, none) => some (s2, -1)
      | some (s2, some returnDescriptor) =>
        some (JType_ProcessMethod_finish rt type methodKey paramCount paramDescriptors
          (some returnDescriptor) isStatic mid s2)
    | none =>
      some (JType_ProcessMethod_finish rt type methodKey paramCount paramDescriptors none
        isStatic mid s1)

/-- The loop of `JType_ProcessClassConstructors`; the result of `JType_ProcessMethod` is not
looked at. -/
def JType_ProcessClassConstructors_loop (rt : Runtime) (getType : GetTypeFn) (type : TypeRef) :
    List JMethodInfo → JPy_State → Option JPy_State
  | [], s => some s
  | ctor :: rest, s =>
    let isPublic := (ctor.modifiers &&& 0x0001) != 0
    if isPublic then
      match JType_ProcessMethod rt getType type JPy_JINIT_ATTR_NAME none ctor.parameterTypes
          true ctor.mid s with
      | none => none
      | some (s1, _) => JType_ProcessClassConstructors_loop rt getType type rest s1
    else JType_ProcessClassConstructors_loop rt getType type rest s

/-- `JType_ProcessClassConstructors`. -/
def JType_ProcessClassConstructors (rt : Runtime) (getType : GetTypeFn) (type : TypeRef)
    (s : JPy_State) : Call Int :=
  let classRef := (s.typeAt type).classRef
  match JType_ProcessClassConstructors_loop rt getType type
      (rt.getDeclaredConstructors classRef) s with
  | none => none
  | some s1 => some (s1, 0)

/-- The loop of `JType_ProcessClassMethods`; the result of `JType_ProcessMethod` is not looked
at. -/
def JType_ProcessClassMethods_loop (rt : Runtime) (getType : GetTypeFn) (type : TypeRef) :
    List JMethodInfo → JPy_State → Option JPy_State
  | [], s => some s
  | method :: rest, s =>
    let isPublic := (method.modifiers &&& 0x0001) != 0
    let isStatic := (method.modifiers &&& 0x0008) != 0
    if isPublic then
      match JType_ProcessMethod rt getType type method.name method.returnType
          method.parameterTypes isStatic method.mid s with
      | none => none
      | some (s1, _) => JType_ProcessClassMethods_loop rt getType type rest s1
    else JType_ProcessClassMethods_loop rt getType type rest s

/-- `JType_ProcessClassMethods`. -/
def JType_ProcessClassMethods (rt : Runtime) (getType : GetTypeFn) (type : TypeRef)
    (s : JPy_State) : Call Int :=
  let classRef := (s.typeAt type).classRef
  match JType_ProcessClassMethods_loop rt getType type (rt.getDeclaredMethods classRef) s with
  | none => none
  | some s1 => some (s1, 0)

/-- `JType_AcceptField`. -/
def JType_AcceptField (_declaringClass : TypeRef) (_field : JPy_JField) : Bool := true

/-- `JType_AddField`. -/
def JType_AddField (s : JPy_State) (declaringClass : TypeRef) (field : JPy_JField) :
    JPy_State × Int :=
  match (s.typeAt declaringClass).tp_dict with
  | none =>
    (PyErr_SetString s PyExc.RuntimeError "internal error: missing attribute '__dict__' in JType",
     -1)
  | some typeDict =>
    (s.update declaringClass (fun t =>
      { t with tp_dict := some (PyDict_SetItem typeDict field.name (Member.field field)) }), 0)

/-- The value that `JType_AddFieldAttribute` reads from a static field and converts with the
`JPy_FROM_J*` macro of the field type. -/
def JType_StaticFieldValue (rt : Runtime) (classRef : JClass) (fieldType : TypeRef)
    (fid : Nat) : PyObject :=
  if some fieldType = rt.JPy_JBoolean then PyBool (rt.GetStaticIntegralField classRef fid != 0)
  else if some fieldType = rt.JPy_JChar then PyLong (rt.GetStaticIntegralField classRef fid)
  else if some fieldType = rt.JPy_JByte then PyLong (rt.GetStaticIntegralField classRef fid)
  else if some fieldType = rt.JPy_JShort then PyLong (rt.GetStaticIntegralField classRef fid)
  else if some fieldType = rt.JPy_JInt then PyLong (rt.GetStaticIntegralField classRef fid)
  else if some fieldType = rt.JPy_JLong then PyLong (rt.GetStaticIntegralField classRef fid)
  else if some fieldType = rt.JPy_JFloat then PyFloat (rt.GetStaticFloatingField classRef fid)
  else if some fieldType = rt.JPy_JDouble then PyFloat (rt.GetStaticFloatingField classRef fid)
  else if some fieldType = rt.JPy_JString then
    rt.JPy_FromJString (rt.GetStaticObjectField classRef fid)
  else rt.JPy_FromJObjectWithType (rt.GetStaticObjectField classRef fid) fieldType

/-- `JType_AddFieldAttribute`. -/
def JType_AddFieldAttribute (rt : Runtime) (declaringClass : TypeRef) (fieldName : String)
    (fieldType : TypeRef) (fid : Nat) (s : JPy_State) : JPy_State × Int :=
  match (s.typeAt declaringClass).tp_dict with
  | none =>
    (PyErr_SetString s PyExc.RuntimeError "internal error: missing attribute '__dict__' in JType",
     -1)
  | some typeDict =>
    (s.update declaringClass (fun t =>
      { t with tp_dict := some (PyDict_SetItem typeDict fieldName
          (Member.value (JType_StaticFieldValue rt (s.typeAt declaringClass).classRef
            fieldType fid))) }), 0)

/-- `JType_ProcessField`. -/
def JType_ProcessField (rt : Runtime) (getType : GetTypeFn) (declaringClass : TypeRef)
    (fieldKey : String) (fieldClassRef : JClass) (isStatic isFinal : Bool) (fid : Nat)
    (s : JPy_State) : Call Int :=
  match getType fieldClassRef false s with
  | none => none
  | some (s1, none) => some (s1, -1)
  | some (s1, some fieldType) =>
    if isStatic && isFinal then
      if (JType_AddFieldAttribute rt declaringClass fieldKey fieldType fid s1).2 < 0 then
        some ((JType_AddFieldAttribute rt declaringClass fieldKey fieldType fid s1).1, -1)
      else some ((JType_AddFieldAttribute rt declaringClass fieldKey fieldType fid s1).1, 0)
    else if !isStatic then
      match JField_New rt s1 declaringClass fieldKey fieldType isStatic isFinal fid with
      | none => some (s1, -1)
      | some field =>
        if JType_AcceptField declaringClass field then
          some ((JType_AddField s1 declaringClass field).1, 0)
        else some (s1, 0)
    else some (s1, 0)

/-- The loop of `JType_ProcessClassFields`; the result of `JType_ProcessField` is not looked
at. -/
def JType_ProcessClassFields_loop (rt : Runtime) (getType : GetTypeFn) (type : TypeRef) :
    List JFieldInfo → JPy_State → Option JPy_State
  | [], s => some s
  | field :: rest, s =>
    let isPublic := (field.modifiers &&& 0x0001) != 0
    let isStatic := (field.modifiers &&& 0x0008) != 0
    let isFinal := (field.modifiers &&& 0x0010) != 0
    if isPublic then
      match JType_ProcessField rt getType type field.name field.type isStatic isFinal
          field.fid s with
      | none => none
      | some (s1, _) => JType_ProcessClassFields_loop rt getType type rest s1
    else JType_ProcessClassFields_loop rt getType type rest s

/-- `JType_ProcessClassFields`. -/
def JType_ProcessClassFields (rt : Runtime) (getType : GetTypeFn) (type : TypeRef)
    (s : JPy_State) : Call Int :=
  let classRef := (s.typeAt type).classRef
  match JType_ProcessClassFields_loop rt getType type (rt.getDeclaredFields classRef) s with
  | none => none
  | some s1 => some (s1, 0)

/-! ## Resolution and the registry -/

/-- The step of `JType_ResolveType` for the base type: if `tp_base` is a mirror type that is
not resolved yet, it is resolved first. -/
def JType_ResolveBaseType (resolveBase : ResolveFn) (type : TypeRef) (s : JPy_State) :
    Call Int :=
  match (s.typeAt type).tp_base with
  | some baseType =>
    if !(s.typeAt baseType).isResolved then resolveBase baseType s else some (s, 0)
  | none => some (s, 0)

/-- The body of `JType_ResolveType` with its callees as parameters: the recursive call for the
base type and the three catalogers. -/
def JType_ResolveTypeWith (resolveBase processConstructors processMethods processFields :
    ResolveFn) (type : TypeRef) (s : JPy_State) : Call Int :=
  if (s.typeAt type).isResolved || (s.typeAt type).isResolving then some (s, 0)
  else
    match JType_ResolveBaseType resolveBase type
        (s.update type (fun t => { t with isResolving := true })) with
    | none => none
    | some (s2, r2) =>
      if r2 < 0 then some (s2.update type (fun t => { t with isResolving := false }), -1)
      else
        match processConstructors type s2 with
        | none => none
        | some (s3, r3) =>
          if r3 < 0 then some (s3.update type (fun t => { t with isResolving := false }), -1)
          else
            match processMethods type s3 with
            | none => none
            | some (s4, r4) =>
              if r4 < 0 then
                some (s4.update type (fun t => { t with isResolving := false }), -1)
              else
                match processFields type s4 with
                | none => none
                | some (s5, r5) =>
                  if r5 < 0 then
                    some (s5.update type (fun t => { t with isResolving := false }), -1)
                  else
                    some (s5.update type
                      (fun t => { t with isResolving := false, isResolved := true }), 0)

/-- `JType_ResolveType`, with `JType_GetType` and its own recursive call as parameters. -/
def JType_ResolveTypeBody (rt : Runtime) (getType : GetTypeFn) (resolveType : ResolveFn) :
    ResolveFn :=
  JType_ResolveTypeWith resolveType (JType_ProcessClassConstructors rt getType)
    (JType_ProcessClassMethods rt getType) (JType_ProcessClassFields rt getType)

/-- The end of `JType_GetType`: resolve the type if asked to and not yet done. -/
def JType_GetType_finish (resolveType : ResolveFn) (type : TypeRef) (resolve : Bool)
    (s : JPy_State) : Call (Option TypeRef) :=
  if !(s.typeAt type).isResolved && resolve then
    match resolveType type s with
    | none => none
    | some (s1, r) => if r < 0 then some (s1, none) else some (s1, some type)
  else some (s, some type)

/-- `JType_GetType`, with its recursive call and `JType_ResolveType` as parameters. -/
def JType_GetTypeBody (rt : Runtime) (getType : GetTypeFn) (resolveType : ResolveFn) :
    GetTypeFn := fun classRef resolve s =>
  match s.JPy_Types with
  | none =>
    some (PyErr_SetString s PyExc.RuntimeError "internal error: module 'jpy' not initialized",
      none)
  | some types =>
    let typeKey := rt.typeName classRef
    match PyDict_GetItem types typeKey with
    | none =>
      match JType_New rt classRef resolve s with
      | (s1, none) => some (s1, none)
      | (s1, some type) =>
        match JType_InitSuperType rt getType type resolve (JPy_Types_SetItem s1 typeKey type) with
        | none => none
        | some (s3, r3) =>
          if r3 < 0 then some (JPy_Types_DelItem s3 typeKey, none)
          else
            match JType_InitComponentType rt getType type resolve s3 with
            | none => none
            | some (s4, r4) =>
              if r4 < 0 then some (JPy_Types_DelItem s4 typeKey, none)
              else
                if (JType_InitSlots rt type s4).2 < 0 then
                  some (JPy_Types_DelItem (JType_InitSlots rt type s4).1 typeKey, none)
                else
                  JType_GetType_finish resolveType type resolve (JType_InitSlots rt type s4).1
    | some type => JType_GetType_finish resolveType type resolve s

/-- Both recursive functions at call-depth budget `n`: a call made with budget `n + 1` gives
its callees the budget `n`, and a call with budget `0` does not return. -/
def JType_fns (rt : Runtime) : Nat → GetTypeFn × ResolveFn
  | 0 => (fun _ _ _ => none, fun _ _ => none)
  | n + 1 =>
    (JType_GetTypeBody rt (JType_fns rt n).1 (JType_fns rt n).2,
     JType_ResolveTypeBody rt (JType_fns rt n).1 (JType_fns rt n).2)

/-- `JType_GetType` with call-depth budget `fuel`. -/
def JType_GetType (rt : Runtime) (fuel : Nat) : GetTypeFn := (JType_fns rt fuel).1

/-- `JType_ResolveType` with call-depth budget `fuel`. -/
def JType_ResolveType (rt : Runtime) (fuel : Nat) : ResolveFn := (JType_fns rt fuel).2

/-- The loop of `JType_GetTypeForName` over the copy of the name: every `.` is overwritten
with `/`. -/
def JType_GetTypeForName_replaceDots : List Char → List Char
  | [] => []
  | c :: rest => (if c = '.' then '/' else c) :: JType_GetTypeForName_replaceDots rest

/-- The end of `JType_GetTypeForName`, from `FindClass` on. -/
def JType_GetTypeForName_find (rt : Runtime) (getType : GetTypeFn) (resourceName : String)
    (resolve : Bool) (s : JPy_State) : Call (Option TypeRef) :=
  match rt.FindClass resourceName with
  | none => some (PyErr_SetString s PyExc.ValueError "Java class not found", none)
  | some classRef => getType classRef resolve s

/-- `JType_GetTypeForName`, with `JType_GetType` as a parameter.  The name is copied only when
it holds a `.`, and only the copy is written to. -/
def JType_GetTypeForName (rt : Runtime) (getType : GetTypeFn) (typeName : String)
    (resolve : Bool) (s : JPy_State) : Call (Option TypeRef) :=
  if '.' ∈ typeName.data then
    if rt.PyMem_New_fails s then some (PyErr_NoMemory s, none)
    else
      JType_GetTypeForName_find rt getType
        (String.mk (JType_GetTypeForName_replaceDots typeName.data)) resolve s
  else JType_GetTypeForName_find rt getType typeName resolve s

/-! ## Assessors -/

/-- `JType_AssessToJBoolean`. -/
def JType_AssessToJBoolean (_paramDescriptor : JPy_ParamDescriptor) (pyArg : PyObject) : Int :=
  if PyBool_Check pyArg then 100
  else if PyLong_Check pyArg then 10
  else 0

/-- `JType_AssessToJByte`. -/
def JType_AssessToJByte (_paramDescriptor : JPy_ParamDescriptor) (pyArg : PyObject) : Int :=
  if PyLong_Check pyArg then 100
  else if PyBool_Check pyArg then 10
  else 0

/-- `JType_AssessToJChar`. -/
def JType_AssessToJChar (_paramDescriptor : JPy_ParamDescriptor) (pyArg : PyObject) : Int :=
  if PyLong_Check pyArg then 100
  else if PyBool_Check pyArg then 10
  else 0

/-- `JType_AssessToJShort`. -/
def JType_AssessToJShort (_paramDescriptor : JPy_ParamDescriptor) (pyArg : PyObject) : Int :=
  if PyLong_Check pyArg then 100
  else if PyBool_Check pyArg then 10
  else 0

/-- `JType_AssessToJInt`. -/
def JType_AssessToJInt (_paramDescriptor : JPy_ParamDescriptor) (pyArg : PyObject) : Int :=
  if PyLong_Check pyArg then 100
  else if PyBool_Check pyArg then 10
  else 0

/-- `JType_AssessToJLong`. -/
def JType_AssessToJLong (_paramDescriptor : JPy_ParamDescriptor) (pyArg : PyObject) : Int :=
  if PyLong_Check pyArg then 100
  else if PyBool_Check pyArg then 10
  else 0

/-- `JType_AssessToJFloat`. -/
def JType_AssessToJFloat (_paramDescriptor : JPy_ParamDescriptor) (pyArg : PyObject) : Int :=
  if PyFloat_Check pyArg then 90
  else if PyNumber_Check pyArg then 50
  else if PyLong_Check pyArg then 10
  else if PyBool_Check pyArg then 1
  else 0

/-- `JType_AssessToJDouble`. -/
def JType_AssessToJDouble (_paramDescriptor : JPy_ParamDescriptor) (pyArg : PyObject) : Int :=
  if PyFloat_Check pyArg then 100
  else if PyNumber_Check pyArg then 50
  else if PyLong_Check pyArg then 10
  else if PyBool_Check pyArg then 1
  else 0

/-- `JType_AssessToJString`. -/
def JType_AssessToJString (_paramDescriptor : JPy_ParamDescriptor) (pyArg : PyObject) : Int :=
  if pyArg.isNone then 1
  else if PyUnicode_Check pyArg then 100
  else 0

/-- The first character `*view.format` of a format string (the terminating NUL when empty). -/
def formatChar (format : String) : Char := format.data.headD (Char.ofNat 0)

/-- The score `matchValue` that `JType_AssessToJObject` computes for the buffer `view` offered to
an array parameter with the primitive component type `type`. -/
def JType_AssessBuffer (rt : Runtime) (type : TypeRef) (view : Py_buffer) : Int :=
  match view.format with
  | none =>
    if some type = rt.JPy_JBoolean then (if view.itemsize = 1 then 10 else 0)
    else if some type = rt.JPy_JByte then (if view.itemsize = 1 then 10 else 0)
    else if some type = rt.JPy_JChar then (if view.itemsize = 2 then 10 else 0)
    else if some type = rt.JPy_JShort then (if view.itemsize = 2 then 10 else 0)
    else if some type = rt.JPy_JInt then (if view.itemsize = 4 then 10 else 0)
    else if some type = rt.JPy_JLong then (if view.itemsize = 8 then 10 else 0)
    else if some type = rt.JPy_JFloat then (if view.itemsize = 4 then 10 else 0)
    else if some type = rt.JPy_JDouble then (if view.itemsize = 8 then 10 else 0)
    else 0
  | some fmt =>
    let format := formatChar fmt
    if some type = rt.JPy_JBoolean then
      (if format = 'b' || format = 'B' then 100 else 0)
    else if some type = rt.JPy_JByte then
      (if format = 'b' then 100 else if format = 'B' then 90 else 0)
    else if some type = rt.JPy_JChar then
      (if format = 'u' then 100 else if format = 'H' then 90 else if format = 'h' then 80
       else 0)
    else if some type = rt.JPy_JShort then
      (if format = 'h' then 100 else if format = 'H' then 90 else 0)
    else if some type = rt.JPy_JInt then
      (if format = 'i' || format = 'l' then 100
       else if format = 'I' || format = 'L' then 90 else 0)
    else if some type = rt.JPy_JLong then
      (if format = 'q' then 100 else if format = 'Q' then 90 else 0)
    else if some type = rt.JPy_JFloat then
      (if format = 'f' then 100 else 0)
    else if some type = rt.JPy_JDouble then
      (if format = 'd' then 100 else 0)
    else 0

/-- `JType_AssessToJObject`. -/
def JType_AssessToJObject (rt : Runtime) (s : JPy_State) (paramDescriptor : JPy_ParamDescriptor)
    (pyArg : PyObject) : Int :=
  match pyArg with
  | Py_None => 1
  | JObj argType objectRef =>
    let paramType := paramDescriptor.type
    let paramComponentType := (s.typeAt paramType).componentType
    if argType = paramType then 100
    else if rt.IsInstanceOf objectRef (s.typeAt paramType).classRef then
      let argComponentType := (s.typeAt argType).componentType
      if argComponentType = paramComponentType then 90
      else
        match argComponentType, paramComponentType with
        | some argComponent, some paramComponent =>
          if rt.IsAssignableFrom (s.typeAt argComponent).classRef
              (s.typeAt paramComponent).classRef then 80
          else 0
        | _, _ => 0
    else 0
  | _ =>
    let paramType := paramDescriptor.type
    match (s.typeAt paramType).componentType with
    | some paramComponentType =>
      if (s.typeAt paramComponentType).isPrimitive && PyObject_CheckBuffer pyArg then
        match PyObject_GetBuffer pyArg PyBUF_FORMAT with
        | some view => JType_AssessBuffer rt paramComponentType view
        | none => 0
      else 0
    | none => 0

/-- A call through the `paramAssessor` pointer of a parameter descriptor. -/
def JPy_ParamDescriptor.assess (rt : Runtime) (s : JPy_State)
    (paramDescriptor : JPy_ParamDescriptor) (pyArg : PyObject) : Option Int :=
  match paramDescriptor.paramAssessor with
  | none => none
  | some ParamAssessor.toJBoolean => some (JType_AssessToJBoolean paramDescriptor pyArg)
  | some ParamAssessor.toJByte => some (JType_AssessToJByte paramDescriptor pyArg)
  | some ParamAssessor.toJChar => some (JType_AssessToJChar paramDescriptor pyArg)
  | some ParamAssessor.toJShort => some (JType_AssessToJShort paramDescriptor pyArg)
  | some ParamAssessor.toJInt => some (JType_AssessToJInt paramDescriptor pyArg)
  | some ParamAssessor.toJLong => some (JType_AssessToJLong paramDescriptor pyArg)
  | some ParamAssessor.toJFloat => some (JType_AssessToJFloat paramDescriptor pyArg)
  | some ParamAssessor.toJDouble => some (JType_AssessToJDouble paramDescriptor pyArg)
  | some ParamAssessor.toJString => some (JType_AssessToJString paramDescriptor pyArg)
  | some ParamAssessor.toJObject => some (JType_AssessToJObject rt s paramDescriptor pyArg)

/-! ## Scalar conversions (`jpy_conv.h`) -/

/-- A C conversion to a signed integer type of `w` bits: the low `w` bits, read as two's
complement. -/
def toSigned (w : Nat) (x : Int) : Int :=
  if x % 2 ^ w < 2 ^ (w - 1) then x % 2 ^ w else x % 2 ^ w - 2 ^ w

/-- A C conversion to an unsigned integer type of `w` bits: the low `w` bits. -/
def toUnsigned (w : Nat) (x : Int) : Int := x % 2 ^ w

/-- `PyLong_AsLong`: the value of an `int` that fits the C type `long`; `-1` with an
`OverflowError` when it does not fit, and `-1` with a `TypeError` for an object that is not an
`int` (a conversion through `__index__` is not modelled).  The second component is the
exception raised, if any. -/
def PyLong_AsLong (rt : Runtime) : PyObject → Int × Option PyExc
  | PyBool b => (if b then 1 else 0, none)
  | PyLong n =>
    if -(2 ^ (rt.LONG_BIT - 1)) ≤ n ∧ n ≤ 2 ^ (rt.LONG_BIT - 1) - 1 then (n, none)
    else (-1, some PyExc.OverflowError)
  | _ => (-1, some PyExc.TypeError)

/-- `PyLong_AsLongLong`: like `PyLong_AsLong` for the 64 bit type `long long`. -/
def PyLong_AsLongLong : PyObject → Int × Option PyExc
  | PyBool b => (if b then 1 else 0, none)
  | PyLong n =>
    if -(2 ^ 63) ≤ n ∧ n ≤ 2 ^ 63 - 1 then (n, none)
    else (-1, some PyExc.OverflowError)
  | _ => (-1, some PyExc.TypeError)

/-- `PyFloat_AsDouble`, on bit patterns. -/
def PyFloat_AsDouble (rt : Runtime) : PyObject → Nat × Option PyExc
  | PyFloat bits => (bits, none)
  | pyArg => rt.PyFloat_AsDouble_other pyArg

/-- The macro `JPy_AS_JBOOLEAN`, with the exception raised while it is evaluated. -/
def JPy_AS_JBOOLEAN (rt : Runtime) (pyArg : PyObject) : Int × Option PyExc :=
  match pyArg with
  | PyBool true => (1, none)
  | PyBool false => (0, none)
  | Py_None => (0, none)
  | _ => (toUnsigned 8 (if (PyLong_AsLong rt pyArg).1 != 0 then 1 else 0),
          (PyLong_AsLong rt pyArg).2)

/-- The macro `JPy_AS_JCHAR`; `jchar` is an unsigned 16 bit type. -/
def JPy_AS_JCHAR (rt : Runtime) (pyArg : PyObject) : Int × Option PyExc :=
  if pyArg.isNone then (toUnsigned 16 0, none)
  else (toUnsigned 16 (PyLong_AsLong rt pyArg).1, (PyLong_AsLong rt pyArg).2)

/-- The macro `JPy_AS_JBYTE`. -/
def JPy_AS_JBYTE (rt : Runtime) (pyArg : PyObject) : Int × Option PyExc :=
  if pyArg.isNone then (toSigned 8 0, none)
  else (toSigned 8 (PyLong_AsLong rt pyArg).1, (PyLong_AsLong rt pyArg).2)

/-- The macro `JPy_AS_JSHORT`. -/
def JPy_AS_JSHORT (rt : Runtime) (pyArg : PyObject) : Int × Option PyExc :=
  if pyArg.isNone then (toSigned 16 0, none)
  else (toSigned 16 (PyLong_AsLong rt pyArg).1, (PyLong_AsLong rt pyArg).2)

/-- The macro `JPy_AS_JINT`. -/
def JPy_AS_JINT (rt : Runtime) (pyArg : PyObject) : Int × Option PyExc :=
  if pyArg.isNone then (toSigned 32 0, none)
  else (toSigned 32 (PyLong_AsLong rt pyArg).1, (PyLong_AsLong rt pyArg).2)

/-- The macro `JPy_AS_JLONG`. -/
def JPy_AS_JLONG (pyArg : PyObject) : Int × Option PyExc :=
  if pyArg.isNone then (toSigned 64 0, none)
  else (toSigned 64 (PyLong_AsLongLong pyArg).1, (PyLong_AsLongLong pyArg).2)

/-- The macro `JPy_AS_JFLOAT`, on bit patterns; the constant `0` converts to the positive zero,
whose bit pattern is `0`. -/
def JPy_AS_JFLOAT (rt : Runtime) (pyArg : PyObject) : Nat × Option PyExc :=
  if pyArg.isNone then (0, none)
  else (rt.doubleToFloat (PyFloat_AsDouble rt pyArg).1, (PyFloat_AsDouble rt pyArg).2)

/-- The macro `JPy_AS_JDOUBLE`, on bit patterns. -/
def JPy_AS_JDOUBLE (rt : Runtime) (pyArg : PyObject) : Nat × Option PyExc :=
  if pyArg.isNone then (0, none)
  else PyFloat_AsDouble rt pyArg

/-- The macro `JPy_FROM_JBOOLEAN`: `PyBool_FromLong`. -/
def JPy_FROM_JBOOLEAN (jArg : Int) : PyObject := PyBool (jArg != 0)

/-- The macro `JPy_FROM_JCHAR`: `PyLong_FromLong`. -/
def JPy_FROM_JCHAR (jArg : Int) : PyObject := PyLong jArg

/-- The macro `JPy_FROM_JBYTE`: `PyLong_FromLong`. -/
def JPy_FROM_JBYTE (jArg : Int) : PyObject := PyLong jArg

/-- The macro `JPy_FROM_JSHORT`: `PyLong_FromLong`. -/
def JPy_FROM_JSHORT (jArg : Int) : PyObject := PyLong jArg

/-- The macro `JPy_FROM_JINT`: `PyLong_FromLong`. -/
def JPy_FROM_JINT (jArg : Int) : PyObject := PyLong jArg

/-- The macro `JPy_FROM_JLONG`: `PyLong_FromLongLong`. -/
def JPy_FROM_JLONG (jArg : Int) : PyObject := PyLong jArg

/-- The macro `JPy_FROM_JDOUBLE`: `PyFloat_FromDouble`, on bit patterns. -/
def JPy_FROM_JDOUBLE (jArg : Nat) : PyObject := PyFloat jArg

/-- The macro `JPy_FROM_JNULL`: `None`. -/
def JPy_FROM_JNULL : PyObject := Py_None

/-! ## Conversion of arguments -/

/-- The functions a `disposeArg` pointer can point to. -/
inductive ArgDisposeFn where
  | LocalObjectRef | ReadOnlyBuffer | WritableBuffer
  deriving DecidableEq, Repr

/-- The struct `JPy_ArgDisposer`; `data` is `NULL` or points to a buffer view. -/
structure JPy_ArgDisposer where
  data : Option Py_buffer
  disposeArg : Option ArgDisposeFn

/-- The state that the conversion of an argument works on: the process state, the primitive
arrays of the foreign virtual machine (a `jarray` handle is an index), the number of buffer
views that were obtained with `PyObject_GetBuffer` and not yet given back with
`PyBuffer_Release`, and the local references passed to `DeleteLocalRef`. -/
structure JPy_CallState where
  jpy : JPy_State
  arrays : List JArray
  exports : Nat
  deletedRefs : List JObject

/-- The outcome of a converter: the successor state, the C return value, and the `jvalue` and
the disposer behind the two output pointers. -/
structure Converted where
  state : JPy_CallState
  ret : Int
  value : jvalue
  disposer : JPy_ArgDisposer

/-- Sets the error indicator when evaluating a macro raised an exception. -/
def JPy_CallState.raise (cs : JPy_CallState) (exc : Option PyExc) : JPy_CallState :=
  match exc with
  | none => cs
  | some e => { cs with jpy := PyErr_SetString cs.jpy e "" }

/-- `JType_ConvertToJBoolean`. -/
def JType_ConvertToJBoolean (rt : Runtime) (_paramDescriptor : JPy_ParamDescriptor)
    (pyArg : PyObject) (cs : JPy_CallState) (_value : jvalue) (disposer : JPy_ArgDisposer) :
    Converted :=
  { state := cs.raise (JPy_AS_JBOOLEAN rt pyArg).2, ret := 0,
    value := jvalue.z (JPy_AS_JBOOLEAN rt pyArg).1, disposer := disposer }

/-- `JType_ConvertToJByte`. -/
def JType_ConvertToJByte (rt : Runtime) (_paramDescriptor : JPy_ParamDescriptor)
    (pyArg : PyObject) (cs : JPy_CallState) (_value : jvalue) (disposer : JPy_ArgDisposer) :
    Converted :=
  { state := cs.raise (JPy_AS_JBYTE rt pyArg).2, ret := 0,
    value := jvalue.b (JPy_AS_JBYTE rt pyArg).1, disposer := disposer }

/-- `JType_ConvertToJChar`. -/
def JType_ConvertToJChar (rt : Runtime) (_paramDescriptor : JPy_ParamDescriptor)
    (pyArg : PyObject) (cs : JPy_CallState) (_value : jvalue) (disposer : JPy_ArgDisposer) :
    Converted :=
  { state := cs.raise (JPy_AS_JCHAR rt pyArg).2, ret := 0,
    value := jvalue.c (JPy_AS_JCHAR rt pyArg).1, disposer := disposer }

/-- `JType_ConvertToJShort`. -/
def JType_ConvertToJShort (rt : Runtime) (_paramDescriptor : JPy_ParamDescriptor)
    (pyArg : PyObject) (cs : JPy_CallState) (_value : jvalue) (disposer : JPy_ArgDisposer) :
    Converted :=
  { state := cs.raise (JPy_AS_JSHORT rt pyArg).2, ret := 0,
    value := jvalue.s (JPy_AS_JSHORT rt pyArg).1, disposer := disposer }

/-- `JType_ConvertToJInt`. -/
def JType_ConvertToJInt (rt : Runtime) (_paramDescriptor : JPy_ParamDescriptor)
    (pyArg : PyObject) (cs : JPy_CallState) (_value : jvalue) (disposer : JPy_ArgDisposer) :
    Converted :=
  { state := cs.raise (JPy_AS_JINT rt pyArg).2, ret := 0,
    value := jvalue.i (JPy_AS_JINT rt pyArg).1, disposer := disposer }

/-- `JType_ConvertToJLong`. -/
def JType_ConvertToJLong (_rt : Runtime) (_paramDescriptor : JPy_ParamDescriptor)
    (pyArg : PyObject) (cs : JPy_CallState) (_value : jvalue) (disposer : JPy_ArgDisposer) :
    Converted :=
  { state := cs.raise (JPy_AS_JLONG pyArg).2, ret := 0,
    value := jvalue.j (JPy_AS_JLONG pyArg).1, disposer := disposer }

/-- `JType_ConvertToJFloat`. -/
def JType_ConvertToJFloat (rt : Runtime) (_paramDescriptor : JPy_ParamDescriptor)
    (pyArg : PyObject) (cs : JPy_CallState) (_value : jvalue) (disposer : JPy_ArgDisposer) :
    Converted :=
  { state := cs.raise (JPy_AS_JFLOAT rt pyArg).2, ret := 0,
    value := jvalue.f (JPy_AS_JFLOAT rt pyArg).1, disposer := disposer }

/-- `JType_ConvertToJDouble`. -/
def JType_ConvertToJDouble (rt : Runtime) (_paramDescriptor : JPy_ParamDescriptor)
    (pyArg : PyObject) (cs : JPy_CallState) (_value : jvalue) (disposer : JPy_ArgDisposer) :
    Converted :=
  { state := cs.raise (JPy_AS_JDOUBLE rt pyArg).2, ret := 0,
    value := jvalue.d (JPy_AS_JDOUBLE rt pyArg).1, disposer := disposer }

/-! ## Primitive arrays and buffers -/

/-- `memcpy(dst, src, n)`: the content of `dst` afterwards.  Both regions are taken to hold at
least `n` bytes, as the C function requires. -/
def memcpy (dst src : List Nat) (n : Nat) : List Nat := src.take n ++ dst.drop n

/-- `PyBuffer_Release`. -/
def PyBuffer_Release (cs : JPy_CallState) : JPy_CallState :=
  { cs with exports := cs.exports - 1 }

/-- The element width `itemSize` that `JType_ConvertToJObject` selects for the component type
`type` of an array parameter (`sizeof` of the JNI element type); `none` for the branch
"illegal primitive type". -/
def JType_ArrayItemSize (rt : Runtime) (type : TypeRef) : Option Int :=
  if some type = rt.JPy_JBoolean then some 1
  else if some type = rt.JPy_JByte then some 1
  else if some type = rt.JPy_JChar then some 2
  else if some type = rt.JPy_JShort then some 2
  else if some type = rt.JPy_JInt then some 4
  else if some type = rt.JPy_JLong then some 8
  else if some type = rt.JPy_JFloat then some 4
  else if some type = rt.JPy_JDouble then some 8
  else none

/-- The JNI functions `NewBooleanArray` to `NewDoubleArray`: a new array of `itemCount`
elements of width `itemSize`, filled with zeros, or `NULL`; a negative length is refused by
the virtual machine. -/
def JNI_NewArray (rt : Runtime) (cs : JPy_CallState) (itemSize itemCount : Int) :
    JPy_CallState × Option JObject :=
  if itemCount < 0 ∨ rt.NewArray_fails cs.arrays itemCount then (cs, none)
  else
    ({ cs with arrays := cs.arrays ++
         [JArray.mk itemCount itemSize (List.replicate (itemCount * itemSize).toNat 0)] },
     some cs.arrays.length)

/-- `GetPrimitiveArrayCritical`: the elements of the array, or `NULL`. -/
def JNI_GetPrimitiveArrayCritical (rt : Runtime) (cs : JPy_CallState) (array : JObject) :
    Option (List Nat) :=
  if rt.GetPrimitiveArrayCritical_fails cs.arrays array then none
  else (cs.arrays.get? array).map (fun a => a.items)

/-- `ReleasePrimitiveArrayCritical` with mode `0`: the elements are written back. -/
def JNI_ReleasePrimitiveArrayCritical (cs : JPy_CallState) (array : JObject)
    (carray : List Nat) : JPy_CallState :=
  match cs.arrays.get? array with
  | some a => { cs with arrays := cs.arrays.set array { a with items := carray } }
  | none => cs

/-- The handle `obj->objectRef` that `JType_ConvertToJObject` reads after casting `pyArg` to a
`JPy_JObj*`; for a value that is no such wrapper the C code reads foreign memory, which is
given as `NULL` here. -/
def JObj_objectRef : PyObject → Option JObject
  | JObj _ objectRef => objectRef
  | _ => none

/-- The part of `JType_ConvertToJObject` that follows the element count: the array is
created, the length is tested and the bytes are copied.  The count is a `Py_ssize_t` and is
narrowed to the 32 bit `jsize` where it is passed to the array constructor. -/
def JType_ConvertBufferToJArray_count (rt : Runtime) (paramDescriptor : JPy_ParamDescriptor)
    (componentType : TypeRef) (view : Py_buffer) (cs : JPy_CallState) (value : jvalue)
    (disposer : JPy_ArgDisposer) (itemCount : Int) : Converted :=
  if itemCount ≤ 0 then
    { state := { PyBuffer_Release cs with
                 jpy := PyErr_SetString cs.jpy PyExc.ValueError "illegal buffer configuration" },
      ret := -1, value := value, disposer := disposer }
  else
    match JType_ArrayItemSize rt componentType with
    | none =>
      { state := { PyBuffer_Release cs with
                   jpy := PyErr_SetString cs.jpy PyExc.RuntimeError
                     "internal error: illegal primitive type" },
        ret := -1, value := value, disposer := disposer }
    | some itemSize =>
      match JNI_NewArray rt cs itemSize (toSigned 32 itemCount) with
      | (cs1, array) =>
        if view.len ≠ itemCount * itemSize then
          { state := { PyBuffer_Release cs1 with
                       jpy := PyErr_SetString cs1.jpy PyExc.ValueError
                         "buffer length is too small" },
            ret := -1, value := value, disposer := disposer }
        else
          match array with
          | none =>
            { state := { PyBuffer_Release cs1 with jpy := PyErr_NoMemory cs1.jpy },
              ret := -1, value := value, disposer := disposer }
          | some array =>
            match JNI_GetPrimitiveArrayCritical rt cs1 array with
            | none =>
              { state := { PyBuffer_Release cs1 with jpy := PyErr_NoMemory cs1.jpy },
                ret := -1, value := value, disposer := disposer }
            | some carray =>
              { state := JNI_ReleasePrimitiveArrayCritical cs1 array
                  (memcpy carray view.buf (itemCount * itemSize).toNat),
                ret := 0, value := jvalue.l (some array),
                disposer := { data := some view,
                              disposeArg := if paramDescriptor.isMutable
                                then some ArgDisposeFn.WritableBuffer
                                else some ArgDisposeFn.ReadOnlyBuffer } }

/-- The part of `JType_ConvertToJObject` that runs once the buffer view was obtained.  The
element count is the truncating C division of the byte length by the item size of the view.
For an item size of 0 the division is undefined in C (the process is stopped by the
arithmetic exception): the call does not return, which is `none`. -/
def JType_ConvertBufferToJArray (rt : Runtime) (paramDescriptor : JPy_ParamDescriptor)
    (componentType : TypeRef) (view : Py_buffer) (cs : JPy_CallState) (value : jvalue)
    (disposer : JPy_ArgDisposer) : Option Converted :=
  if view.itemsize = 0 then none
  else
    some (JType_ConvertBufferToJArray_count rt paramDescriptor componentType view cs value
      disposer (view.len.tdiv view.itemsize))

/-- `JType_ConvertToJObject`; `none` when the call does not return. -/
def JType_ConvertToJObject (rt : Runtime) (paramDescriptor : JPy_ParamDescriptor)
    (pyArg : PyObject) (cs : JPy_CallState) (value : jvalue) (disposer : JPy_ArgDisposer) :
    Option Converted :=
  if pyArg.isNone then
    some { state := cs, ret := 0, value := jvalue.l none, disposer := disposer }
  else
    let paramType := paramDescriptor.type
    let isBufferForArray : Option TypeRef :=
      match (cs.jpy.typeAt paramType).componentType with
      | some componentType =>
        if (cs.jpy.typeAt componentType).isPrimitive && PyObject_CheckBuffer pyArg then
          some componentType
        else none
      | none => none
    match isBufferForArray with
    | some componentType =>
      if rt.PyMem_New_fails cs.jpy then
        some { state := { cs with jpy := PyErr_NoMemory cs.jpy }, ret := -1, value := value,
               disposer := disposer }
      else
        let flags := if paramDescriptor.isMutable then PyBUF_WRITABLE else PyBUF_SIMPLE
        match PyObject_GetBuffer pyArg flags with
        | none =>
          some { state := { cs with jpy := PyErr_SetString cs.jpy PyExc.BufferError "" },
                 ret := -1, value := value, disposer := disposer }
        | some view =>
          JType_ConvertBufferToJArray rt paramDescriptor componentType view
            { cs with exports := cs.exports + 1 } value disposer
    | none =>
      some { state := cs, ret := 0, value := jvalue.l (JObj_objectRef pyArg),
             disposer := { data := none, disposeArg := none } }

/-- `JType_ConvertToJString`. -/
def JType_ConvertToJString (rt : Runtime) (_paramDescriptor : JPy_ParamDescriptor)
    (pyArg : PyObject) (cs : JPy_CallState) (value : jvalue) (_disposer : JPy_ArgDisposer) :
    Converted :=
  match rt.JPy_AsJString pyArg with
  | none =>
    { state := cs, ret := -1, value := value,
      disposer := { data := none, disposeArg := some ArgDisposeFn.LocalObjectRef } }
  | some stringRef =>
    { state := cs, ret := 0, value := jvalue.l stringRef,
      disposer := { data := none, disposeArg := some ArgDisposeFn.LocalObjectRef } }

/-- A call through the `paramConverter` pointer of a parameter descriptor; `none` when the
call does not return (the pointer is `NULL`, or `JType_ConvertToJObject` does not return). -/
def JPy_ParamDescriptor.convert (rt : Runtime) (paramDescriptor : JPy_ParamDescriptor)
    (pyArg : PyObject) (cs : JPy_CallState) (value : jvalue) (disposer : JPy_ArgDisposer) :
    Option Converted :=
  match paramDescriptor.paramConverter with
  | none => none
  | some ParamConverter.toJBoolean =>
    some (JType_ConvertToJBoolean rt paramDescriptor pyArg cs value disposer)
  | some ParamConverter.toJByte =>
    some (JType_ConvertToJByte rt paramDescriptor pyArg cs value disposer)
  | some ParamConverter.toJChar =>
    some (JType_ConvertToJChar rt paramDescriptor pyArg cs value disposer)
  | some ParamConverter.toJShort =>
    some (JType_ConvertToJShort rt paramDescriptor pyArg cs value disposer)
  | some ParamConverter.toJInt =>
    some (JType_ConvertToJInt rt paramDescriptor pyArg cs value disposer)
  | some ParamConverter.toJLong =>
    some (JType_ConvertToJLong rt paramDescriptor pyArg cs value disposer)
  | some ParamConverter.toJFloat =>
    some (JType_ConvertToJFloat rt paramDescriptor pyArg cs value disposer)
  | some ParamConverter.toJDouble =>
    some (JType_ConvertToJDouble rt paramDescriptor pyArg cs value disposer)
  | some ParamConverter.toJString =>
    some (JType_ConvertToJString rt paramDescriptor pyArg cs value disposer)
  | some ParamConverter.toJObject =>
    JType_ConvertToJObject rt paramDescriptor pyArg cs value disposer

/-! ## Conversion of objects -/

/-- The struct `JPy_CArray`: the format tag, the number of items, the item size in bytes and
the items as bytes. -/
structure JPy_CArray where
  format : String
  length : Int
  itemSize : Int
  items : List Nat

/-- Modelled from the spec: `CArray_New` of `jpy_carray.c` is not among the sources.  A
fixed-size container tagged with the element format: `length` items of the width that belongs
to the format, all zero; `none` is `NULL`. -/
def CArray_New (rt : Runtime) (format : String) (length : Int) : Option JPy_CArray :=
  if rt.CArray_New_fails format length then none
  else some (JPy_CArray.mk format length (rt.CArray_ItemSize format)
    (List.replicate (rt.CArray_ItemSize format * length).toNat 0))

/-- Modelled from the spec: the container as a host object.  It is a structured buffer that
shows its items with their width and format tag. -/
def JPy_CArray.toPyObject (array : JPy_CArray) : PyObject :=
  PyOther false (some (fun _ => some (Py_buffer.mk array.items (array.itemSize * array.length)
    array.itemSize false (some array.format))))

/-- `GetArrayLength`; 0 for a handle that is no array. -/
def JNI_GetArrayLength (cs : JPy_CallState) (array : JObject) : Int :=
  match cs.arrays.get? array with
  | some a => a.length
  | none => 0

/-- The format that `JType_ConvertJavaToPythonObject` selects for the component type of a
primitive array; `none` for the branch "unknown primitive Java type". -/
def JType_ArrayFormat (rt : Runtime) (componentType : TypeRef) : Option String :=
  if some componentType = rt.JPy_JBoolean then some "b"
  else if some componentType = rt.JPy_JChar then some "H"
  else if some componentType = rt.JPy_JByte then some "b"
  else if some componentType = rt.JPy_JShort then some "h"
  else if some componentType = rt.JPy_JInt then some "l"
  else if some componentType = rt.JPy_JLong then some "q"
  else if some componentType = rt.JPy_JFloat then some "f"
  else if some componentType = rt.JPy_JDouble then some "d"
  else none

/-- The scalar branch of `JType_ConvertJavaToPythonObject`. -/
def JType_ConvertJavaToPythonScalar (rt : Runtime) (type : TypeRef) (objectRef : JObject) :
    Option PyObject :=
  if some type = rt.JPy_JBooleanObj then
    some (JPy_FROM_JBOOLEAN (toUnsigned 8 (rt.CallBooleanMethod objectRef)))
  else if some type = rt.JPy_JCharacterObj then
    some (JPy_FROM_JCHAR (toUnsigned 16 (rt.CallCharMethod objectRef)))
  else if some type = rt.JPy_JByteObj ∨ some type = rt.JPy_JShortObj ∨
      some type = rt.JPy_JIntegerObj then
    some (JPy_FROM_JINT (toSigned 32 (rt.CallIntMethod objectRef)))
  else if some type = rt.JPy_JLongObj then
    some (JPy_FROM_JLONG (toSigned 64 (rt.CallLongMethod objectRef)))
  else if some type = rt.JPy_JFloatObj ∨ some type = rt.JPy_JDoubleObj then
    some (JPy_FROM_JDOUBLE (rt.CallDoubleMethod objectRef))
  else if some type = rt.JPy_JString then some (rt.JPy_FromJString (some objectRef))
  else rt.JObj_FromType type objectRef

/-- `JType_ConvertJavaToPythonObject`; `none` in the result is `NULL`. -/
def JType_ConvertJavaToPythonObject (rt : Runtime) (cs : JPy_CallState) (type : TypeRef)
    (objectRef : Option JObject) : JPy_CallState × Option PyObject :=
  match objectRef with
  | none => (cs, some JPy_FROM_JNULL)
  | some objectRef =>
    match (cs.jpy.typeAt type).componentType with
    | none => (cs, JType_ConvertJavaToPythonScalar rt type objectRef)
    | some componentType =>
      if (cs.jpy.typeAt componentType).isPrimitive then
        let length := JNI_GetArrayLength cs objectRef
        match JNI_GetPrimitiveArrayCritical rt cs objectRef with
        | none => ({ cs with jpy := PyErr_NoMemory cs.jpy }, none)
        | some items =>
          match JType_ArrayFormat rt componentType with
          | none =>
            ({ JNI_ReleasePrimitiveArrayCritical cs objectRef items with
               jpy := PyErr_SetString cs.jpy PyExc.RuntimeError
                 "internal error: unknown primitive Java type" }, none)
          | some format =>
            match CArray_New rt format length with
            | some array =>
              (JNI_ReleasePrimitiveArrayCritical cs objectRef items,
               some (JPy_CArray.toPyObject (JPy_CArray.mk array.format array.length
                 array.itemSize (memcpy array.items items (array.itemSize * length).toNat))))
            | none => (JNI_ReleasePrimitiveArrayCritical cs objectRef items, none)
      else (cs, rt.JObj_FromType type objectRef)

/-- The outcome of `JType_ConvertPythonToJavaObject`: the successor state, the C return value
and the handle behind the output pointer. -/
structure ConvertedObject where
  state : JPy_CallState
  ret : Int
  objectRef : Option JObject

/-- The label `error` of `JType_ConvertPythonToJavaObject`. -/
def JType_ConvertPythonToJavaObject_error (cs : JPy_CallState) (objectRef : Option JObject) :
    ConvertedObject :=
  { state := { cs with
               jpy := PyErr_SetString cs.jpy PyExc.RuntimeError
                 "failed to convert Python object to Java object" },
    ret := -1, objectRef := objectRef }

/-- The part of `JType_ConvertPythonToJavaObject` that follows the tests for `None` and for a
wrapper of a foreign object: the selection by the target type. -/
def JType_ConvertPythonToJavaObject_other (rt : Runtime) (cs : JPy_CallState) (type : TypeRef)
    (pyArg : PyObject) (objectRef : Option JObject) : ConvertedObject :=
  if some type = rt.JPy_JBoolean ∨ some type = rt.JPy_JBooleanObj then
    if !(PyBool_Check pyArg || PyLong_Check pyArg) then
      JType_ConvertPythonToJavaObject_error cs objectRef
    else
      { state := cs.raise (JPy_AS_JBOOLEAN rt pyArg).2, ret := 0,
        objectRef := rt.NewObjectA BoxedClass.Boolean (jvalue.z (JPy_AS_JBOOLEAN rt pyArg).1) }
  else if some type = rt.JPy_JChar ∨ some type = rt.JPy_JCharacterObj then
    if !PyLong_Check pyArg then JType_ConvertPythonToJavaObject_error cs objectRef
    else
      { state := cs.raise (JPy_AS_JCHAR rt pyArg).2, ret := 0,
        objectRef := rt.NewObjectA BoxedClass.Character (jvalue.c (JPy_AS_JCHAR rt pyArg).1) }
  else if some type = rt.JPy_JByte ∨ some type = rt.JPy_JByteObj then
    if !PyLong_Check pyArg then JType_ConvertPythonToJavaObject_error cs objectRef
    else
      { state := cs.raise (JPy_AS_JBYTE rt pyArg).2, ret := 0,
        objectRef := rt.NewObjectA BoxedClass.Byte (jvalue.b (JPy_AS_JBYTE rt pyArg).1) }
  else if some type = rt.JPy_JShort ∨ some type = rt.JPy_JShortObj then
    if !PyLong_Check pyArg then JType_ConvertPythonToJavaObject_error cs objectRef
    else
      { state := cs.raise (JPy_AS_JSHORT rt pyArg).2, ret := 0,
        objectRef := rt.NewObjectA BoxedClass.Short (jvalue.s (JPy_AS_JSHORT rt pyArg).1) }
  else if some type = rt.JPy_JInt ∨ some type = rt.JPy_JIntegerObj then
    if !PyLong_Check pyArg then JType_ConvertPythonToJavaObject_error cs objectRef
    else
      { state := cs.raise (JPy_AS_JINT rt pyArg).2, ret := 0,
        objectRef := rt.NewObjectA BoxedClass.Integer (jvalue.i (JPy_AS_JINT rt pyArg).1) }
  else if some type = rt.JPy_JLong ∨ some type = rt.JPy_JLongObj then
    if !PyLong_Check pyArg then JType_ConvertPythonToJavaObject_error cs objectRef
    else
      { state := cs.raise (JPy_AS_JLONG pyArg).2, ret := 0,
        objectRef := rt.NewObjectA BoxedClass.Long (jvalue.j (JPy_AS_JLONG pyArg).1) }
  else if some type = rt.JPy_JFloat ∨ some type = rt.JPy_JFloatObj then
    if !PyFloat_Check pyArg then JType_ConvertPythonToJavaObject_error cs objectRef
    else
      { state := cs.raise (JPy_AS_JFLOAT rt pyArg).2, ret := 0,
        objectRef := rt.NewObjectA BoxedClass.Float (jvalue.f (JPy_AS_JFLOAT rt pyArg).1) }
  else if some type = rt.JPy_JDouble ∨ some type = rt.JPy_JDoubleObj then
    if !PyFloat_Check pyArg then JType_ConvertPythonToJavaObject_error cs objectRef
    else
      { state := cs.raise (JPy_AS_JDOUBLE rt pyArg).2, ret := 0,
        objectRef := rt.NewObjectA BoxedClass.Double (jvalue.d (JPy_AS_JDOUBLE rt pyArg).1) }
  else if some type = rt.JPy_JString then
    if !PyUnicode_Check pyArg then JType_ConvertPythonToJavaObject_error cs objectRef
    else
      match rt.JPy_AsJString pyArg with
      | none => JType_ConvertPythonToJavaObject_error cs objectRef
      | some stringRef => { state := cs, ret := 0, objectRef := stringRef }
  else JType_ConvertPythonToJavaObject_error cs objectRef

/-- `JType_ConvertPythonToJavaObject`. -/
def JType_ConvertPythonToJavaObject (rt : Runtime) (cs : JPy_CallState) (type : TypeRef)
    (pyArg : PyObject) (objectRef : Option JObject) : ConvertedObject :=
  match pyArg with
  | Py_None => { state := cs, ret := 0, objectRef := none }
  | JObj _ ref => { state := cs, ret := 0, objectRef := ref }
  | _ => JType_ConvertPythonToJavaObject_other rt cs type pyArg objectRef

/-! ## Specification vocabulary -/

/-- What every function of the bridge guarantees between the state `s` it is called in and the
state `s'` it returns: type objects are never freed and keep their name and class handle; a
type that is being resolved keeps both resolution flags; entries of the registry are never
replaced or removed, and its keys stay pairwise different; and a type object allocated during
the call has a name that was not registered when the call was made. -/
structure Frame (s s' : JPy_State) : Prop where
  heap_le : s.heap.length ≤ s'.heap.length
  identity : ∀ t, t < s.heap.length →
    (s'.typeAt t).javaName = (s.typeAt t).javaName ∧ (s'.typeAt t).classRef = (s.typeAt t).classRef
  resolving : ∀ t, t < s.heap.length → (s.typeAt t).isResolving = true →
    (s'.typeAt t).isResolving = true ∧ (s'.typeAt t).isResolved = (s.typeAt t).isResolved
  registry_none : s.JPy_Types = none → s'.JPy_Types = none
  registry : ∀ d, s.JPy_Types = some d → ∃ d', s'.JPy_Types = some d' ∧
    (∀ k v, PyDict_GetItem d k = some v → PyDict_GetItem d' k = some v) ∧
    (d.keys.Nodup → d'.keys.Nodup)
  fresh : ∀ d t, s.JPy_Types = some d → s.heap.length ≤ t → t < s'.heap.length →
    PyDict_GetItem d (s'.typeAt t).javaName = none

/-- A `JType_GetType` candidate behaves: it respects `Frame`, and a type it returns is the one
registered under the canonical name of the class. -/
def GetTypeOK (rt : Runtime) (g : GetTypeFn) : Prop :=
  ∀ c r s s' o, g c r s = some (s', o) → Frame s s' ∧
    ∀ t, o = some t → ∃ d', s'.JPy_Types = some d' ∧ PyDict_GetItem d' (rt.typeName c) = some t

/-- A `JType_ResolveType` candidate behaves: it respects `Frame` and reports success. -/
def ResolveOK (f : ResolveFn) : Prop :=
  ∀ t s s' r, f t s = some (s', r) → Frame s s' ∧ r = 0

/-- Number of names of `U` that are not registered in `s`. -/
def unregistered (U : List String) (s : JPy_State) : Nat :=
  match s.JPy_Types with
  | none => 0
  | some d => (U.filter (fun k => (PyDict_GetItem d k).isNone)).length

/-- Number of type objects of `s` that are not being resolved. -/
def notResolving (s : JPy_State) : Nat :=
  (s.heap.filter (fun t => !t.isResolving)).length

/-- The well-known singletons of the primitive types, `void` included. -/
def Runtime.primitiveTypes (rt : Runtime) : List (Option TypeRef) :=
  [rt.JPy_JVoid, rt.JPy_JBoolean, rt.JPy_JByte, rt.JPy_JChar, rt.JPy_JShort, rt.JPy_JInt,
   rt.JPy_JLong, rt.JPy_JFloat, rt.JPy_JDouble]

/-- The well-known singletons of the boxed wrapper classes. -/
def Runtime.boxedTypes (rt : Runtime) : List (Option TypeRef) :=
  [rt.JPy_JBooleanObj, rt.JPy_JByteObj, rt.JPy_JCharacterObj, rt.JPy_JShortObj,
   rt.JPy_JIntegerObj, rt.JPy_JLongObj, rt.JPy_JFloatObj, rt.JPy_JDoubleObj]

/-- All well-known type singletons. -/
def Runtime.wellKnownTypes (rt : Runtime) : List (Option TypeRef) :=
  rt.primitiveTypes ++ [rt.JPy_JString] ++ rt.boxedTypes

/-- A score that is either `0` (not viable) or at least `10`. -/
def ScoreZeroOrTen (x : Int) : Prop := x = 0 ∨ 10 ≤ x

/-! ## Example runtimes -/

/-- A runtime with two classes named `A` (class 0) and `B` (every other class), no members, no
failures, and the well-known singletons at the addresses 0 to 17.  `JType_InitSlots` installs
the supertype as base and an empty member table. -/
def rtExample : Runtime :=
  { typeName := fun c => if c = 0 then "A" else "B",
    GetSuperclass := fun _ => none,
    getComponentType := fun _ => none,
    isPrimitive := fun _ => false,
    getDeclaredConstructors := fun _ => [],
    getDeclaredMethods := fun _ => [],
    getDeclaredFields := fun _ => [],
    IsInstanceOf := fun _ _ => false,
    IsAssignableFrom := fun _ _ => false,
    GetStaticIntegralField := fun _ _ => 0,
    GetStaticFloatingField := fun _ _ => 0,
    GetStaticObjectField := fun _ _ => none,
    JPy_FromJString := fun _ => Py_None,
    JPy_FromJObjectWithType := fun _ _ => Py_None,
    JType_New_fails := fun _ _ => false,
    PyMem_New_fails := fun _ => false,
    JMethod_New_fails := fun _ _ => false,
    JField_New_fails := fun _ _ => false,
    JType_InitSlots := fun s t => some ((s.typeAt t).superType, some []),
    JPy_Type_Callbacks := [],
    JPy_JVoid := some 0, JPy_JBoolean := some 1, JPy_JChar := some 2, JPy_JByte := some 3,
    JPy_JShort := some 4, JPy_JInt := some 5, JPy_JLong := some 6, JPy_JFloat := some 7,
    JPy_JDouble := some 8, JPy_JString := some 9, JPy_JBooleanObj := some 10,
    JPy_JCharacterObj := some 11, JPy_JByteObj := some 12, JPy_JShortObj := some 13,
    JPy_JIntegerObj := some 14, JPy_JLongObj := some 15, JPy_JFloatObj := some 16,
    JPy_JDoubleObj := some 17 }

/-- A cyclic class graph: class `A` is its own superclass and has the component type `B`,
class `B` has the superclass `A` and is its own component type.  `A` declares a public
constructor taking a `B` and a public method `m` from `A` and `B` to `A`. -/
def rtCyclic : Runtime :=
  { rtExample with
    GetSuperclass := fun _ => some 0,
    getComponentType := fun _ => some 1,
    getDeclaredConstructors := fun c =>
      if c = 0 then [{ name := "A", modifiers := 1, returnType := none, parameterTypes := [1],
                       mid := 1 }] else [],
    getDeclaredMethods := fun c =>
      if c = 0 then [{ name := "m", modifiers := 1, returnType := some 0,
                       parameterTypes := [0, 1], mid := 2 }] else [],
    JPy_JVoid := none, JPy_JBoolean := none, JPy_JChar := none, JPy_JByte := none,
    JPy_JShort := none, JPy_JInt := none, JPy_JLong := none, JPy_JFloat := none,
    JPy_JDouble := none, JPy_JString := none, JPy_JBooleanObj := none,
    JPy_JCharacterObj := none, JPy_JByteObj := none, JPy_JShortObj := none,
    JPy_JIntegerObj := none, JPy_JLongObj := none, JPy_JFloatObj := none,
    JPy_JDoubleObj := none }

/-- Class `A` declares the public methods `m1`, whose parameter type `B` cannot be mirrored
(`JType_New` fails for it), and `m2` without parameters. -/
def rtFailing : Runtime :=
  { rtExample with
    getDeclaredMethods := fun c =>
      if c = 0 then
        [{ name := "m1", modifiers := 1, returnType := none, parameterTypes := [1], mid := 1 },
         { name := "m2", modifiers := 1, returnType := none, parameterTypes := [], mid := 2 }]
      else [],
    JType_New_fails := fun c _ => decide (c = 1) }

/-- The state of a freshly initialised module: no types, an empty registry, no error. -/
def stateEmpty : JPy_State := { heap := [], JPy_Types := some [], pyErr := none }

/-- A state with the single type `A` at address 0: registered, not resolved, with an empty
member table. -/
def stateA : JPy_State :=
  { heap := [{ javaName := "A", classRef := 0, isPrimitive := false, isResolved := false,
               isResolving := false, superType := none, componentType := none,
               tp_base := none, tp_dict := some [] }],
    JPy_Types := some [("A", 0)],
    pyErr := none }

/-- The state that `JType_GetType` leaves when it mirrors and resolves class `A` of the cyclic
class graph, starting from the empty state. -/
def stateCyclic : JPy_State :=
  match JType_GetType rtCyclic 5 0 true stateEmpty with
  | some (s, _) => s
  | none => stateEmpty

/-- The state that `JType_ResolveType` leaves for type `A` in `stateA` when its method `m1`
cannot be cataloged. -/
def stateAResolved : JPy_State :=
  match JType_ResolveType rtFailing 3 0 stateA with
  | some (s, _) => s
  | none => stateA

/-- A parameter descriptor without functions. -/
def paramExample (type : TypeRef) : JPy_ParamDescriptor :=
  { type := type, isMutable := false, paramAssessor := none, paramConverter := none }

/-- Type objects for the 18 well-known types at the addresses 0 to 17 that `rtExample` gives
them; the first nine (`void` and the eight primitive types) are primitive. -/
def wellKnownHeap : List JPy_JType :=
  (List.range 18).map (fun i =>
    { JPy_JType.null with javaName := "T", classRef := i, isPrimitive := decide (i < 9) })

/-- A type object for the array type with the component type `componentType`. -/
def arrayTypeExample (componentType : TypeRef) : JPy_JType :=
  { JPy_JType.null with javaName := "[", classRef := 100 + componentType,
                        componentType := some componentType }

/-- A state for `rtExample`: the well-known types, followed by the array types `boolean[]` at
address 18, `byte[]` at 19 and `int[]` at 20. -/
def stateArrays : JPy_State :=
  { heap := wellKnownHeap ++ [arrayTypeExample 1, arrayTypeExample 3, arrayTypeExample 5],
    JPy_Types := some [],
    pyErr := none }

/-- The state at the start of a call: no foreign arrays, no buffer views held. -/
def callStateArrays : JPy_CallState :=
  { jpy := stateArrays, arrays := [], exports := 0, deletedRefs := [] }

/-- A host object that exports the buffer `view`, whatever flags are requested. -/
def bufferObject (view : Py_buffer) : PyObject :=
  PyOther false (some (fun _ => some view))

/-- A view of `bytes` with the given item size and format tag. -/
def viewExample (bytes : List Nat) (itemsize : Int) (format : Option String) : Py_buffer :=
  { buf := bytes, len := bytes.length, itemsize := itemsize, readonly := false,
    format := format }

/-- A disposer that was not set. -/
def disposerNone : JPy_ArgDisposer := { data := none, disposeArg := none }

/-- The public bit `0x0001` of a modifier word. -/
def isPublic (modifiers : Nat) : Bool := (modifiers &&& 0x0001) != 0

/-- Hands each member of a list to `process`, in order; what `process` returns besides the
state is not looked at. -/
def processEach {α : Type} (process : α → JPy_State → Call Int) :
    List α → JPy_State → Option JPy_State
  | [], s => some s
  | member :: rest, s =>
    match process member s with
    | none => none
    | some (s1, _) => processEach process rest s1

/-- Class `A` declares a private constructor, a public and a protected method, and a private
field. -/
def rtVisibility : Runtime :=
  { rtExample with
    getDeclaredConstructors := fun _ =>
      [JMethodInfo.mk "<init>" 0x0002 none [] 1],
    getDeclaredMethods := fun _ =>
      [JMethodInfo.mk "hidden" 0x0004 none [] 2, JMethodInfo.mk "shown" 0x0001 none [] 3],
    getDeclaredFields := fun _ => [JFieldInfo.mk "secret" 0x0002 0 4] }

/-- The runtime `rtExample` in which every static integral field holds 42. -/
def rtStatic : Runtime := { rtExample with GetStaticIntegralField := fun _ _ => 42 }

/-- A state for `rtStatic`: the well-known types, of which `int` at address 5 is registered
under the name `B`, followed by the type `A` at address 18 with an empty member table. -/
def stateStatic : JPy_State :=
  { heap := wellKnownHeap ++ stateA.heap,
    JPy_Types := some [("B", 5)],
    pyErr := none }

/-- The lookup of `classRef` has failed and evicted the type object `stub` it had created: the
call returns `NULL`; the registry of the state it leaves has no entry under the canonical name
of the class; and a later lookup of a class of that name in that state, whatever its budget
and resolve flag, never returns `stub`. -/
def StubEvicted (rt : Runtime) (fuel : Nat) (classRef : JClass) (resolve : Bool)
    (s : JPy_State) (stub : TypeRef) : Prop :=
  ∃ s', JType_GetType rt fuel classRef resolve s = some (s', none) ∧
    (∃ d', s'.JPy_Types = some d' ∧ PyDict_GetItem d' (rt.typeName classRef) = none) ∧
    ∀ (fuel' : Nat) (classRef' : JClass) (resolve' : Bool) (s'' : JPy_State) (t' : TypeRef),
      rt.typeName classRef' = rt.typeName classRef →
      JType_GetType rt fuel' classRef' resolve' s' = some (s'', some t') → t' ≠ stub

/-- The runtime `rtExample` with a `JType_InitSlots` that fails. -/
def rtSlotsFail : Runtime := { rtExample with JType_InitSlots := fun _ _ => none }

/-- The name with every `.` replaced by `/`. -/
def slashed (name : String) : String :=
  String.mk (name.data.map (fun c => if c = '.' then '/' else c))

/-- The runtime `rtExample` in which class 0 is found under the resource name `A/B`. -/
def rtFind : Runtime :=
  { rtExample with FindClass := fun name => if name = "A/B" then some 0 else none }

/-- A call state for `rtExample` with one foreign array of the two integers 1 and 2. -/
def callStateIntArray : JPy_CallState :=
  { jpy := stateArrays, arrays := [JArray.mk 2 4 [1, 0, 0, 0, 2, 0, 0, 0]], exports := 0,
    deletedRefs := [] }

/-- The argument kinds that `JType_ConvertPythonToJavaObject` converts for a target type: what
`PyBool_Check` or `PyLong_Check` accepts for boolean, what `PyLong_Check` accepts for char,
byte, short, int and long, a float instance for float and double (for the primitive and for
the boxed type alike), and text for the string type. -/
def Convertible (rt : Runtime) (type : TypeRef) (pyArg : PyObject) : Prop :=
  ((some type = rt.JPy_JBoolean ∨ some type = rt.JPy_JBooleanObj) ∧
    (PyBool_Check pyArg = true ∨ PyLong_Check pyArg = true)) ∨
  ((some type = rt.JPy_JChar ∨ some type = rt.JPy_JCharacterObj ∨
    some type = rt.JPy_JByte ∨ some type = rt.JPy_JByteObj ∨
    some type = rt.JPy_JShort ∨ some type = rt.JPy_JShortObj ∨
    some type = rt.JPy_JInt ∨ some type = rt.JPy_JIntegerObj ∨
    some type = rt.JPy_JLong ∨ some type = rt.JPy_JLongObj) ∧ PyLong_Check pyArg = true) ∨
  ((some type = rt.JPy_JFloat ∨ some type = rt.JPy_JFloatObj ∨
    some type = rt.JPy_JDouble ∨ some type = rt.JPy_JDoubleObj) ∧
    PyFloat_Check pyArg = true) ∨
  (some type = rt.JPy_JString ∧ PyUnicode_Check pyArg = true)

/-- The runtime `rtExample` in which every object is an instance of every class and every
class is assignable to every class. -/
def rtInstance : Runtime :=
  { rtExample with IsInstanceOf := fun _ _ => true, IsAssignableFrom := fun _ _ => true }

/-- Every call that returns with `g` returns the same with `g'`. -/
def GetTypeLE (g g' : GetTypeFn) : Prop :=
  ∀ c r s out, g c r s = some out → g' c r s = some out

/-- Every call that returns with `f` returns the same with `f'`. -/
def ResolveLE (f f' : ResolveFn) : Prop :=
  ∀ t s out, f t s = some out → f' t s = some out

/-! ## Lemmas -/

/-! ### Dictionaries -/

theorem PyDict_GetItem_DelItem {α : Type} (d : PyDict α) (k k' : String) :
    PyDict_GetItem (PyDict_DelItem d k) k' = if k' = k then none else PyDict_GetItem d k' := by
  induction d with
  | nil => simp [PyDict_DelItem, PyDict_GetItem]
  | cons e rest ih =>
    obtain ⟨k0, v0⟩ := e
    simp only [PyDict_DelItem] at ih ⊢
    by_cases h0 : k0 = k
    · subst h0
      simp only [List.filter_cons, ne_eq, not_true_eq_false, decide_False, Bool.false_eq_true,
        if_false, ih]
      by_cases h1 : k' = k0
      · simp [h1]
      · have : ¬ k0 = k' := fun h => h1 h.symm
        simp [h1, PyDict_GetItem, this]
    · simp only [List.filter_cons, ne_eq, h0, not_false_eq_true, decide_True, if_true,
        PyDict_GetItem, ih]
      by_cases h1 : k0 = k'
      · subst h1
        simp [h0]
      · simp [h1]

theorem PyDict_GetItem_SetItem {α : Type} (d : PyDict α) (k k' : String) (v : α) :
    PyDict_GetItem (PyDict_SetItem d k v) k' = if k = k' then some v else PyDict_GetItem d k' := by
  simp only [PyDict_SetItem, PyDict_GetItem, PyDict_GetItem_DelItem]
  by_cases h : k = k'
  · simp [h]
  · have : ¬ k' = k := fun h' => h h'.symm
    simp [h, this]

theorem PyDict_GetItem_eq_none {α : Type} (d : PyDict α) (k : String) :
    PyDict_GetItem d k = none ↔ k ∉ d.keys := by
  induction d with
  | nil => simp [PyDict_GetItem, PyDict.keys]
  | cons e rest ih =>
    obtain ⟨k0, v0⟩ := e
    simp only [PyDict.keys] at ih
    by_cases h : k0 = k
    · simp [PyDict_GetItem, PyDict.keys, h]
    · have : ¬ k = k0 := fun h' => h h'.symm
      simp [PyDict_GetItem, PyDict.keys, h, ih, this]

theorem PyDict_DelItem_keys {α : Type} (d : PyDict α) (k : String) :
    (PyDict_DelItem d k).keys = d.keys.filter (fun x => decide (x ≠ k)) := by
  induction d with
  | nil => simp [PyDict_DelItem, PyDict.keys]
  | cons e rest ih =>
    simp only [PyDict_DelItem, PyDict.keys] at ih ⊢
    simp only [List.filter_cons, List.map_cons]
    split <;> simp_all

theorem PyDict_DelItem_nodup {α : Type} (d : PyDict α) (k : String) (h : d.keys.Nodup) :
    (PyDict_DelItem d k).keys.Nodup := by
  rw [PyDict_DelItem_keys]
  exact h.filter _

theorem PyDict_SetItem_nodup {α : Type} (d : PyDict α) (k : String) (v : α)
    (h : d.keys.Nodup) : (PyDict_SetItem d k v).keys.Nodup := by
  have h1 := PyDict_DelItem_nodup d k h
  have h2 : k ∉ (PyDict_DelItem d k).keys := by
    rw [PyDict_DelItem_keys]
    simp
  simp only [PyDict_SetItem, PyDict.keys, List.map_cons, List.nodup_cons]
  exact ⟨h2, h1⟩

/-! ### The heap -/

theorem typeAt_update (s : JPy_State) (t t' : TypeRef) (f : JPy_JType → JPy_JType) :
    (s.update t f).typeAt t' =
      if t = t' ∧ t < s.heap.length then f (s.typeAt t) else s.typeAt t' := by
  simp only [JPy_State.update, JPy_State.typeAt, List.getD_eq_getElem?_getD, List.getElem?_set]
  by_cases h : t = t'
  · subst h
    by_cases h2 : t < s.heap.length
    · simp [h2]
    · simp [h2, List.getElem?_eq_none (Nat.le_of_not_lt h2)]
  · simp [h]

theorem typeAt_update_ne (s : JPy_State) (t t' : TypeRef) (f : JPy_JType → JPy_JType)
    (h : t ≠ t') : (s.update t f).typeAt t' = s.typeAt t' := by
  simp [typeAt_update, h]

theorem typeAt_update_self (s : JPy_State) (t : TypeRef) (f : JPy_JType → JPy_JType)
    (h : t < s.heap.length) : (s.update t f).typeAt t = f (s.typeAt t) := by
  simp [typeAt_update, h]

@[simp]
theorem update_heap_length (s : JPy_State) (t : TypeRef) (f : JPy_JType → JPy_JType) :
    (s.update t f).heap.length = s.heap.length := by
  simp [JPy_State.update]

@[simp]
theorem update_JPy_Types (s : JPy_State) (t : TypeRef) (f : JPy_JType → JPy_JType) :
    (s.update t f).JPy_Types = s.JPy_Types := rfl

theorem typeAt_of_le (s : JPy_State) (t : TypeRef) (h : s.heap.length ≤ t) :
    s.typeAt t = JPy_JType.null := by
  simp [JPy_State.typeAt, List.getElem?_eq_none h]

/-! ### Frames -/

theorem Frame.refl (s : JPy_State) : Frame s s where
  heap_le := Nat.le_refl _
  identity := fun _ _ => ⟨rfl, rfl⟩
  resolving := fun _ _ h => ⟨h, rfl⟩
  registry_none := fun h => h
  registry := fun d h => ⟨d, h, fun _ _ h => h, fun h => h⟩
  fresh := fun _ _ _ h1 h2 => absurd h2 (Nat.not_lt.mpr h1)

theorem Frame.trans {s1 s2 s3 : JPy_State} (h12 : Frame s1 s2) (h23 : Frame s2 s3) :
    Frame s1 s3 where
  heap_le := Nat.le_trans h12.heap_le h23.heap_le
  identity := by
    intro t ht
    have a := h12.identity t ht
    have b := h23.identity t (Nat.lt_of_lt_of_le ht h12.heap_le)
    exact ⟨b.1.trans a.1, b.2.trans a.2⟩
  resolving := by
    intro t ht hr
    have a := h12.resolving t ht hr
    have b := h23.resolving t (Nat.lt_of_lt_of_le ht h12.heap_le) a.1
    exact ⟨b.1, b.2.trans a.2⟩
  registry_none := fun h => h23.registry_none (h12.registry_none h)
  registry := by
    intro d hd
    obtain ⟨d2, hd2, hm2, hn2⟩ := h12.registry d hd
    obtain ⟨d3, hd3, hm3, hn3⟩ := h23.registry d2 hd2
    exact ⟨d3, hd3, fun k v h => hm3 k v (hm2 k v h), fun h => hn3 (hn2 h)⟩
  fresh := by
    intro d t hd hle hlt
    obtain ⟨d2, hd2, hm2, _⟩ := h12.registry d hd
    by_cases h : t < s2.heap.length
    · have a := h12.fresh d t hd hle h
      rw [(h23.identity t h).1]
      exact a
    · have a := h23.fresh d2 t hd2 (Nat.le_of_not_lt h) hlt
      cases hg : PyDict_GetItem d (s3.typeAt t).javaName with
      | none => rfl
      | some v => rw [hm2 _ _ hg] at a; exact absurd a (by simp)

/-- Writing fields other than the name, the class handle and the resolution flags. -/
theorem Frame.update (s : JPy_State) (t : TypeRef) (f : JPy_JType → JPy_JType)
    (hf : ∀ x, (f x).javaName = x.javaName ∧ (f x).classRef = x.classRef ∧
      (f x).isResolving = x.isResolving ∧ (f x).isResolved = x.isResolved) :
    Frame s (s.update t f) where
  heap_le := by simp
  identity := by
    intro t' _
    rw [typeAt_update]
    split
    · rename_i h; rw [← h.1]; exact ⟨(hf _).1, (hf _).2.1⟩
    · exact ⟨rfl, rfl⟩
  resolving := by
    intro t' _ hr
    rw [typeAt_update]
    split
    · rename_i h
      rw [← h.1] at hr ⊢
      exact ⟨by rw [(hf _).2.2.1]; exact hr, (hf _).2.2.2⟩
    · exact ⟨hr, rfl⟩
  registry_none := fun h => h
  registry := fun d h => ⟨d, h, fun _ _ h => h, fun h => h⟩
  fresh := by
    intro _ t' _ h1 h2
    simp at h2
    omega

/-- Writing the resolution flags of a type that was not being resolved at the start. -/
theorem Frame.update_flags {s s' : JPy_State} (h : Frame s s') (t : TypeRef)
    (f : JPy_JType → JPy_JType)
    (hf : ∀ x, (f x).javaName = x.javaName ∧ (f x).classRef = x.classRef)
    (hnot : t < s.heap.length → (s.typeAt t).isResolving = false) : Frame s (s'.update t f) where
  heap_le := by simpa using h.heap_le
  identity := by
    intro t' ht'
    rw [typeAt_update]
    split
    · rename_i h'
      rw [← h'.1] at ht' ⊢
      have := h.identity t ht'
      exact ⟨(hf _).1.trans this.1, (hf _).2.trans this.2⟩
    · exact h.identity t' ht'
  resolving := by
    intro t' ht' hr
    rw [typeAt_update]
    split
    · rename_i h'
      rw [← h'.1] at ht' hr
      rw [hnot ht'] at hr
      exact absurd hr (by simp)
    · exact h.resolving t' ht' hr
  registry_none := fun h' => h.registry_none h'
  registry := fun d hd => h.registry d hd
  fresh := by
    intro d t' hd h1 h2
    simp only [update_heap_length] at h2
    rw [typeAt_update]
    split
    · rename_i h'
      rw [(hf _).1, h'.1]
      exact h.fresh d t' hd h1 h2
    · exact h.fresh d t' hd h1 h2

theorem Frame.setErr (s : JPy_State) (e : PyExc) (m : String) : Frame s (PyErr_SetString s e m) where
  heap_le := Nat.le_refl _
  identity := fun _ _ => ⟨rfl, rfl⟩
  resolving := fun _ _ h => ⟨h, rfl⟩
  registry_none := fun h => h
  registry := fun d h => ⟨d, h, fun _ _ h => h, fun h => h⟩
  fresh := fun _ _ _ h1 h2 => absurd h2 (Nat.not_lt.mpr h1)

theorem Frame.noMemory (s : JPy_State) : Frame s (PyErr_NoMemory s) where
  heap_le := Nat.le_refl _
  identity := fun _ _ => ⟨rfl, rfl⟩
  resolving := fun _ _ h => ⟨h, rfl⟩
  registry_none := fun h => h
  registry := fun d h => ⟨d, h, fun _ _ h => h, fun h => h⟩
  fresh := fun _ _ _ h1 h2 => absurd h2 (Nat.not_lt.mpr h1)

/-! ### Frames of the cataloging functions -/

theorem JType_InitSlots_frame (rt : Runtime) (t : TypeRef) (s : JPy_State) :
    Frame s (JType_InitSlots rt t s).1 := by
  unfold JType_InitSlots
  split
  · exact Frame.refl s
  · try dsimp only
    apply Frame.update
    intro x
    exact ⟨rfl, rfl, rfl, rfl⟩

theorem JType_InitSuperType_frame (rt : Runtime) (g : GetTypeFn) (hg : GetTypeOK rt g)
    (t : TypeRef) (r : Bool) (s s' : JPy_State) (x : Int)
    (h : JType_InitSuperType rt g t r s = some (s', x)) : Frame s s' := by
  unfold JType_InitSuperType at h
  split at h
  · split at h
    · simp at h
    · rename_i s1 hcall
      simp only [Option.some.injEq, Prod.mk.injEq] at h
      rw [← h.1]
      exact (hg _ _ _ _ _ hcall).1.trans (Frame.update s1 t _ (fun x => ⟨rfl, rfl, rfl, rfl⟩))
    · rename_i s1 st hcall
      simp only [Option.some.injEq, Prod.mk.injEq] at h
      rw [← h.1]
      exact (hg _ _ _ _ _ hcall).1.trans (Frame.update s1 t _ (fun x => ⟨rfl, rfl, rfl, rfl⟩))
  · simp only [Option.some.injEq, Prod.mk.injEq] at h
    rw [← h.1]
    exact Frame.update s t _ (fun x => ⟨rfl, rfl, rfl, rfl⟩)

theorem JType_InitComponentType_frame (rt : Runtime) (g : GetTypeFn) (hg : GetTypeOK rt g)
    (t : TypeRef) (r : Bool) (s s' : JPy_State) (x : Int)
    (h : JType_InitComponentType rt g t r s = some (s', x)) : Frame s s' := by
  unfold JType_InitComponentType at h
  split at h
  · split at h
    · simp at h
    · rename_i s1 hcall
      simp only [Option.some.injEq, Prod.mk.injEq] at h
      rw [← h.1]
      exact (hg _ _ _ _ _ hcall).1.trans (Frame.update s1 t _ (fun x => ⟨rfl, rfl, rfl, rfl⟩))
    · rename_i s1 st hcall
      simp only [Option.some.injEq, Prod.mk.injEq] at h
      rw [← h.1]
      exact (hg _ _ _ _ _ hcall).1.trans (Frame.update s1 t _ (fun x => ⟨rfl, rfl, rfl, rfl⟩))
  · simp only [Option.some.injEq, Prod.mk.injEq] at h
    rw [← h.1]
    exact Frame.update s t _ (fun x => ⟨rfl, rfl, rfl, rfl⟩)

theorem JType_AddMethod_frame (s : JPy_State) (t : TypeRef) (m : JPy_JMethod) :
    Frame s (JType_AddMethod s t m).1 := by
  unfold JType_AddMethod
  split
  · exact Frame.setErr _ _ _
  · split
    · try dsimp only
      apply Frame.update
      intro x
      exact ⟨rfl, rfl, rfl, rfl⟩
    · try dsimp only
      apply Frame.update
      intro x
      exact ⟨rfl, rfl, rfl, rfl⟩
    · exact Frame.setErr _ _ _

theorem PyObject_CallFunction_frame (s : JPy_State) (callable : TypeCallback) (t : TypeRef)
    (method : JPy_JMethod) : Frame s (PyObject_CallFunction s callable t method).1 := by
  unfold PyObject_CallFunction
  split
  · exact Frame.setErr _ _ _
  · split
    · exact Frame.refl s
    · exact Frame.setErr _ _ _

theorem JType_AcceptMethod_frame (rt : Runtime) (s : JPy_State) (t : TypeRef)
    (method : JPy_JMethod) : Frame s (JType_AcceptMethod rt s t method).1 := by
  unfold JType_AcceptMethod
  split
  · split
    · have hcall := PyObject_CallFunction_frame s (by assumption) t method
      split
      · rename_i heq
        rw [heq] at hcall
        exact hcall
      · rename_i heq
        rw [heq] at hcall
        exact hcall
      · rename_i heq
        rw [heq] at hcall
        exact hcall
    · exact Frame.refl s
  · exact Frame.refl s

theorem JType_ProcessMethod_finish_frame (rt : Runtime) (t : TypeRef) (key : String) (n : Nat)
    (pds : List JPy_ParamDescriptor) (rd : Option JPy_ReturnDescriptor) (st : Bool) (mid : Nat)
    (s : JPy_State) : Frame s (JType_ProcessMethod_finish rt t key n pds rd st mid s).1 := by
  unfold JType_ProcessMethod_finish
  split
  · exact Frame.refl s
  · have hacc := JType_AcceptMethod_frame rt s t (by assumption)
    split
    · rename_i heq
      rw [heq] at hacc
      exact Frame.trans hacc (JType_AddMethod_frame _ _ _)
    · rename_i heq
      rw [heq] at hacc
      exact hacc

theorem JType_CreateParamDescriptors_loop_frame (rt : Runtime) (g : GetTypeFn)
    (hg : GetTypeOK rt g) (cs : List JClass) :
    ∀ (acc : List JPy_ParamDescriptor) (s s' : JPy_State) (o : Option (List JPy_ParamDescriptor)),
      JType_CreateParamDescriptors_loop g cs acc s = some (s', o) → Frame s s' := by
  induction cs with
  | nil =>
    intro acc s s' o h
    simp only [JType_CreateParamDescriptors_loop, Option.some.injEq, Prod.mk.injEq] at h
    rw [← h.1]
    exact Frame.refl s
  | cons c rest ih =>
    intro acc s s' o h
    simp only [JType_CreateParamDescriptors_loop] at h
    split at h
    · simp at h
    · rename_i s1 hcall
      simp only [Option.some.injEq, Prod.mk.injEq] at h
      rw [← h.1]
      exact (hg _ _ _ _ _ hcall).1
    · rename_i s1 ty hcall
      exact (hg _ _ _ _ _ hcall).1.trans (ih _ _ _ _ h)

theorem JType_CreateParamDescriptors_frame (rt : Runtime) (g : GetTypeFn)
    (hg : GetTypeOK rt g) (cs : List JClass) (s s' : JPy_State)
    (o : Option (List JPy_ParamDescriptor))
    (h : JType_CreateParamDescriptors rt g cs s = some (s', o)) : Frame s s' := by
  unfold JType_CreateParamDescriptors at h
  split at h
  · simp only [Option.some.injEq, Prod.mk.injEq] at h
    rw [← h.1]
    exact Frame.noMemory s
  · exact JType_CreateParamDescriptors_loop_frame rt g hg cs _ _ _ _ h

theorem JType_CreateReturnDescriptor_frame (rt : Runtime) (g : GetTypeFn)
    (hg : GetTypeOK rt g) (c : JClass) (s s' : JPy_State) (o : Option JPy_ReturnDescriptor)
    (h : JType_CreateReturnDescriptor rt g c s = some (s', o)) : Frame s s' := by
  unfold JType_CreateReturnDescriptor at h
  split at h
  · simp only [Option.some.injEq, Prod.mk.injEq] at h
    rw [← h.1]
    exact Frame.noMemory s
  · split at h
    · simp at h
    · rename_i s1 hcall
      simp only [Option.some.injEq, Prod.mk.injEq] at h
      rw [← h.1]
      exact (hg _ _ _ _ _ hcall).1
    · rename_i s1 ty hcall
      simp only [Option.some.injEq, Prod.mk.injEq] at h
      rw [← h.1]
      exact (hg _ _ _ _ _ hcall).1

theorem JType_ProcessMethod_frame (rt : Runtime) (g : GetTypeFn) (hg : GetTypeOK rt g)
    (t : TypeRef) (key : String) (ret : Option JClass) (ps : List JClass) (st : Bool)
    (mid : Nat) (s s' : JPy_State) (x : Int)
    (h : JType_ProcessMethod rt g t key ret ps st mid s = some (s', x)) : Frame s s' := by
  unfold JType_ProcessMethod at h
  simp only [] at h
  have hcreated : ∀ s1 o, (if ps.length > 0 then JType_CreateParamDescriptors rt g ps s
      else some (s, some [])) = some (s1, o) → Frame s s1 := by
    intro s1 o hc
    split at hc
    · exact JType_CreateParamDescriptors_frame rt g hg ps s s1 o hc
    · simp only [Option.some.injEq, Prod.mk.injEq] at hc
      rw [← hc.1]
      exact Frame.refl s
  split at h
  · simp at h
  · rename_i s1 hc
    simp only [Option.some.injEq, Prod.mk.injEq] at h
    rw [← h.1]
    exact hcreated _ _ hc
  · rename_i s1 pds hc
    have h1 := hcreated _ _ hc
    split at h
    · split at h
      · simp at h
      · rename_i s2 hr
        simp only [Option.some.injEq, Prod.mk.injEq] at h
        rw [← h.1]
        exact h1.trans (JType_CreateReturnDescriptor_frame rt g hg _ _ _ _ hr)
      · rename_i s2 rd hr
        simp only [Option.some.injEq] at h
        have h2 := JType_CreateReturnDescriptor_frame rt g hg _ _ _ _ hr
        have h3 := JType_ProcessMethod_finish_frame rt t key ps.length pds (some rd) st mid s2
        rw [h] at h3
        exact (h1.trans h2).trans h3
    · simp only [Option.some.injEq] at h
      have h3 := JType_ProcessMethod_finish_frame rt t key ps.length pds none st mid s1
      rw [h] at h3
      exact h1.trans h3

theorem JType_ProcessClassConstructors_loop_frame (rt : Runtime) (g : GetTypeFn)
    (hg : GetTypeOK rt g) (t : TypeRef) (l : List JMethodInfo) :
    ∀ (s s' : JPy_State), JType_ProcessClassConstructors_loop rt g t l s = some s' →
      Frame s s' := by
  induction l with
  | nil =>
    intro s s' h
    simp only [JType_ProcessClassConstructors_loop, Option.some.injEq] at h
    rw [← h]
    exact Frame.refl s
  | cons c rest ih =>
    intro s s' h
    simp only [JType_ProcessClassConstructors_loop] at h
    split at h
    · split at h
      · simp at h
      · rename_i s1 x hcall
        exact (JType_ProcessMethod_frame rt g hg _ _ _ _ _ _ _ _ _ hcall).trans (ih _ _ h)
    · exact ih _ _ h

theorem JType_ProcessClassConstructors_ok (rt : Runtime) (g : GetTypeFn) (hg : GetTypeOK rt g) :
    ResolveOK (JType_ProcessClassConstructors rt g) := by
  intro t s s' r h
  unfold JType_ProcessClassConstructors at h
  simp only [] at h
  split at h
  · simp at h
  · rename_i s1 hl
    simp only [Option.some.injEq, Prod.mk.injEq] at h
    rw [← h.1, ← h.2]
    exact ⟨JType_ProcessClassConstructors_loop_frame rt g hg t _ _ _ hl, rfl⟩

theorem JType_ProcessClassMethods_loop_frame (rt : Runtime) (g : GetTypeFn)
    (hg : GetTypeOK rt g) (t : TypeRef) (l : List JMethodInfo) :
    ∀ (s s' : JPy_State), JType_ProcessClassMethods_loop rt g t l s = some s' →
      Frame s s' := by
  induction l with
  | nil =>
    intro s s' h
    simp only [JType_ProcessClassMethods_loop, Option.some.injEq] at h
    rw [← h]
    exact Frame.refl s
  | cons c rest ih =>
    intro s s' h
    simp only [JType_ProcessClassMethods_loop] at h
    split at h
    · split at h
      · simp at h
      · rename_i s1 x hcall
        exact (JType_ProcessMethod_frame rt g hg _ _ _ _ _ _ _ _ _ hcall).trans (ih _ _ h)
    · exact ih _ _ h

theorem JType_ProcessClassMethods_ok (rt : Runtime) (g : GetTypeFn) (hg : GetTypeOK rt g) :
    ResolveOK (JType_ProcessClassMethods rt g) := by
  intro t s s' r h
  unfold JType_ProcessClassMethods at h
  simp only [] at h
  split at h
  · simp at h
  · rename_i s1 hl
    simp only [Option.some.injEq, Prod.mk.injEq] at h
    rw [← h.1, ← h.2]
    exact ⟨JType_ProcessClassMethods_loop_frame rt g hg t _ _ _ hl, rfl⟩

theorem JType_AddField_frame (s : JPy_State) (t : TypeRef) (f : JPy_JField) :
    Frame s (JType_AddField s t f).1 := by
  unfold JType_AddField
  split
  · exact Frame.setErr _ _ _
  · try dsimp only
    apply Frame.update
    intro x
    exact ⟨rfl, rfl, rfl, rfl⟩

theorem JType_AddFieldAttribute_frame (rt : Runtime) (t : TypeRef) (name : String)
    (ft : TypeRef) (fid : Nat) (s : JPy_State) :
    Frame s (JType_AddFieldAttribute rt t name ft fid s).1 := by
  unfold JType_AddFieldAttribute
  split
  · exact Frame.setErr _ _ _
  · try dsimp only
    apply Frame.update
    intro x
    exact ⟨rfl, rfl, rfl, rfl⟩

theorem JType_ProcessField_frame (rt : Runtime) (g : GetTypeFn) (hg : GetTypeOK rt g)
    (t : TypeRef) (key : String) (c : JClass) (st fin : Bool) (fid : Nat)
    (s s' : JPy_State) (x : Int)
    (h : JType_ProcessField rt g t key c st fin fid s = some (s', x)) : Frame s s' := by
  unfold JType_ProcessField at h
  split at h
  · simp at h
  · rename_i s1 hcall
    simp only [Option.some.injEq, Prod.mk.injEq] at h
    rw [← h.1]
    exact (hg _ _ _ _ _ hcall).1
  · rename_i s1 ft hcall
    have h1 := (hg _ _ _ _ _ hcall).1
    split at h
    · split at h <;>
      · simp only [Option.some.injEq, Prod.mk.injEq] at h
        rw [← h.1]
        exact h1.trans (JType_AddFieldAttribute_frame _ _ _ _ _ _)
    · split at h
      · split at h
        · simp only [Option.some.injEq, Prod.mk.injEq] at h
          rw [← h.1]
          exact h1
        · split at h
          · simp only [Option.some.injEq, Prod.mk.injEq] at h
            rw [← h.1]
            exact h1.trans (JType_AddField_frame _ _ _)
          · simp only [Option.some.injEq, Prod.mk.injEq] at h
            rw [← h.1]
            exact h1
      · simp only [Option.some.injEq, Prod.mk.injEq] at h
        rw [← h.1]
        exact h1

theorem JType_ProcessClassFields_loop_frame (rt : Runtime) (g : GetTypeFn)
    (hg : GetTypeOK rt g) (t : TypeRef) (l : List JFieldInfo) :
    ∀ (s s' : JPy_State), JType_ProcessClassFields_loop rt g t l s = some s' →
      Frame s s' := by
  induction l with
  | nil =>
    intro s s' h
    simp only [JType_ProcessClassFields_loop, Option.some.injEq] at h
    rw [← h]
    exact Frame.refl s
  | cons c rest ih =>
    intro s s' h
    simp only [JType_ProcessClassFields_loop] at h
    split at h
    · split at h
      · simp at h
      · rename_i s1 x hcall
        exact (JType_ProcessField_frame rt g hg _ _ _ _ _ _ _ _ _ hcall).trans (ih _ _ h)
    · exact ih _ _ h

theorem JType_ProcessClassFields_ok (rt : Runtime) (g : GetTypeFn) (hg : GetTypeOK rt g) :
    ResolveOK (JType_ProcessClassFields rt g) := by
  intro t s s' r h
  unfold JType_ProcessClassFields at h
  simp only [] at h
  split at h
  · simp at h
  · rename_i s1 hl
    simp only [Option.some.injEq, Prod.mk.injEq] at h
    rw [← h.1, ← h.2]
    exact ⟨JType_ProcessClassFields_loop_frame rt g hg t _ _ _ hl, rfl⟩

/-! ### Frames of resolution and lookup -/

theorem JType_ResolveBaseType_ok (rb : ResolveFn) (hrb : ResolveOK rb) :
    ResolveOK (JType_ResolveBaseType rb) := by
  intro t s s' r h
  unfold JType_ResolveBaseType at h
  split at h
  · split at h
    · exact hrb _ _ _ _ h
    · simp only [Option.some.injEq, Prod.mk.injEq] at h
      rw [← h.1, ← h.2]
      exact ⟨Frame.refl s, rfl⟩
  · simp only [Option.some.injEq, Prod.mk.injEq] at h
    rw [← h.1, ← h.2]
    exact ⟨Frame.refl s, rfl⟩

theorem JType_ResolveTypeWith_ok (rb pc pm pf : ResolveFn) (hrb : ResolveOK rb)
    (hpc : ResolveOK pc) (hpm : ResolveOK pm) (hpf : ResolveOK pf) :
    ResolveOK (JType_ResolveTypeWith rb pc pm pf) := by
  intro t s s' r h
  unfold JType_ResolveTypeWith at h
  split at h
  · simp only [Option.some.injEq, Prod.mk.injEq] at h
    rw [← h.1, ← h.2]
    exact ⟨Frame.refl s, rfl⟩
  · rename_i hguard
    have hnr : (s.typeAt t).isResolving = false := by
      simp only [Bool.or_eq_true, not_or, Bool.not_eq_true] at hguard
      exact hguard.2
    have h01 : Frame s (s.update t (fun t => { t with isResolving := true })) :=
      (Frame.refl s).update_flags t _ (fun x => ⟨rfl, rfl⟩) (fun _ => hnr)
    split at h
    · simp at h
    · rename_i s2 r2 hb
      obtain ⟨f12, e2⟩ := JType_ResolveBaseType_ok rb hrb _ _ _ _ hb
      subst e2
      simp only [lt_self_iff_false, if_false] at h
      split at h
      · simp at h
      · rename_i s3 r3 hc
        obtain ⟨f23, e3⟩ := hpc _ _ _ _ hc
        subst e3
        simp only [lt_self_iff_false, if_false] at h
        split at h
        · simp at h
        · rename_i s4 r4 hm
          obtain ⟨f34, e4⟩ := hpm _ _ _ _ hm
          subst e4
          simp only [lt_self_iff_false, if_false] at h
          split at h
          · simp at h
          · rename_i s5 r5 hf
            obtain ⟨f45, e5⟩ := hpf _ _ _ _ hf
            subst e5
            simp only [lt_self_iff_false, if_false, Option.some.injEq, Prod.mk.injEq] at h
            rw [← h.1, ← h.2]
            refine ⟨?_, rfl⟩
            exact ((((h01.trans f12).trans f23).trans f34).trans f45).update_flags t _
              (fun x => ⟨rfl, rfl⟩) (fun _ => hnr)

theorem JType_ResolveTypeBody_ok (rt : Runtime) (g : GetTypeFn) (f : ResolveFn)
    (hg : GetTypeOK rt g) (hf : ResolveOK f) : ResolveOK (JType_ResolveTypeBody rt g f) :=
  JType_ResolveTypeWith_ok _ _ _ _ hf (JType_ProcessClassConstructors_ok rt g hg)
    (JType_ProcessClassMethods_ok rt g hg) (JType_ProcessClassFields_ok rt g hg)

theorem JType_GetType_finish_ok (f : ResolveFn) (hf : ResolveOK f) (t : TypeRef) (r : Bool)
    (s s' : JPy_State) (o : Option TypeRef)
    (h : JType_GetType_finish f t r s = some (s', o)) : Frame s s' ∧ o = some t := by
  unfold JType_GetType_finish at h
  split at h
  · split at h
    · simp at h
    · rename_i s1 x hcall
      obtain ⟨fr, e⟩ := hf _ _ _ _ hcall
      subst e
      simp only [lt_self_iff_false, if_false, Option.some.injEq, Prod.mk.injEq] at h
      rw [← h.1, ← h.2]
      exact ⟨fr, rfl⟩
  · simp only [Option.some.injEq, Prod.mk.injEq] at h
    rw [← h.1, ← h.2]
    exact ⟨Frame.refl s, rfl⟩

theorem JType_New_none (rt : Runtime) (c : JClass) (r : Bool) (s s1 : JPy_State)
    (h : JType_New rt c r s = (s1, none)) : s1 = PyErr_NoMemory s := by
  unfold JType_New at h
  split at h
  · simp only [Prod.mk.injEq] at h
    exact h.1.symm
  · simp at h

theorem JType_New_some (rt : Runtime) (c : JClass) (r : Bool) (s s1 : JPy_State) (t : TypeRef)
    (h : JType_New rt c r s = (s1, some t)) :
    t = s.heap.length ∧ s1.JPy_Types = s.JPy_Types ∧ s1.heap.length = s.heap.length + 1 ∧
    (s1.typeAt t).javaName = rt.typeName c ∧ (∀ t', t' < s.heap.length → s1.typeAt t' = s.typeAt t') := by
  unfold JType_New at h
  split at h
  · simp at h
  · simp only [Prod.mk.injEq, Option.some.injEq] at h
    obtain ⟨h1, h2⟩ := h
    subst h1
    subst h2
    refine ⟨rfl, rfl, by simp, ?_, ?_⟩
    · simp [JPy_State.typeAt]
    · intro t' ht'
      simp [JPy_State.typeAt, List.getElem?_append_left ht']

@[simp]
theorem JPy_Types_SetItem_heap (s : JPy_State) (k : String) (t : TypeRef) :
    (JPy_Types_SetItem s k t).heap = s.heap := rfl

@[simp]
theorem JPy_Types_DelItem_heap (s : JPy_State) (k : String) :
    (JPy_Types_DelItem s k).heap = s.heap := rfl

@[simp]
theorem JPy_Types_SetItem_typeAt (s : JPy_State) (k : String) (t t' : TypeRef) :
    (JPy_Types_SetItem s k t).typeAt t' = s.typeAt t' := rfl

@[simp]
theorem JPy_Types_DelItem_typeAt (s : JPy_State) (k : String) (t' : TypeRef) :
    (JPy_Types_DelItem s k).typeAt t' = s.typeAt t' := rfl

theorem Frame.of_new (rt : Runtime) (c : JClass) (r : Bool) (s s1 s' : JPy_State)
    (d : PyDict TypeRef) (type : TypeRef) (hd : s.JPy_Types = some d)
    (hmiss : PyDict_GetItem d (rt.typeName c) = none)
    (hnew : JType_New rt c r s = (s1, some type))
    (h : Frame (JPy_Types_SetItem s1 (rt.typeName c) type) s') :
    Frame s s' ∧ Frame s (JPy_Types_DelItem s' (rt.typeName c)) ∧
      ∃ d', s'.JPy_Types = some d' ∧ PyDict_GetItem d' (rt.typeName c) = some type := by
  obtain ⟨ht, hreg, hlen, hname, hold⟩ := JType_New_some rt c r s s1 type hnew
  have hd2 : (JPy_Types_SetItem s1 (rt.typeName c) type).JPy_Types
      = some (PyDict_SetItem d (rt.typeName c) type) := by
    simp [JPy_Types_SetItem, hreg, hd]
  obtain ⟨d', hd', hmono, hnodup⟩ := h.registry _ hd2
  have hle : s.heap.length ≤ s'.heap.length := by
    have := h.heap_le
    simp only [JPy_Types_SetItem_heap] at this
    omega
  have hident : ∀ t, t < s.heap.length →
      (s'.typeAt t).javaName = (s.typeAt t).javaName ∧
      (s'.typeAt t).classRef = (s.typeAt t).classRef := by
    intro t' ht'
    have := h.identity t' (by simp only [JPy_Types_SetItem_heap]; omega)
    simp only [JPy_Types_SetItem_typeAt, hold t' ht'] at this
    exact this
  have hres : ∀ t, t < s.heap.length → (s.typeAt t).isResolving = true →
      (s'.typeAt t).isResolving = true ∧ (s'.typeAt t).isResolved = (s.typeAt t).isResolved := by
    intro t' ht' hr
    have := h.resolving t' (by simp only [JPy_Types_SetItem_heap]; omega)
    simp only [JPy_Types_SetItem_typeAt, hold t' ht'] at this
    exact this hr
  have hmono' : ∀ k v, PyDict_GetItem d k = some v → PyDict_GetItem d' k = some v := by
    intro k v hk
    apply hmono
    rw [PyDict_GetItem_SetItem]
    split
    · rename_i e
      rw [← e, hmiss] at hk
      simp at hk
    · exact hk
  have hfresh : ∀ t, s.heap.length ≤ t → t < s'.heap.length →
      PyDict_GetItem d (s'.typeAt t).javaName = none := by
    intro t' h1 h2
    by_cases e : t' = s.heap.length
    · have := (h.identity t' (by simp only [JPy_Types_SetItem_heap]; omega)).1
      simp only [JPy_Types_SetItem_typeAt] at this
      rw [this, e, ← ht, hname]
      exact hmiss
    · have := h.fresh _ t' hd2 (by simp only [JPy_Types_SetItem_heap]; omega) h2
      rw [PyDict_GetItem_SetItem] at this
      split at this
      · simp at this
      · exact this
  have hkey : PyDict_GetItem d' (rt.typeName c) = some type := by
    apply hmono
    simp [PyDict_GetItem_SetItem]
  refine ⟨?_, ?_, d', hd', hkey⟩
  · exact
    { heap_le := hle
      identity := hident
      resolving := hres
      registry_none := fun hn => by rw [hd] at hn; simp at hn
      registry := by
        intro d0 hd0
        rw [hd] at hd0
        simp only [Option.some.injEq] at hd0
        subst hd0
        exact ⟨d', hd', hmono', fun hn => hnodup (PyDict_SetItem_nodup _ _ _ hn)⟩
      fresh := by
        intro d0 t' hd0 h1 h2
        rw [hd] at hd0
        simp only [Option.some.injEq] at hd0
        subst hd0
        exact hfresh t' h1 h2 }
  · exact
    { heap_le := by simpa using hle
      identity := by simpa using hident
      resolving := by simpa using hres
      registry_none := fun hn => by rw [hd] at hn; simp at hn
      registry := by
        intro d0 hd0
        rw [hd] at hd0
        simp only [Option.some.injEq] at hd0
        subst hd0
        refine ⟨PyDict_DelItem d' (rt.typeName c), by simp [JPy_Types_DelItem, hd'], ?_, ?_⟩
        · intro k v hk
          rw [PyDict_GetItem_DelItem]
          split
          · rename_i e
            rw [e, hmiss] at hk
            simp at hk
          · exact hmono' k v hk
        · intro hn
          exact PyDict_DelItem_nodup _ _ (hnodup (PyDict_SetItem_nodup _ _ _ hn))
      fresh := by
        intro d0 t' hd0 h1 h2
        rw [hd] at hd0
        simp only [Option.some.injEq] at hd0
        subst hd0
        simp only [JPy_Types_DelItem_heap] at h2
        simp only [JPy_Types_DelItem_typeAt]
        exact hfresh t' h1 h2 }

theorem JType_GetTypeBody_ok (rt : Runtime) (g : GetTypeFn) (f : ResolveFn)
    (hg : GetTypeOK rt g) (hf : ResolveOK f) : GetTypeOK rt (JType_GetTypeBody rt g f) := by
  intro c r s s' o h
  unfold JType_GetTypeBody at h
  split at h
  · simp only [Option.some.injEq, Prod.mk.injEq] at h
    rw [← h.1, ← h.2]
    exact ⟨Frame.setErr _ _ _, fun t ht => by simp at ht⟩
  · rename_i d hd
    simp only [] at h
    split at h
    · rename_i hmiss
      split at h
      · rename_i s1 hnew
        simp only [Option.some.injEq, Prod.mk.injEq] at h
        rw [← h.1, ← h.2, JType_New_none rt c r s s1 hnew]
        exact ⟨Frame.noMemory s, fun t ht => by simp at ht⟩
      · rename_i s1 type hnew
        split at h
        · simp at h
        · rename_i s3 r3 hsup
          have f23 := JType_InitSuperType_frame rt g hg _ _ _ _ _ hsup
          split at h
          · simp only [Option.some.injEq, Prod.mk.injEq] at h
            rw [← h.1, ← h.2]
            exact ⟨(Frame.of_new rt c r s s1 s3 d type hd hmiss hnew f23).2.1,
              fun t ht => by simp at ht⟩
          · split at h
            · simp at h
            · rename_i s4 r4 hcomp
              have f34 := JType_InitComponentType_frame rt g hg _ _ _ _ _ hcomp
              split at h
              · simp only [Option.some.injEq, Prod.mk.injEq] at h
                rw [← h.1, ← h.2]
                exact ⟨(Frame.of_new rt c r s s1 s4 d type hd hmiss hnew (f23.trans f34)).2.1,
                  fun t ht => by simp at ht⟩
              · have f45 := JType_InitSlots_frame rt type s4
                split at h
                · simp only [Option.some.injEq, Prod.mk.injEq] at h
                  rw [← h.1, ← h.2]
                  exact ⟨(Frame.of_new rt c r s s1 _ d type hd hmiss hnew
                    ((f23.trans f34).trans f45)).2.1, fun t ht => by simp at ht⟩
                · obtain ⟨f56, e⟩ := JType_GetType_finish_ok f hf _ _ _ _ _ h
                  have all := Frame.of_new rt c r s s1 s' d type hd hmiss hnew
                    (((f23.trans f34).trans f45).trans f56)
                  refine ⟨all.1, ?_⟩
                  intro t ht
                  rw [e] at ht
                  simp only [Option.some.injEq] at ht
                  rw [← ht]
                  exact all.2.2
    · rename_i type hhit
      obtain ⟨f56, e⟩ := JType_GetType_finish_ok f hf _ _ _ _ _ h
      refine ⟨f56, ?_⟩
      intro t ht
      rw [e] at ht
      simp only [Option.some.injEq] at ht
      rw [← ht]
      obtain ⟨d', hd', hm, _⟩ := f56.registry d hd
      exact ⟨d', hd', hm _ _ hhit⟩

theorem JType_fns_ok (rt : Runtime) (n : Nat) :
    GetTypeOK rt (JType_fns rt n).1 ∧ ResolveOK (JType_fns rt n).2 := by
  induction n with
  | zero =>
    constructor
    · intro c r s s' o h
      simp [JType_fns] at h
    · intro t s s' r h
      simp [JType_fns] at h
  | succ n ih =>
    exact ⟨JType_GetTypeBody_ok rt _ _ ih.1 ih.2, JType_ResolveTypeBody_ok rt _ _ ih.1 ih.2⟩

theorem JType_GetType_ok (rt : Runtime) (n : Nat) : GetTypeOK rt (JType_GetType rt n) :=
  (JType_fns_ok rt n).1

theorem JType_ResolveType_ok (rt : Runtime) (n : Nat) : ResolveOK (JType_ResolveType rt n) :=
  (JType_fns_ok rt n).2

/-! ### Monotonicity in the call-depth budget -/

theorem JType_InitSuperType_mono (rt : Runtime) (g g' : GetTypeFn) (hle : GetTypeLE g g')
    (t : TypeRef) (r : Bool) (s : JPy_State) (out : JPy_State × Int) :
    JType_InitSuperType rt g t r s = some out → JType_InitSuperType rt g' t r s = some out := by
  unfold JType_InitSuperType
  cases rt.GetSuperclass (s.typeAt t).classRef with
  | none => exact fun h => h
  | some c =>
    simp only []
    cases hc : g c r s with
    | none => intro h; simp at h
    | some p => rw [hle _ _ _ _ hc]; exact fun h => h

theorem JType_InitComponentType_mono (rt : Runtime) (g g' : GetTypeFn) (hle : GetTypeLE g g')
    (t : TypeRef) (r : Bool) (s : JPy_State) (out : JPy_State × Int) :
    JType_InitComponentType rt g t r s = some out →
      JType_InitComponentType rt g' t r s = some out := by
  unfold JType_InitComponentType
  cases rt.getComponentType (s.typeAt t).classRef with
  | none => exact fun h => h
  | some c =>
    simp only []
    cases hc : g c r s with
    | none => intro h; simp at h
    | some p => rw [hle _ _ _ _ hc]; exact fun h => h

theorem JType_CreateParamDescriptors_loop_mono (g g' : GetTypeFn) (hle : GetTypeLE g g')
    (cs : List JClass) :
    ∀ (acc : List JPy_ParamDescriptor) (s : JPy_State)
      (out : JPy_State × Option (List JPy_ParamDescriptor)),
      JType_CreateParamDescriptors_loop g cs acc s = some out →
      JType_CreateParamDescriptors_loop g' cs acc s = some out := by
  induction cs with
  | nil => intro acc s out h; exact h
  | cons c rest ih =>
    intro acc s out
    simp only [JType_CreateParamDescriptors_loop]
    cases hc : g c false s with
    | none => intro h; simp at h
    | some p =>
      rw [hle _ _ _ _ hc]
      obtain ⟨s1, o⟩ := p
      cases o with
      | none => exact fun h => h
      | some ty => exact ih _ _ _

theorem JType_CreateParamDescriptors_mono (rt : Runtime) (g g' : GetTypeFn)
    (hle : GetTypeLE g g') (cs : List JClass) (s : JPy_State)
    (out : JPy_State × Option (List JPy_ParamDescriptor)) :
    JType_CreateParamDescriptors rt g cs s = some out →
      JType_CreateParamDescriptors rt g' cs s = some out := by
  unfold JType_CreateParamDescriptors
  split
  · exact fun h => h
  · exact JType_CreateParamDescriptors_loop_mono g g' hle cs _ _ _

theorem JType_CreateReturnDescriptor_mono (rt : Runtime) (g g' : GetTypeFn)
    (hle : GetTypeLE g g') (c : JClass) (s : JPy_State)
    (out : JPy_State × Option JPy_ReturnDescriptor) :
    JType_CreateReturnDescriptor rt g c s = some out →
      JType_CreateReturnDescriptor rt g' c s = some out := by
  unfold JType_CreateReturnDescriptor
  split
  · exact fun h => h
  · cases hc : g c false s with
    | none => intro h; simp at h
    | some p => rw [hle _ _ _ _ hc]; exact fun h => h

theorem JType_ProcessMethod_mono (rt : Runtime) (g g' : GetTypeFn) (hle : GetTypeLE g g')
    (t : TypeRef) (key : String) (ret : Option JClass) (ps : List JClass) (st : Bool)
    (mid : Nat) (s : JPy_State) (out : JPy_State × Int) :
    JType_ProcessMethod rt g t key ret ps st mid s = some out →
      JType_ProcessMethod rt g' t key ret ps st mid s = some out := by
  unfold JType_ProcessMethod
  simp only []
  have key1 : ∀ (p : JPy_State × Option (List JPy_ParamDescriptor)),
      (if ps.length > 0 then JType_CreateParamDescriptors rt g ps s else some (s, some [])) = some p →
      (if ps.length > 0 then JType_CreateParamDescriptors rt g' ps s else some (s, some [])) = some p := by
    intro p
    split
    · exact JType_CreateParamDescriptors_mono rt g g' hle ps s p
    · exact fun h => h
  cases hc : (if ps.length > 0 then JType_CreateParamDescriptors rt g ps s
      else some (s, some [])) with
  | none => intro h; simp at h
  | some p =>
    rw [key1 p hc]
    obtain ⟨s1, o⟩ := p
    cases o with
    | none => exact fun h => h
    | some pds =>
      simp only []
      cases ret with
      | none => exact fun h => h
      | some rc =>
        simp only []
        cases hr : JType_CreateReturnDescriptor rt g rc s1 with
        | none => intro h; simp at h
        | some q =>
          rw [JType_CreateReturnDescriptor_mono rt g g' hle rc s1 q hr]
          exact fun h => h

theorem JType_ProcessClassConstructors_loop_mono (rt : Runtime) (g g' : GetTypeFn)
    (hle : GetTypeLE g g') (t : TypeRef) (l : List JMethodInfo) :
    ∀ (s : JPy_State) (out : JPy_State),
      JType_ProcessClassConstructors_loop rt g t l s = some out →
      JType_ProcessClassConstructors_loop rt g' t l s = some out := by
  induction l with
  | nil => intro s out h; exact h
  | cons c rest ih =>
    intro s out
    simp only [JType_ProcessClassConstructors_loop]
    split
    · cases hc : JType_ProcessMethod rt g t JPy_JINIT_ATTR_NAME none c.parameterTypes true
          c.mid s with
      | none => intro h; simp at h
      | some p =>
        rw [JType_ProcessMethod_mono rt g g' hle _ _ _ _ _ _ _ _ hc]
        exact ih _ _
    · exact ih _ _

theorem JType_ProcessClassConstructors_mono (rt : Runtime) (g g' : GetTypeFn)
    (hle : GetTypeLE g g') :
    ResolveLE (JType_ProcessClassConstructors rt g) (JType_ProcessClassConstructors rt g') := by
  intro t s out
  unfold JType_ProcessClassConstructors
  simp only []
  cases hc : JType_ProcessClassConstructors_loop rt g t
      (rt.getDeclaredConstructors (s.typeAt t).classRef) s with
  | none => intro h; simp at h
  | some p =>
    rw [JType_ProcessClassConstructors_loop_mono rt g g' hle _ _ _ _ hc]
    exact fun h => h

theorem JType_ProcessClassMethods_loop_mono (rt : Runtime) (g g' : GetTypeFn)
    (hle : GetTypeLE g g') (t : TypeRef) (l : List JMethodInfo) :
    ∀ (s : JPy_State) (out : JPy_State),
      JType_ProcessClassMethods_loop rt g t l s = some out →
      JType_ProcessClassMethods_loop rt g' t l s = some out := by
  induction l with
  | nil => intro s out h; exact h
  | cons c rest ih =>
    intro s out
    simp only [JType_ProcessClassMethods_loop]
    split
    · cases hc : JType_ProcessMethod rt g t c.name c.returnType c.parameterTypes
          ((c.modifiers &&& 0x0008) != 0) c.mid s with
      | none => intro h; simp at h
      | some p =>
        rw [JType_ProcessMethod_mono rt g g' hle _ _ _ _ _ _ _ _ hc]
        exact ih _ _
    · exact ih _ _

theorem JType_ProcessClassMethods_mono (rt : Runtime) (g g' : GetTypeFn)
    (hle : GetTypeLE g g') :
    ResolveLE (JType_ProcessClassMethods rt g) (JType_ProcessClassMethods rt g') := by
  intro t s out
  unfold JType_ProcessClassMethods
  simp only []
  cases hc : JType_ProcessClassMethods_loop rt g t
      (rt.getDeclaredMethods (s.typeAt t).classRef) s with
  | none => intro h; simp at h
  | some p =>
    rw [JType_ProcessClassMethods_loop_mono rt g g' hle _ _ _ _ hc]
    exact fun h => h

theorem JType_ProcessField_mono (rt : Runtime) (g g' : GetTypeFn) (hle : GetTypeLE g g')
    (t : TypeRef) (key : String) (c : JClass) (st fin : Bool) (fid : Nat) (s : JPy_State)
    (out : JPy_State × Int) :
    JType_ProcessField rt g t key c st fin fid s = some out →
      JType_ProcessField rt g' t key c st fin fid s = some out := by
  unfold JType_ProcessField
  cases hc : g c false s with
  | none => intro h; simp at h
  | some p => rw [hle _ _ _ _ hc]; exact fun h => h

theorem JType_ProcessClassFields_loop_mono (rt : Runtime) (g g' : GetTypeFn)
    (hle : GetTypeLE g g') (t : TypeRef) (l : List JFieldInfo) :
    ∀ (s : JPy_State) (out : JPy_State),
      JType_ProcessClassFields_loop rt g t l s = some out →
      JType_ProcessClassFields_loop rt g' t l s = some out := by
  induction l with
  | nil => intro s out h; exact h
  | cons c rest ih =>
    intro s out
    simp only [JType_ProcessClassFields_loop]
    split
    · cases hc : JType_ProcessField rt g t c.name c.type ((c.modifiers &&& 0x0008) != 0)
          ((c.modifiers &&& 0x0010) != 0) c.fid s with
      | none => intro h; simp at h
      | some p =>
        rw [JType_ProcessField_mono rt g g' hle _ _ _ _ _ _ _ _ hc]
        exact ih _ _
    · exact ih _ _

theorem JType_ProcessClassFields_mono (rt : Runtime) (g g' : GetTypeFn)
    (hle : GetTypeLE g g') :
    ResolveLE (JType_ProcessClassFields rt g) (JType_ProcessClassFields rt g') := by
  intro t s out
  unfold JType_ProcessClassFields
  simp only []
  cases hc : JType_ProcessClassFields_loop rt g t
      (rt.getDeclaredFields (s.typeAt t).classRef) s with
  | none => intro h; simp at h
  | some p =>
    rw [JType_ProcessClassFields_loop_mono rt g g' hle _ _ _ _ hc]
    exact fun h => h

theorem JType_ResolveBaseType_mono (rb rb' : ResolveFn) (hle : ResolveLE rb rb') :
    ResolveLE (JType_ResolveBaseType rb) (JType_ResolveBaseType rb') := by
  intro t s out
  unfold JType_ResolveBaseType
  split
  · split
    · exact hle _ _ _
    · exact fun h => h
  · exact fun h => h

theorem JType_ResolveTypeWith_mono (rb pc pm pf rb' pc' pm' pf' : ResolveFn)
    (hrb : ResolveLE rb rb') (hpc : ResolveLE pc pc') (hpm : ResolveLE pm pm')
    (hpf : ResolveLE pf pf') :
    ResolveLE (JType_ResolveTypeWith rb pc pm pf) (JType_ResolveTypeWith rb' pc' pm' pf') := by
  intro t s out
  unfold JType_ResolveTypeWith
  split
  · exact fun h => h
  · cases hb : JType_ResolveBaseType rb t (s.update t fun t => { t with isResolving := true }) with
    | none => intro h; simp at h
    | some p2 =>
      rw [JType_ResolveBaseType_mono rb rb' hrb _ _ _ hb]
      obtain ⟨s2, r2⟩ := p2
      simp only []
      split
      · exact fun h => h
      · cases hc : pc t s2 with
        | none => intro h; simp at h
        | some p3 =>
          rw [hpc _ _ _ hc]
          obtain ⟨s3, r3⟩ := p3
          simp only []
          split
          · exact fun h => h
          · cases hm : pm t s3 with
            | none => intro h; simp at h
            | some p4 =>
              rw [hpm _ _ _ hm]
              obtain ⟨s4, r4⟩ := p4
              simp only []
              split
              · exact fun h => h
              · cases hf : pf t s4 with
                | none => intro h; simp at h
                | some p5 =>
                  rw [hpf _ _ _ hf]
                  exact fun h => h

theorem JType_ResolveTypeBody_mono (rt : Runtime) (g g' : GetTypeFn) (f f' : ResolveFn)
    (hg : GetTypeLE g g') (hf : ResolveLE f f') :
    ResolveLE (JType_ResolveTypeBody rt g f) (JType_ResolveTypeBody rt g' f') :=
  JType_ResolveTypeWith_mono _ _ _ _ _ _ _ _ hf (JType_ProcessClassConstructors_mono rt g g' hg)
    (JType_ProcessClassMethods_mono rt g g' hg) (JType_ProcessClassFields_mono rt g g' hg)

theorem JType_GetType_finish_mono (f f' : ResolveFn) (hf : ResolveLE f f') (t : TypeRef)
    (r : Bool) (s : JPy_State) (out : JPy_State × Option TypeRef) :
    JType_GetType_finish f t r s = some out → JType_GetType_finish f' t r s = some out := by
  unfold JType_GetType_finish
  split
  · cases hc : f t s with
    | none => intro h; simp at h
    | some p => rw [hf _ _ _ hc]; exact fun h => h
  · exact fun h => h

theorem JType_GetTypeBody_mono (rt : Runtime) (g g' : GetTypeFn) (f f' : ResolveFn)
    (hg : GetTypeLE g g') (hf : ResolveLE f f') :
    GetTypeLE (JType_GetTypeBody rt g f) (JType_GetTypeBody rt g' f') := by
  intro c r s out
  unfold JType_GetTypeBody
  split
  · exact fun h => h
  · simp only []
    split
    · split
      · exact fun h => h
      · rename_i s1 type hnew
        cases h3 : JType_InitSuperType rt g type r (JPy_Types_SetItem s1 (rt.typeName c) type) with
        | none => intro h; simp at h
        | some p3 =>
          rw [JType_InitSuperType_mono rt g g' hg _ _ _ _ h3]
          obtain ⟨s3, r3⟩ := p3
          simp only []
          split
          · exact fun h => h
          · cases h4 : JType_InitComponentType rt g type r s3 with
            | none => intro h; simp at h
            | some p4 =>
              rw [JType_InitComponentType_mono rt g g' hg _ _ _ _ h4]
              obtain ⟨s4, r4⟩ := p4
              simp only []
              split
              · exact fun h => h
              · split
                · exact fun h => h
                · exact JType_GetType_finish_mono f f' hf _ _ _ _
    · exact JType_GetType_finish_mono f f' hf _ _ _ _

theorem JType_fns_mono_succ (rt : Runtime) (n : Nat) :
    GetTypeLE (JType_fns rt n).1 (JType_fns rt (n + 1)).1 ∧
    ResolveLE (JType_fns rt n).2 (JType_fns rt (n + 1)).2 := by
  induction n with
  | zero =>
    constructor
    · intro c r s out h
      simp [JType_fns] at h
    · intro t s out h
      simp [JType_fns] at h
  | succ n ih =>
    exact ⟨JType_GetTypeBody_mono rt _ _ _ _ ih.1 ih.2, JType_ResolveTypeBody_mono rt _ _ _ _ ih.1 ih.2⟩

theorem JType_fns_mono (rt : Runtime) (n m : Nat) (h : n ≤ m) :
    GetTypeLE (JType_fns rt n).1 (JType_fns rt m).1 ∧
    ResolveLE (JType_fns rt n).2 (JType_fns rt m).2 := by
  induction m with
  | zero =>
    have : n = 0 := by omega
    subst this
    exact ⟨fun _ _ _ _ h => h, fun _ _ _ h => h⟩
  | succ m ih =>
    by_cases e : n = m + 1
    · subst e
      exact ⟨fun _ _ _ _ h => h, fun _ _ _ h => h⟩
    · have ih' := ih (by omega)
      have st := JType_fns_mono_succ rt m
      exact ⟨fun c r s out h => st.1 _ _ _ _ (ih'.1 _ _ _ _ h),
        fun t s out h => st.2 _ _ _ (ih'.2 _ _ _ h)⟩

theorem JType_GetType_mono (rt : Runtime) (n m : Nat) (h : n ≤ m) :
    GetTypeLE (JType_GetType rt n) (JType_GetType rt m) := (JType_fns_mono rt n m h).1

theorem JType_ResolveType_mono (rt : Runtime) (n m : Nat) (h : n ≤ m) :
    ResolveLE (JType_ResolveType rt n) (JType_ResolveType rt m) := (JType_fns_mono rt n m h).2

/-! ### Measures -/

theorem filter_length_le {α : Type} (U : List α) (p q : α → Bool)
    (hpq : ∀ x, x ∈ U → p x = true → q x = true) :
    (U.filter p).length ≤ (U.filter q).length := by
  induction U with
  | nil => simp
  | cons a rest ih =>
    have ih' := ih (fun x hx => hpq x (List.mem_cons_of_mem _ hx))
    have ha := hpq a (List.mem_cons_self _ _)
    simp only [List.filter_cons]
    cases hp : p a with
    | false =>
      simp only [Bool.false_eq_true, if_false]
      split
      · simp only [List.length_cons]; omega
      · exact ih'
    | true =>
      simp only [ha hp, if_true, List.length_cons]
      omega

theorem filter_length_lt {α : Type} (U : List α) (p q : α → Bool)
    (hpq : ∀ x, x ∈ U → p x = true → q x = true) (a : α) (ha : a ∈ U) (hq : q a = true)
    (hp : p a = false) : (U.filter p).length < (U.filter q).length := by
  induction U with
  | nil => simp at ha
  | cons b rest ih =>
    have hrest := filter_length_le rest p q (fun x hx => hpq x (List.mem_cons_of_mem _ hx))
    simp only [List.filter_cons]
    rcases List.mem_cons.mp ha with e | hmem
    · subst e
      simp only [hp, hq, Bool.false_eq_true, if_false, if_true, List.length_cons]
      omega
    · have ih' := ih (fun x hx => hpq x (List.mem_cons_of_mem _ hx)) hmem
      cases hpb : p b with
      | false =>
        simp only [Bool.false_eq_true, if_false]
        split
        · simp only [List.length_cons]; omega
        · exact ih'
      | true =>
        simp only [hpq b (List.mem_cons_self _ _) hpb, if_true, List.length_cons]
        omega

theorem unregistered_le_of_frame (U : List String) (s s' : JPy_State) (h : Frame s s') :
    unregistered U s' ≤ unregistered U s := by
  unfold unregistered
  cases hd : s.JPy_Types with
  | none => simp [h.registry_none hd]
  | some d =>
    obtain ⟨d', hd', hm, _⟩ := h.registry d hd
    simp only [hd']
    apply filter_length_le
    intro k _ hk
    cases hg : PyDict_GetItem d k with
    | none => rfl
    | some v => rw [hm k v hg] at hk; simp at hk

theorem unregistered_SetItem_lt (U : List String) (s : JPy_State) (d : PyDict TypeRef)
    (key : String) (t : TypeRef) (hd : s.JPy_Types = some d) (hU : key ∈ U)
    (hmiss : PyDict_GetItem d key = none) :
    unregistered U (JPy_Types_SetItem s key t) < unregistered U s := by
  unfold unregistered
  simp only [JPy_Types_SetItem, hd, Option.map_some']
  apply filter_length_lt U _ _ _ key hU
  · simp [hmiss]
  · simp [PyDict_GetItem_SetItem]
  · intro k _ hk
    rw [PyDict_GetItem_SetItem] at hk
    split at hk
    · simp at hk
    · exact hk

theorem filter_set_length_lt {α : Type} (p : α → Bool) (a : α) (ha : p a = false) :
    ∀ (l : List α) (i : Nat) (hi : i < l.length), p (l.get ⟨i, hi⟩) = true →
      ((l.set i a).filter p).length < (l.filter p).length := by
  intro l
  induction l with
  | nil => intro i hi; simp at hi
  | cons b rest ih =>
    intro i hi hp
    cases i with
    | zero =>
      simp only [List.get_eq_getElem, List.getElem_cons_zero] at hp
      simp [List.set, List.filter_cons, ha, hp]
    | succ j =>
      simp only [List.get_eq_getElem, List.getElem_cons_succ] at hp
      have := ih j (by simpa using hi) (by simpa using hp)
      simp only [List.set, List.filter_cons]
      split
      · simp only [List.length_cons]; omega
      · exact this

theorem notResolving_update_lt (s : JPy_State) (t : TypeRef) (f : JPy_JType → JPy_JType)
    (ht : t < s.heap.length) (h : (s.typeAt t).isResolving = false)
    (hf : (f (s.typeAt t)).isResolving = true) :
    notResolving (s.update t f) < notResolving s := by
  unfold notResolving JPy_State.update
  apply filter_set_length_lt _ _ (by simp [hf]) s.heap t ht
  have : s.typeAt t = s.heap.get ⟨t, ht⟩ := by
    simp [JPy_State.typeAt, List.getElem?_eq_getElem ht]
  rw [← this]
  simp [h]

theorem tp_base_valid (s : JPy_State) (t b : TypeRef) (h : (s.typeAt t).tp_base = some b) :
    t < s.heap.length := by
  by_contra hlt
  rw [typeAt_of_le s t (Nat.le_of_not_lt hlt)] at h
  simp [JPy_JType.null] at h

/-! ### Unfolding the budget -/

theorem JType_GetType_succ (rt : Runtime) (n : Nat) :
    JType_GetType rt (n + 1) =
      JType_GetTypeBody rt (JType_GetType rt n) (JType_ResolveType rt n) := rfl

theorem JType_ResolveType_succ (rt : Runtime) (n : Nat) :
    JType_ResolveType rt (n + 1) =
      JType_ResolveTypeBody rt (JType_GetType rt n) (JType_ResolveType rt n) := rfl

/-! ### Termination of the callees of `JType_ResolveType` -/

theorem JType_CreateParamDescriptors_loop_term (rt : Runtime)
    (hT : ∀ c s, ∃ n out, JType_GetType rt n c false s = some out) (cs : List JClass) :
    ∀ (acc : List JPy_ParamDescriptor) (s : JPy_State),
      ∃ n out, JType_CreateParamDescriptors_loop (JType_GetType rt n) cs acc s = some out := by
  induction cs with
  | nil => intro acc s; exact ⟨0, _, rfl⟩
  | cons c rest ih =>
    intro acc s
    obtain ⟨n1, ⟨s1, o⟩, h1⟩ := hT c s
    cases o with
    | none =>
      refine ⟨n1, (s1, none), ?_⟩
      simp only [JType_CreateParamDescriptors_loop, h1]
    | some ty =>
      obtain ⟨n2, out2, h2⟩ := ih (acc ++ [JPy_ParamDescriptor.mk ty false none none]) s1
      refine ⟨max n1 n2, out2, ?_⟩
      simp only [JType_CreateParamDescriptors_loop,
        JType_GetType_mono rt n1 (max n1 n2) (Nat.le_max_left _ _) _ _ _ _ h1]
      exact JType_CreateParamDescriptors_loop_mono _ _
        (JType_GetType_mono rt n2 (max n1 n2) (Nat.le_max_right _ _)) _ _ _ _ h2

theorem JType_CreateParamDescriptors_term (rt : Runtime)
    (hT : ∀ c s, ∃ n out, JType_GetType rt n c false s = some out) (cs : List JClass)
    (s : JPy_State) :
    ∃ n out, JType_CreateParamDescriptors rt (JType_GetType rt n) cs s = some out := by
  unfold JType_CreateParamDescriptors
  split
  · exact ⟨0, _, rfl⟩
  · exact JType_CreateParamDescriptors_loop_term rt hT cs [] s

theorem JType_CreateReturnDescriptor_term (rt : Runtime)
    (hT : ∀ c s, ∃ n out, JType_GetType rt n c false s = some out) (c : JClass)
    (s : JPy_State) :
    ∃ n out, JType_CreateReturnDescriptor rt (JType_GetType rt n) c s = some out := by
  unfold JType_CreateReturnDescriptor
  split
  · exact ⟨0, _, rfl⟩
  · obtain ⟨n1, ⟨s1, o⟩, h1⟩ := hT c s
    refine ⟨n1, ?_⟩
    rw [h1]
    cases o <;> exact ⟨_, rfl⟩

theorem JType_ProcessMethod_term (rt : Runtime)
    (hT : ∀ c s, ∃ n out, JType_GetType rt n c false s = some out) (t : TypeRef)
    (key : String) (ret : Option JClass) (ps : List JClass) (st : Bool) (mid : Nat)
    (s : JPy_State) :
    ∃ n out, JType_ProcessMethod rt (JType_GetType rt n) t key ret ps st mid s = some out := by
  have hcreated : ∃ n out, (if ps.length > 0 then
      JType_CreateParamDescriptors rt (JType_GetType rt n) ps s else some (s, some [])) = some out := by
    by_cases hp : ps.length > 0
    · simp only [hp, if_true]
      exact JType_CreateParamDescriptors_term rt hT ps s
    · simp only [hp, if_false]
      exact ⟨0, _, rfl⟩
  obtain ⟨n1, ⟨s1, o⟩, h1⟩ := hcreated
  have lift1 : ∀ m, n1 ≤ m → (if ps.length > 0 then
      JType_CreateParamDescriptors rt (JType_GetType rt m) ps s else some (s, some []))
        = some (s1, o) := by
    intro m hm
    split
    · rename_i hp
      simp only [hp, if_true] at h1
      exact JType_CreateParamDescriptors_mono rt _ _ (JType_GetType_mono rt n1 m hm) _ _ _ h1
    · rename_i hp
      simp only [hp, if_false] at h1
      exact h1
  cases o with
  | none =>
    refine ⟨n1, (s1, -1), ?_⟩
    unfold JType_ProcessMethod
    simp only [h1]
  | some pds =>
    cases ret with
    | none =>
      refine ⟨n1, ?_⟩
      unfold JType_ProcessMethod
      simp only [h1]
      exact ⟨_, rfl⟩
    | some rc =>
      obtain ⟨n2, ⟨s2, o2⟩, h2⟩ := JType_CreateReturnDescriptor_term rt hT rc s1
      have h2' := JType_CreateReturnDescriptor_mono rt _ _
        (JType_GetType_mono rt n2 (max n1 n2) (Nat.le_max_right _ _)) _ _ _ h2
      refine ⟨max n1 n2, ?_⟩
      unfold JType_ProcessMethod
      simp only [lift1 (max n1 n2) (Nat.le_max_left _ _), h2']
      cases o2 <;> exact ⟨_, rfl⟩

theorem JType_ProcessClassConstructors_loop_term (rt : Runtime)
    (hT : ∀ c s, ∃ n out, JType_GetType rt n c false s = some out) (t : TypeRef)
    (l : List JMethodInfo) :
    ∀ (s : JPy_State),
      ∃ n out, JType_ProcessClassConstructors_loop rt (JType_GetType rt n) t l s = some out := by
  induction l with
  | nil => intro s; exact ⟨0, _, rfl⟩
  | cons c rest ih =>
    intro s
    by_cases hp : ((c.modifiers &&& 0x0001) != 0) = true
    · obtain ⟨n1, ⟨s1, x⟩, h1⟩ := JType_ProcessMethod_term rt hT t JPy_JINIT_ATTR_NAME none
        c.parameterTypes true c.mid s
      obtain ⟨n2, out2, h2⟩ := ih s1
      refine ⟨max n1 n2, out2, ?_⟩
      simp only [JType_ProcessClassConstructors_loop, hp, if_true,
        JType_ProcessMethod_mono rt _ _ (JType_GetType_mono rt n1 (max n1 n2)
          (Nat.le_max_left _ _)) _ _ _ _ _ _ _ _ h1]
      exact JType_ProcessClassConstructors_loop_mono rt _ _
        (JType_GetType_mono rt n2 (max n1 n2) (Nat.le_max_right _ _)) _ _ _ _ h2
    · obtain ⟨n2, out2, h2⟩ := ih s
      refine ⟨n2, out2, ?_⟩
      simp only [JType_ProcessClassConstructors_loop, hp, if_false]
      exact h2

theorem JType_ProcessClassConstructors_term (rt : Runtime)
    (hT : ∀ c s, ∃ n out, JType_GetType rt n c false s = some out) (t : TypeRef)
    (s : JPy_State) :
    ∃ n out, JType_ProcessClassConstructors rt (JType_GetType rt n) t s = some out := by
  obtain ⟨n, out, h⟩ := JType_ProcessClassConstructors_loop_term rt hT t
    (rt.getDeclaredConstructors (s.typeAt t).classRef) s
  refine ⟨n, (out, 0), ?_⟩
  unfold JType_ProcessClassConstructors
  simp only [h]

theorem JType_ProcessClassMethods_loop_term (rt : Runtime)
    (hT : ∀ c s, ∃ n out, JType_GetType rt n c false s = some out) (t : TypeRef)
    (l : List JMethodInfo) :
    ∀ (s : JPy_State),
      ∃ n out, JType_ProcessClassMethods_loop rt (JType_GetType rt n) t l s = some out := by
  induction l with
  | nil => intro s; exact ⟨0, _, rfl⟩
  | cons c rest ih =>
    intro s
    by_cases hp : ((c.modifiers &&& 0x0001) != 0) = true
    · obtain ⟨n1, ⟨s1, x⟩, h1⟩ := JType_ProcessMethod_term rt hT t c.name c.returnType
        c.parameterTypes ((c.modifiers &&& 0x0008) != 0) c.mid s
      obtain ⟨n2, out2, h2⟩ := ih s1
      refine ⟨max n1 n2, out2, ?_⟩
      simp only [JType_ProcessClassMethods_loop, hp, if_true,
        JType_ProcessMethod_mono rt _ _ (JType_GetType_mono rt n1 (max n1 n2)
          (Nat.le_max_left _ _)) _ _ _ _ _ _ _ _ h1]
      exact JType_ProcessClassMethods_loop_mono rt _ _
        (JType_GetType_mono rt n2 (max n1 n2) (Nat.le_max_right _ _)) _ _ _ _ h2
    · obtain ⟨n2, out2, h2⟩ := ih s
      refine ⟨n2, out2, ?_⟩
      simp only [JType_ProcessClassMethods_loop, hp, if_false]
      exact h2

theorem JType_ProcessClassMethods_term (rt : Runtime)
    (hT : ∀ c s, ∃ n out, JType_GetType rt n c false s = some out) (t : TypeRef)
    (s : JPy_State) :
    ∃ n out, JType_ProcessClassMethods rt (JType_GetType rt n) t s = some out := by
  obtain ⟨n, out, h⟩ := JType_ProcessClassMethods_loop_term rt hT t
    (rt.getDeclaredMethods (s.typeAt t).classRef) s
  refine ⟨n, (out, 0), ?_⟩
  unfold JType_ProcessClassMethods
  simp only [h]

theorem JType_ProcessField_term (rt : Runtime)
    (hT : ∀ c s, ∃ n out, JType_GetType rt n c false s = some out) (t : TypeRef)
    (key : String) (c : JClass) (st fin : Bool) (fid : Nat) (s : JPy_State) :
    ∃ n out, JType_ProcessField rt (JType_GetType rt n) t key c st fin fid s = some out := by
  obtain ⟨n1, ⟨s1, o⟩, h1⟩ := hT c s
  refine ⟨n1, ?_⟩
  unfold JType_ProcessField
  rw [h1]
  cases o with
  | none => exact ⟨_, rfl⟩
  | some ft =>
    simp only []
    split
    · split <;> exact ⟨_, rfl⟩
    · split
      · split
        · exact ⟨_, rfl⟩
        · split <;> exact ⟨_, rfl⟩
      · exact ⟨_, rfl⟩

theorem JType_ProcessClassFields_loop_term (rt : Runtime)
    (hT : ∀ c s, ∃ n out, JType_GetType rt n c false s = some out) (t : TypeRef)
    (l : List JFieldInfo) :
    ∀ (s : JPy_State),
      ∃ n out, JType_ProcessClassFields_loop rt (JType_GetType rt n) t l s = some out := by
  induction l with
  | nil => intro s; exact ⟨0, _, rfl⟩
  | cons c rest ih =>
    intro s
    by_cases hp : ((c.modifiers &&& 0x0001) != 0) = true
    · obtain ⟨n1, ⟨s1, x⟩, h1⟩ := JType_ProcessField_term rt hT t c.name c.type
        ((c.modifiers &&& 0x0008) != 0) ((c.modifiers &&& 0x0010) != 0) c.fid s
      obtain ⟨n2, out2, h2⟩ := ih s1
      refine ⟨max n1 n2, out2, ?_⟩
      simp only [JType_ProcessClassFields_loop, hp, if_true,
        JType_ProcessField_mono rt _ _ (JType_GetType_mono rt n1 (max n1 n2)
          (Nat.le_max_left _ _)) _ _ _ _ _ _ _ _ h1]
      exact JType_ProcessClassFields_loop_mono rt _ _
        (JType_GetType_mono rt n2 (max n1 n2) (Nat.le_max_right _ _)) _ _ _ _ h2
    · obtain ⟨n2, out2, h2⟩ := ih s
      refine ⟨n2, out2, ?_⟩
      simp only [JType_ProcessClassFields_loop, hp, if_false]
      exact h2

theorem JType_ProcessClassFields_term (rt : Runtime)
    (hT : ∀ c s, ∃ n out, JType_GetType rt n c false s = some out) (t : TypeRef)
    (s : JPy_State) :
    ∃ n out, JType_ProcessClassFields rt (JType_GetType rt n) t s = some out := by
  obtain ⟨n, out, h⟩ := JType_ProcessClassFields_loop_term rt hT t
    (rt.getDeclaredFields (s.typeAt t).classRef) s
  refine ⟨n, (out, 0), ?_⟩
  unfold JType_ProcessClassFields
  simp only [h]

/-! ### Termination of resolution and lookup -/

theorem JType_ResolveType_term_step (rt : Runtime)
    (hT : ∀ c s, ∃ n out, JType_GetType rt n c false s = some out) (s : JPy_State)
    (t : TypeRef)
    (ih : ∀ s' t', notResolving s' < notResolving s →
      ∃ n out, JType_ResolveType rt n t' s' = some out) :
    ∃ n out, JType_ResolveType rt n t s = some out := by
  by_cases guard : ((s.typeAt t).isResolved || (s.typeAt t).isResolving) = true
  · refine ⟨1, (s, 0), ?_⟩
    rw [JType_ResolveType_succ]
    unfold JType_ResolveTypeBody JType_ResolveTypeWith
    simp only [guard, if_true]
  · have hnr : (s.typeAt t).isResolving = false := by
      simp only [Bool.or_eq_true, not_or, Bool.not_eq_true] at guard
      exact guard.2
    have hbase : ∃ n out, JType_ResolveBaseType (JType_ResolveType rt n) t
        (s.update t (fun t => { t with isResolving := true })) = some out := by
      unfold JType_ResolveBaseType
      cases hb : ((s.update t (fun t => { t with isResolving := true })).typeAt t).tp_base with
      | none => exact ⟨0, _, rfl⟩
      | some b =>
        simp only []
        split
        · apply ih
          have hv := tp_base_valid _ _ _ hb
          simp only [update_heap_length] at hv
          exact notResolving_update_lt s t _ hv hnr rfl
        · exact ⟨0, _, rfl⟩
    obtain ⟨nb, ⟨s2, r2⟩, hb⟩ := hbase
    obtain ⟨n3, ⟨s3, r3⟩, h3⟩ := JType_ProcessClassConstructors_term rt hT t s2
    obtain ⟨n4, ⟨s4, r4⟩, h4⟩ := JType_ProcessClassMethods_term rt hT t s3
    obtain ⟨n5, ⟨s5, r5⟩, h5⟩ := JType_ProcessClassFields_term rt hT t s4
    have hcomp : ∃ out, JType_ResolveTypeWith (JType_ResolveType rt nb)
        (JType_ProcessClassConstructors rt (JType_GetType rt n3))
        (JType_ProcessClassMethods rt (JType_GetType rt n4))
        (JType_ProcessClassFields rt (JType_GetType rt n5)) t s = some out := by
      unfold JType_ResolveTypeWith
      rw [if_neg guard]
      simp only [hb]
      by_cases hr2 : r2 < 0
      · simp only [hr2, if_true]
        exact ⟨_, rfl⟩
      · simp only [hr2, if_false, h3]
        by_cases hr3 : r3 < 0
        · simp only [hr3, if_true]
          exact ⟨_, rfl⟩
        · simp only [hr3, if_false, h4]
          by_cases hr4 : r4 < 0
          · simp only [hr4, if_true]
            exact ⟨_, rfl⟩
          · simp only [hr4, if_false, h5]
            by_cases hr5 : r5 < 0
            · simp only [hr5, if_true]
              exact ⟨_, rfl⟩
            · simp only [hr5, if_false]
              exact ⟨_, rfl⟩
    obtain ⟨out, hout⟩ := hcomp
    refine ⟨max (max nb n3) (max n4 n5) + 1, out, ?_⟩
    rw [JType_ResolveType_succ]
    exact JType_ResolveTypeWith_mono _ _ _ _ _ _ _ _
      (JType_ResolveType_mono rt nb _ (by omega))
      (JType_ProcessClassConstructors_mono rt _ _ (JType_GetType_mono rt n3 _ (by omega)))
      (JType_ProcessClassMethods_mono rt _ _ (JType_GetType_mono rt n4 _ (by omega)))
      (JType_ProcessClassFields_mono rt _ _ (JType_GetType_mono rt n5 _ (by omega)))
      t s out hout

theorem JType_ResolveType_term_of (rt : Runtime)
    (hT : ∀ c s, ∃ n out, JType_GetType rt n c false s = some out) :
    ∀ (s : JPy_State) (t : TypeRef), ∃ n out, JType_ResolveType rt n t s = some out := by
  have key : ∀ (m : Nat) (s : JPy_State), notResolving s = m →
      ∀ t, ∃ n out, JType_ResolveType rt n t s = some out := by
    intro m
    induction m using Nat.strong_induction_on with
    | _ m ih =>
      intro s hs t
      apply JType_ResolveType_term_step rt hT s t
      intro s' t' hlt
      exact ih (notResolving s') (hs ▸ hlt) s' rfl t'
  intro s t
  exact key _ s rfl t

theorem JType_InitSuperType_term (rt : Runtime) (t : TypeRef) (r : Bool) (s : JPy_State)
    (hT : ∀ c, ∃ n out, JType_GetType rt n c r s = some out) :
    ∃ n out, JType_InitSuperType rt (JType_GetType rt n) t r s = some out := by
  unfold JType_InitSuperType
  cases rt.GetSuperclass (s.typeAt t).classRef with
  | none => exact ⟨0, _, rfl⟩
  | some c =>
    obtain ⟨n, ⟨s1, o⟩, h⟩ := hT c
    refine ⟨n, ?_⟩
    simp only [h]
    cases o <;> exact ⟨_, rfl⟩

theorem JType_InitComponentType_term (rt : Runtime) (t : TypeRef) (r : Bool) (s : JPy_State)
    (hT : ∀ c, ∃ n out, JType_GetType rt n c r s = some out) :
    ∃ n out, JType_InitComponentType rt (JType_GetType rt n) t r s = some out := by
  unfold JType_InitComponentType
  cases rt.getComponentType (s.typeAt t).classRef with
  | none => exact ⟨0, _, rfl⟩
  | some c =>
    obtain ⟨n, ⟨s1, o⟩, h⟩ := hT c
    refine ⟨n, ?_⟩
    simp only [h]
    cases o <;> exact ⟨_, rfl⟩

theorem JType_GetType_finish_term (rt : Runtime) (r : Bool)
    (hR : r = true → ∀ t s, ∃ n out, JType_ResolveType rt n t s = some out) (t : TypeRef)
    (s : JPy_State) :
    ∃ n out, JType_GetType_finish (JType_ResolveType rt n) t r s = some out := by
  unfold JType_GetType_finish
  split
  · rename_i hc
    have hr : r = true := by
      simp only [Bool.and_eq_true] at hc
      exact hc.2
    obtain ⟨n, ⟨s1, x⟩, h⟩ := hR hr t s
    refine ⟨n, ?_⟩
    simp only [h]
    split <;> exact ⟨_, rfl⟩
  · exact ⟨0, _, rfl⟩

theorem JType_GetType_term_step (rt : Runtime) (U : List String)
    (hU : ∀ c, rt.typeName c ∈ U) (r : Bool)
    (hR : r = true → ∀ t s, ∃ n out, JType_ResolveType rt n t s = some out) (s : JPy_State)
    (c : JClass)
    (ih : ∀ s' c', unregistered U s' < unregistered U s →
      ∃ n out, JType_GetType rt n c' r s' = some out) :
    ∃ n out, JType_GetType rt n c r s = some out := by
  cases hd : s.JPy_Types with
  | none =>
    refine ⟨1, ?_⟩
    rw [JType_GetType_succ]
    unfold JType_GetTypeBody
    simp only [hd]
    exact ⟨_, rfl⟩
  | some d =>
    cases hmiss : PyDict_GetItem d (rt.typeName c) with
    | some type =>
      obtain ⟨n, out, h⟩ := JType_GetType_finish_term rt r hR type s
      refine ⟨n + 1, out, ?_⟩
      rw [JType_GetType_succ]
      unfold JType_GetTypeBody
      simp only [hd, hmiss]
      exact h
    | none =>
      cases hnew : JType_New rt c r s with
      | mk s1 o =>
        cases o with
        | none =>
          refine ⟨1, ?_⟩
          rw [JType_GetType_succ]
          unfold JType_GetTypeBody
          simp only [hd, hmiss, hnew]
          exact ⟨_, rfl⟩
        | some type =>
          obtain ⟨_, hreg, _, _, _⟩ := JType_New_some rt c r s s1 type hnew
          have hlt : unregistered U (JPy_Types_SetItem s1 (rt.typeName c) type)
              < unregistered U s := by
            have h1 := unregistered_SetItem_lt U s1 d (rt.typeName c) type
              (by rw [hreg, hd]) (hU c) hmiss
            have h2 : unregistered U s1 = unregistered U s := by
              unfold unregistered
              rw [hreg]
            omega
          obtain ⟨n3, ⟨s3, r3⟩, h3⟩ := JType_InitSuperType_term rt type r
            (JPy_Types_SetItem s1 (rt.typeName c) type) (fun c' => ih _ c' hlt)
          have f23 := JType_InitSuperType_frame rt _ (JType_GetType_ok rt n3) _ _ _ _ _ h3
          have hlt3 : unregistered U s3 < unregistered U s :=
            Nat.lt_of_le_of_lt (unregistered_le_of_frame U _ _ f23) hlt
          by_cases hr3 : r3 < 0
          · refine ⟨n3 + 1, ?_⟩
            rw [JType_GetType_succ]
            unfold JType_GetTypeBody
            simp only [hd, hmiss, hnew, h3, hr3, if_true]
            exact ⟨_, rfl⟩
          · obtain ⟨n4, ⟨s4, r4⟩, h4⟩ := JType_InitComponentType_term rt type r s3
              (fun c' => ih _ c' hlt3)
            obtain ⟨n5, out5, h5⟩ := JType_GetType_finish_term rt r hR type
              (JType_InitSlots rt type s4).1
            have h3' := JType_InitSuperType_mono rt _ _
              (JType_GetType_mono rt n3 (max n3 (max n4 n5)) (by omega)) _ _ _ _ h3
            have h4' := JType_InitComponentType_mono rt _ _
              (JType_GetType_mono rt n4 (max n3 (max n4 n5)) (by omega)) _ _ _ _ h4
            have h5' := JType_GetType_finish_mono _ _
              (JType_ResolveType_mono rt n5 (max n3 (max n4 n5)) (by omega)) _ _ _ _ h5
            refine ⟨max n3 (max n4 n5) + 1, ?_⟩
            rw [JType_GetType_succ]
            unfold JType_GetTypeBody
            simp only [hd, hmiss, hnew, h3', hr3, if_false, h4']
            split
            · exact ⟨_, rfl⟩
            · split
              · exact ⟨_, rfl⟩
              · exact ⟨_, h5'⟩

theorem JType_GetType_term_of (rt : Runtime) (U : List String)
    (hU : ∀ c, rt.typeName c ∈ U) (r : Bool)
    (hR : r = true → ∀ t s, ∃ n out, JType_ResolveType rt n t s = some out) :
    ∀ (s : JPy_State) (c : JClass), ∃ n out, JType_GetType rt n c r s = some out := by
  have key : ∀ (m : Nat) (s : JPy_State), unregistered U s = m →
      ∀ c, ∃ n out, JType_GetType rt n c r s = some out := by
    intro m
    induction m using Nat.strong_induction_on with
    | _ m ih =>
      intro s hs c
      apply JType_GetType_term_step rt U hU r hR s c
      intro s' c' hlt
      exact ih (unregistered U s') (hs ▸ hlt) s' rfl c'
  intro s c
  exact key _ s rfl c

/-- With finitely many class names, `JType_GetType` and `JType_ResolveType` return from every
state when given enough call depth. -/
theorem JType_term (rt : Runtime) (U : List String) (hU : ∀ c, rt.typeName c ∈ U) :
    (∀ (r : Bool) (s : JPy_State) (c : JClass), ∃ n out, JType_GetType rt n c r s = some out) ∧
    (∀ (s : JPy_State) (t : TypeRef), ∃ n out, JType_ResolveType rt n t s = some out) := by
  have hfalse : ∀ c s, ∃ n out, JType_GetType rt n c false s = some out := fun c s =>
    JType_GetType_term_of rt U hU false (fun h => by simp at h) s c
  have hres := JType_ResolveType_term_of rt hfalse
  refine ⟨?_, hres⟩
  intro r s c
  exact JType_GetType_term_of rt U hU r (fun _ => fun t s => hres s t) s c

/-! ## The registry: singleton and cycle safety -/

theorem JType_GetType_hit (rt : Runtime) (fuel : Nat) (c : JClass) (r : Bool)
    (s s' : JPy_State) (d : PyDict TypeRef) (t : TypeRef) (o : Option TypeRef)
    (hd : s.JPy_Types = some d) (hhit : PyDict_GetItem d (rt.typeName c) = some t)
    (h : JType_GetType rt fuel c r s = some (s', o)) : o = some t := by
  cases fuel with
  | zero => simp [JType_GetType, JType_fns] at h
  | succ n =>
    rw [JType_GetType_succ] at h
    unfold JType_GetTypeBody at h
    simp only [hd, hhit] at h
    exact (JType_GetType_finish_ok _ (JType_ResolveType_ok rt n) _ _ _ _ _ h).2

theorem JType_GetType_hit_noresolve (rt : Runtime) (fuel : Nat) (c : JClass)
    (s : JPy_State) (d : PyDict TypeRef) (t : TypeRef)
    (hd : s.JPy_Types = some d) (hhit : PyDict_GetItem d (rt.typeName c) = some t) :
    JType_GetType rt (fuel + 1) c false s = some (s, some t) := by
  rw [JType_GetType_succ]
  unfold JType_GetTypeBody
  simp only [hd, hhit]
  simp [JType_GetType_finish]

theorem rtCyclic_names (c : JClass) : rtCyclic.typeName c ∈ ["A", "B"] := by
  simp only [rtCyclic, rtExample]
  split <;> simp

/-- C2 (cycle safety): for every runtime with finitely many class names, whatever its
superclass and component-type references are, `JType_GetType` returns from every state when
given enough call depth, with or without resolution, and so does `JType_ResolveType`.  The
reason is the last part: as soon as the stub is registered under the name of the class, a
lookup of a class of that name hits the registry; it returns the stub at once when no
resolution is asked for, and it returns the stub whenever it returns. -/
theorem JType_GetType_terminates (rt : Runtime) (U : List String)
    (hU : ∀ c, rt.typeName c ∈ U) (classRef : JClass) (resolve : Bool) (s : JPy_State) :
    (∃ fuel s1 result, JType_GetType rt fuel classRef resolve s = some (s1, result)) ∧
    (∀ type, ∃ fuel s1 r, JType_ResolveType rt fuel type s = some (s1, r)) ∧
    (∀ (d : PyDict TypeRef) (stub : TypeRef) (classRef2 : JClass), s.JPy_Types = some d →
      rt.typeName classRef2 = rt.typeName classRef →
      JType_GetType rt 1 classRef2 false (JPy_Types_SetItem s (rt.typeName classRef) stub) =
        some (JPy_Types_SetItem s (rt.typeName classRef) stub, some stub) ∧
      ∀ resolve2 fuel2 s2 result,
        JType_GetType rt fuel2 classRef2 resolve2
          (JPy_Types_SetItem s (rt.typeName classRef) stub) = some (s2, result) →
        result = some stub) := by
  refine ⟨?_, ?_, ?_⟩
  · obtain ⟨n, ⟨s1, result⟩, h⟩ := (JType_term rt U hU).1 resolve s classRef
    exact ⟨n, s1, result, h⟩
  · intro type
    obtain ⟨n, ⟨s1, r⟩, h⟩ := (JType_term rt U hU).2 s type
    exact ⟨n, s1, r, h⟩
  · intro d stub classRef2 hd hname
    have hd2 : (JPy_Types_SetItem s (rt.typeName classRef) stub).JPy_Types =
        some (PyDict_SetItem d (rt.typeName classRef) stub) := by
      simp [JPy_Types_SetItem, hd]
    have hget : PyDict_GetItem (PyDict_SetItem d (rt.typeName classRef) stub)
        (rt.typeName classRef2) = some stub := by
      rw [hname, PyDict_GetItem_SetItem]
      simp
    constructor
    · exact JType_GetType_hit_noresolve rt 0 classRef2 _ _ stub hd2 hget
    · intro resolve2 fuel2 s2 result h2
      exact JType_GetType_hit rt fuel2 classRef2 resolve2 _ s2 _ stub result hd2 hget h2

/-- Witness for C2: in the cyclic class graph, where `A` is its own superclass and `B` its own
component type, the lookup of `A` with resolution returns, and call depth 5 is enough. -/
theorem JType_GetType_terminates_witness :
    (∀ c, rtCyclic.typeName c ∈ ["A", "B"]) ∧
    (∃ fuel s1 result, JType_GetType rtCyclic fuel 0 true stateEmpty = some (s1, result)) ∧
    (JType_GetType rtCyclic 5 0 true stateEmpty).map (fun r => r.2) = some (some 0) :=
  ⟨rtCyclic_names,
   (JType_GetType_terminates rtCyclic ["A", "B"] rtCyclic_names 0 true stateEmpty).1,
   by decide⟩

/-! ## Resolution -/

theorem JType_ResolveTypeWith_flags (rb pc pm pf : ResolveFn) (hrb : ResolveOK rb)
    (hpc : ResolveOK pc) (hpm : ResolveOK pm) (hpf : ResolveOK pf) (t : TypeRef)
    (s s' : JPy_State) (r : Int) (hv : t < s.heap.length)
    (hnr : (s.typeAt t).isResolving = false)
    (h : JType_ResolveTypeWith rb pc pm pf t s = some (s', r)) :
    (s'.typeAt t).isResolved = true ∧ (s'.typeAt t).isResolving = false := by
  unfold JType_ResolveTypeWith at h
  split at h
  · rename_i hguard
    simp only [Option.some.injEq, Prod.mk.injEq] at h
    rw [← h.1]
    simp only [hnr, Bool.or_false] at hguard
    exact ⟨hguard, hnr⟩
  · split at h
    · simp at h
    · rename_i s2 r2 hb
      obtain ⟨f12, e2⟩ := JType_ResolveBaseType_ok rb hrb _ _ _ _ hb
      subst e2
      simp only [lt_self_iff_false, if_false] at h
      split at h
      · simp at h
      · rename_i s3 r3 hc
        obtain ⟨f23, e3⟩ := hpc _ _ _ _ hc
        subst e3
        simp only [lt_self_iff_false, if_false] at h
        split at h
        · simp at h
        · rename_i s4 r4 hm
          obtain ⟨f34, e4⟩ := hpm _ _ _ _ hm
          subst e4
          simp only [lt_self_iff_false, if_false] at h
          split at h
          · simp at h
          · rename_i s5 r5 hf
            obtain ⟨f45, e5⟩ := hpf _ _ _ _ hf
            subst e5
            simp only [lt_self_iff_false, if_false, Option.some.injEq, Prod.mk.injEq] at h
            rw [← h.1]
            have hle := (((f12.trans f23).trans f34).trans f45).heap_le
            simp only [update_heap_length] at hle
            rw [typeAt_update_self _ _ _ (Nat.lt_of_lt_of_le hv hle)]
            exact ⟨rfl, rfl⟩

theorem JType_ResolveType_flags (rt : Runtime) (fuel : Nat) (t : TypeRef)
    (s s' : JPy_State) (r : Int) (hv : t < s.heap.length)
    (hnr : (s.typeAt t).isResolving = false)
    (h : JType_ResolveType rt fuel t s = some (s', r)) :
    (s'.typeAt t).isResolved = true ∧ (s'.typeAt t).isResolving = false := by
  cases fuel with
  | zero => simp [JType_ResolveType, JType_fns] at h
  | succ n =>
    rw [JType_ResolveType_succ] at h
    exact JType_ResolveTypeWith_flags _ _ _ _ (JType_ResolveType_ok rt n)
      (JType_ProcessClassConstructors_ok rt _ (JType_GetType_ok rt n))
      (JType_ProcessClassMethods_ok rt _ (JType_GetType_ok rt n))
      (JType_ProcessClassFields_ok rt _ (JType_GetType_ok rt n)) t s s' r hv hnr h

theorem JType_ResolveType_guard (rt : Runtime) (fuel : Nat) (t : TypeRef) (s : JPy_State)
    (h : (s.typeAt t).isResolved = true ∨ (s.typeAt t).isResolving = true) :
    JType_ResolveType rt (fuel + 1) t s = some (s, 0) := by
  rw [JType_ResolveType_succ]
  unfold JType_ResolveTypeBody JType_ResolveTypeWith
  have : ((s.typeAt t).isResolved || (s.typeAt t).isResolving) = true := by
    rcases h with h | h <;> simp [h]
  simp only [this, if_true]

/-- C3 (idempotent resolution): for a type that is resolved or being resolved,
`JType_ResolveType` returns success at once and leaves the whole state, hence the member table
and both flags, unchanged; and after a first `JType_ResolveType` of an allocated type has
returned, it has returned success and every further `JType_ResolveType` of the type is such a
no-op, so that no overload entry is added twice. -/
theorem JType_ResolveType_idempotent (rt : Runtime) (type : TypeRef) (s : JPy_State) :
    ((s.typeAt type).isResolved = true ∨ (s.typeAt type).isResolving = true →
      ∀ fuel, JType_ResolveType rt (fuel + 1) type s = some (s, 0)) ∧
    (type < s.heap.length → ∀ fuel s1 r, JType_ResolveType rt fuel type s = some (s1, r) →
      r = 0 ∧ ∀ fuel2, JType_ResolveType rt (fuel2 + 1) type s1 = some (s1, 0)) := by
  constructor
  · intro h fuel
    exact JType_ResolveType_guard rt fuel type s h
  · intro hv fuel s1 r h
    refine ⟨(JType_ResolveType_ok rt fuel _ _ _ _ h).2, ?_⟩
    intro fuel2
    by_cases hr : (s.typeAt type).isResolving = true
    · have h' := h
      cases fuel with
      | zero => simp [JType_ResolveType, JType_fns] at h
      | succ n =>
        rw [JType_ResolveType_guard rt n type s (Or.inr hr)] at h'
        simp only [Option.some.injEq, Prod.mk.injEq] at h'
        rw [← h'.1]
        exact JType_ResolveType_guard rt fuel2 type s (Or.inr hr)
    · have hnr : (s.typeAt type).isResolving = false := by simpa using hr
      exact JType_ResolveType_guard rt fuel2 type s1
        (Or.inl (JType_ResolveType_flags rt fuel type s s1 r hv hnr h).1)

/-- Witness for C3: a resolved type of the cyclic class graph, and the type `A` of `stateA`
resolved twice. -/
theorem JType_ResolveType_idempotent_witness :
    ((stateCyclic.typeAt 0).isResolved = true ∧
      JType_ResolveType rtCyclic 1 0 stateCyclic = some (stateCyclic, 0)) ∧
    (0 < stateA.heap.length ∧
      JType_ResolveType rtFailing 3 0 stateA = some (stateAResolved, 0) ∧
      JType_ResolveType rtFailing 1 0 stateAResolved = some (stateAResolved, 0)) :=
  ⟨⟨by decide, (JType_ResolveType_idempotent rtCyclic 0 stateCyclic).1 (Or.inl (by decide)) 0⟩,
   ⟨by decide, by rfl,
    ((JType_ResolveType_idempotent rtFailing 0 stateA).2 (by decide) 3 stateAResolved 0
      (by rfl)).2 0⟩⟩

/-- C4, the code at the failing input: the method `m1` of class `A` has a parameter type that
cannot be mirrored, so `JType_ProcessMethod` returns -1 for it and leaves a `MemoryError`
pending.  The cataloging loop drops that result: `JType_ResolveType` of `A` returns 0, marks
`A` resolved and has cataloged the remaining method `m2`, with the exception still pending. -/
theorem JType_ResolveType_drops_member_failure :
    (JType_ProcessMethod rtFailing (JType_GetType rtFailing 2) 0 "m1" none [1] false 1
      stateA).map (fun r => (r.2, r.1.pyErr)) = some (-1, some (PyExc.MemoryError, "")) ∧
    (JType_ResolveType rtFailing 3 0 stateA).map
      (fun r => (r.2, (r.1.typeAt 0).isResolved, (r.1.typeAt 0).tp_dict.map PyDict.keys,
        r.1.pyErr))
      = some (0, true, some ["m2"], some (PyExc.MemoryError, "")) :=
  ⟨by decide, by rfl⟩

/-- C6 (decimals): for every float instance the double assessor returns 100 and the float
assessor 90, so the double parameter strictly outranks the float parameter; for every argument
that is not a float instance both assessors return the same score. -/
theorem JType_Assess_double_outranks_float (pd : JPy_ParamDescriptor) (pyArg : PyObject) :
    (PyFloat_Check pyArg = true →
      JType_AssessToJDouble pd pyArg = 100 ∧ JType_AssessToJFloat pd pyArg = 90 ∧
      JType_AssessToJFloat pd pyArg < JType_AssessToJDouble pd pyArg) ∧
    (PyFloat_Check pyArg = false →
      JType_AssessToJDouble pd pyArg = JType_AssessToJFloat pd pyArg) := by
  constructor
  · intro h
    simp [JType_AssessToJDouble, JType_AssessToJFloat, h]
  · intro h
    simp [JType_AssessToJDouble, JType_AssessToJFloat, h]

/-- Witness for C6: a float instance and a string. -/
theorem JType_Assess_double_outranks_float_witness :
    (PyFloat_Check (PyFloat 0) = true ∧
      JType_AssessToJDouble (paramExample 8) (PyFloat 0) = 100 ∧
      JType_AssessToJFloat (paramExample 8) (PyFloat 0) = 90) ∧
    (PyFloat_Check (PyUnicode "x") = false ∧
      JType_AssessToJDouble (paramExample 8) (PyUnicode "x") =
        JType_AssessToJFloat (paramExample 8) (PyUnicode "x")) :=
  ⟨⟨rfl, ((JType_Assess_double_outranks_float (paramExample 8) (PyFloat 0)).1 rfl).1,
     ((JType_Assess_double_outranks_float (paramExample 8) (PyFloat 0)).1 rfl).2.1⟩,
   ⟨rfl, (JType_Assess_double_outranks_float (paramExample 8) (PyUnicode "x")).2 rfl⟩⟩

/-- C7, the code at the failing inputs: against a float and against a double parameter a host
integer scores 50 and a host boolean scores 50, because `PyNumber_Check` accepts both and is
tested before `PyLong_Check` and `PyBool_Check`; the scores 10 and 1 are given to no argument
at all. -/
theorem JType_Assess_floating_integer_scores_50 (pd : JPy_ParamDescriptor) :
    (∀ n : Int, JType_AssessToJFloat pd (PyLong n) = 50 ∧
      JType_AssessToJDouble pd (PyLong n) = 50) ∧
    (∀ b : Bool, JType_AssessToJFloat pd (PyBool b) = 50 ∧
      JType_AssessToJDouble pd (PyBool b) = 50) ∧
    (∀ pyArg : PyObject, JType_AssessToJFloat pd pyArg ≠ 10 ∧ JType_AssessToJFloat pd pyArg ≠ 1 ∧
      JType_AssessToJDouble pd pyArg ≠ 10 ∧ JType_AssessToJDouble pd pyArg ≠ 1) := by
  refine ⟨?_, ?_, ?_⟩
  · intro n
    simp [JType_AssessToJDouble, JType_AssessToJFloat, PyFloat_Check, PyNumber_Check]
  · intro b
    simp [JType_AssessToJDouble, JType_AssessToJFloat, PyFloat_Check, PyNumber_Check]
  · intro pyArg
    cases pyArg with
    | PyOther isNumber getbuffer =>
      cases isNumber <;>
        simp [JType_AssessToJDouble, JType_AssessToJFloat, PyFloat_Check, PyNumber_Check,
          PyLong_Check, PyBool_Check]
    | _ =>
      simp [JType_AssessToJDouble, JType_AssessToJFloat, PyFloat_Check, PyNumber_Check,
        PyLong_Check, PyBool_Check]

/-- C8, the code at the failing input: against each of the integral parameters byte, char,
short, int and long a host boolean scores 100, not 10, because `PyLong_Check` accepts a
boolean and is tested before `PyBool_Check`; each of these assessors returns 100 for what
`PyLong_Check` accepts and 0 for everything else. -/
theorem JType_Assess_integral_bool_scores_100 (pd : JPy_ParamDescriptor) :
    (∀ b : Bool, JType_AssessToJByte pd (PyBool b) = 100 ∧
      JType_AssessToJChar pd (PyBool b) = 100 ∧ JType_AssessToJShort pd (PyBool b) = 100 ∧
      JType_AssessToJInt pd (PyBool b) = 100 ∧ JType_AssessToJLong pd (PyBool b) = 100) ∧
    (∀ pyArg : PyObject,
      JType_AssessToJByte pd pyArg = (if PyLong_Check pyArg then 100 else 0) ∧
      JType_AssessToJChar pd pyArg = (if PyLong_Check pyArg then 100 else 0) ∧
      JType_AssessToJShort pd pyArg = (if PyLong_Check pyArg then 100 else 0) ∧
      JType_AssessToJInt pd pyArg = (if PyLong_Check pyArg then 100 else 0) ∧
      JType_AssessToJLong pd pyArg = (if PyLong_Check pyArg then 100 else 0)) := by
  constructor
  · intro b
    simp [JType_AssessToJByte, JType_AssessToJChar, JType_AssessToJShort, JType_AssessToJInt,
      JType_AssessToJLong, PyLong_Check]
  · intro pyArg
    cases pyArg <;>
      simp [JType_AssessToJByte, JType_AssessToJChar, JType_AssessToJShort, JType_AssessToJInt,
        JType_AssessToJLong, PyLong_Check, PyBool_Check]

theorem ScoreZeroOrTen.ite {c : Prop} [Decidable c] {a b : Int} (ha : ScoreZeroOrTen a)
    (hb : ScoreZeroOrTen b) : ScoreZeroOrTen (if c then a else b) := by
  split <;> assumption

theorem JType_AssessBuffer_range (rt : Runtime) (type : TypeRef) (view : Py_buffer) :
    ScoreZeroOrTen (JType_AssessBuffer rt type view) := by
  unfold JType_AssessBuffer
  split
  · repeat' apply ScoreZeroOrTen.ite
    all_goals simp [ScoreZeroOrTen]
  · simp only []
    repeat' apply ScoreZeroOrTen.ite
    all_goals simp [ScoreZeroOrTen]

theorem JType_AssessToJObject_range (rt : Runtime) (s : JPy_State) (pd : JPy_ParamDescriptor)
    (pyArg : PyObject) (h : pyArg.isNone = false) :
    ScoreZeroOrTen (JType_AssessToJObject rt s pd pyArg) := by
  unfold JType_AssessToJObject
  split
  · simp [PyObject.isNone] at h
  · simp only []
    apply ScoreZeroOrTen.ite
    · simp [ScoreZeroOrTen]
    apply ScoreZeroOrTen.ite
    · apply ScoreZeroOrTen.ite
      · simp [ScoreZeroOrTen]
      · split
        · apply ScoreZeroOrTen.ite <;> simp [ScoreZeroOrTen]
        · simp [ScoreZeroOrTen]
    · simp [ScoreZeroOrTen]
  · simp only []
    split
    · apply ScoreZeroOrTen.ite
      · split
        · exact JType_AssessBuffer_range _ _ _
        · simp [ScoreZeroOrTen]
      · simp [ScoreZeroOrTen]
    · simp [ScoreZeroOrTen]

theorem JType_InitParamDescriptorFunctions_reference (rt : Runtime) (pd : JPy_ParamDescriptor)
    (h : some pd.type ∉ rt.primitiveTypes) :
    (JType_InitParamDescriptorFunctions rt pd).paramAssessor = some ParamAssessor.toJString ∨
    (JType_InitParamDescriptorFunctions rt pd).paramAssessor = some ParamAssessor.toJObject := by
  simp only [Runtime.primitiveTypes, List.mem_cons, List.mem_singleton, not_or, List.not_mem_nil, or_false] at h
  obtain ⟨h1, h2, h3, h4, h5, h6, h7, h8, h9⟩ := h
  unfold JType_InitParamDescriptorFunctions
  simp only [h1, h2, h3, h4, h5, h6, h7, h8, h9, if_false]
  split <;> simp

/-- Counterexample to C9: a parameter of the boxed type `java.lang.Integer` scores the host
integer 7 with 0, while the primitive `int` parameter scores it 100. -/
theorem JType_Assess_boxed_counterexample :
    (JType_InitParamDescriptorFunctions rtExample (paramExample 14)).assess rtExample stateEmpty
      (PyLong 7) = some 0 ∧
    (JType_InitParamDescriptorFunctions rtExample (paramExample 14)).assess rtExample stateEmpty
      (PyLong 7) ≠ some 100 ∧
    (JType_InitParamDescriptorFunctions rtExample (paramExample 5)).assess rtExample stateEmpty
      (PyLong 7) = some 100 ∧
    rtExample.JPy_JIntegerObj = some 14 ∧ rtExample.JPy_JInt = some 5 := by
  refine ⟨by decide, by decide, by decide, rfl, rfl⟩

/-- C9 as amended: for a parameter whose type is one of the boxed wrapper classes,
`JType_InitParamDescriptorFunctions` installs the generic object assessor, and a host boolean,
integer or float is assessed 0 against it. -/
theorem JType_Assess_boxed_scores_zero (rt : Runtime) (s : JPy_State) (pd : JPy_ParamDescriptor)
    (pyArg : PyObject) (hdistinct : rt.wellKnownTypes.Nodup)
    (hboxed : some pd.type ∈ rt.boxedTypes)
    (hkind : PyBool_Check pyArg = true ∨ PyLong_Check pyArg = true ∨ PyFloat_Check pyArg = true) :
    (JType_InitParamDescriptorFunctions rt pd).paramAssessor = some ParamAssessor.toJObject ∧
    (JType_InitParamDescriptorFunctions rt pd).assess rt s pyArg = some 0 := by
  have hnot : some pd.type ∉ rt.primitiveTypes ++ [rt.JPy_JString] := by
    intro hmem
    have := List.disjoint_of_nodup_append hdistinct
    exact this hmem hboxed
  have hassessor : (JType_InitParamDescriptorFunctions rt pd).paramAssessor
      = some ParamAssessor.toJObject := by
    simp only [Runtime.primitiveTypes, List.mem_append, List.mem_cons, List.mem_singleton, not_or,
      List.not_mem_nil, or_false] at hnot
    obtain ⟨⟨h1, h2, h3, h4, h5, h6, h7, h8, h9⟩, h10⟩ := hnot
    unfold JType_InitParamDescriptorFunctions
    simp only [h1, h2, h3, h4, h5, h6, h7, h8, h9, h10, if_false]
  refine ⟨hassessor, ?_⟩
  simp only [JPy_ParamDescriptor.assess, hassessor, Option.some.injEq]
  cases pyArg <;> simp [PyBool_Check, PyLong_Check, PyFloat_Check] at hkind <;>
    simp [JType_AssessToJObject, PyObject_CheckBuffer] <;> split <;> rfl

/-- Witness for the amended C9: a float instance offered to a `java.lang.Float` parameter. -/
theorem JType_Assess_boxed_scores_zero_witness :
    rtExample.wellKnownTypes.Nodup ∧
    some (paramExample 16).type ∈ rtExample.boxedTypes ∧
    (JType_InitParamDescriptorFunctions rtExample (paramExample 16)).assess rtExample stateEmpty
      (PyFloat 0) = some 0 :=
  ⟨by decide, by decide,
   (JType_Assess_boxed_scores_zero rtExample stateEmpty (paramExample 16) (PyFloat 0) (by decide) (by decide)
     (Or.inr (Or.inr rfl))).2⟩

/-- C10 (null): for every parameter whose type is not a primitive type, that is for the string
type and every object or array type, the installed assessor scores `None` exactly 1, and every
argument other than `None` that scores above 0 scores at least 10. -/
theorem JType_Assess_reference_none_minimal (rt : Runtime) (s : JPy_State) (pd : JPy_ParamDescriptor)
    (href : some pd.type ∉ rt.primitiveTypes) :
    (JType_InitParamDescriptorFunctions rt pd).assess rt s Py_None = some 1 ∧
    ∀ (pyArg : PyObject) (score : Int), pyArg.isNone = false →
      (JType_InitParamDescriptorFunctions rt pd).assess rt s pyArg = some score →
      0 < score → 10 ≤ score := by
  rcases JType_InitParamDescriptorFunctions_reference rt pd href with h | h
  · refine ⟨by simp [JPy_ParamDescriptor.assess, h, JType_AssessToJString, PyObject.isNone], ?_⟩
    intro pyArg score hn hs hpos
    simp only [JPy_ParamDescriptor.assess, h, JType_AssessToJString, hn, Option.some.injEq,
      Bool.false_eq_true, if_false] at hs
    split at hs <;> omega
  · refine ⟨by simp [JPy_ParamDescriptor.assess, h, JType_AssessToJObject], ?_⟩
    intro pyArg score hn hs hpos
    simp only [JPy_ParamDescriptor.assess, h, Option.some.injEq] at hs
    rcases JType_AssessToJObject_range rt s (JType_InitParamDescriptorFunctions rt pd) pyArg hn with h0 | h10
    · omega
    · omega

/-- Witness for C10: a string parameter. -/
theorem JType_Assess_reference_none_minimal_witness :
    some (paramExample 9).type ∉ rtExample.primitiveTypes ∧
    (JType_InitParamDescriptorFunctions rtExample (paramExample 9)).assess rtExample stateEmpty
      Py_None = some 1 :=
  ⟨by decide, (JType_Assess_reference_none_minimal rtExample stateEmpty (paramExample 9) (by decide)).1⟩

/-! ## Buffers offered to primitive array parameters -/

theorem JType_AssessToJObject_buffer (rt : Runtime) (s : JPy_State) (pd : JPy_ParamDescriptor)
    (pyArg : PyObject) (ct : TypeRef) (view : Py_buffer)
    (hct : (s.typeAt pd.type).componentType = some ct)
    (hprim : (s.typeAt ct).isPrimitive = true) (hbuf : PyObject_CheckBuffer pyArg = true)
    (hview : PyObject_GetBuffer pyArg PyBUF_FORMAT = some view) :
    JType_AssessToJObject rt s pd pyArg = JType_AssessBuffer rt ct view := by
  cases pyArg with
  | PyOther n gb =>
    simp only [JType_AssessToJObject, hct, hprim, hbuf, hview, Bool.and_self, if_true]
  | _ => simp [PyObject_CheckBuffer] at hbuf

theorem JType_AssessBuffer_width_only (rt : Runtime) (ct : TypeRef) (view : Py_buffer)
    (w : Int) (hfmt : view.format = none) (hw : JType_ArrayItemSize rt ct = some w) :
    JType_AssessBuffer rt ct view = (if view.itemsize = w then 10 else 0) := by
  unfold JType_AssessBuffer
  unfold JType_ArrayItemSize at hw
  simp only [hfmt]
  split_ifs at hw <;> simp_all

theorem JType_AssessBuffer_tagged_positive (rt : Runtime) (ct : TypeRef) (view : Py_buffer)
    (fmt : String) (hfmt : view.format = some fmt)
    (hpos : 0 < JType_AssessBuffer rt ct view) : 80 ≤ JType_AssessBuffer rt ct view := by
  revert hpos
  unfold JType_AssessBuffer
  simp only [hfmt]
  split_ifs <;> simp

theorem Runtime.elementTypes_ne (rt : Runtime) (hdistinct : rt.wellKnownTypes.Nodup) :
    List.Pairwise (fun a b => a ≠ b ∧ b ≠ a)
      [rt.JPy_JBoolean, rt.JPy_JByte, rt.JPy_JChar, rt.JPy_JShort, rt.JPy_JInt, rt.JPy_JLong,
       rt.JPy_JFloat, rt.JPy_JDouble] := by
  have h1 : rt.primitiveTypes.Nodup := by
    unfold Runtime.wellKnownTypes at hdistinct
    exact (List.Nodup.of_append_left (List.Nodup.of_append_left hdistinct))
  unfold Runtime.primitiveTypes at h1
  exact List.Pairwise.imp (fun h => ⟨h, Ne.symm h⟩) (List.nodup_cons.mp h1).2

theorem JType_ArrayItemSize_widths (rt : Runtime) (hdistinct : rt.wellKnownTypes.Nodup)
    (ct : TypeRef) :
    ((some ct = rt.JPy_JBoolean ∨ some ct = rt.JPy_JByte) → JType_ArrayItemSize rt ct = some 1) ∧
    ((some ct = rt.JPy_JChar ∨ some ct = rt.JPy_JShort) → JType_ArrayItemSize rt ct = some 2) ∧
    ((some ct = rt.JPy_JInt ∨ some ct = rt.JPy_JFloat) → JType_ArrayItemSize rt ct = some 4) ∧
    ((some ct = rt.JPy_JLong ∨ some ct = rt.JPy_JDouble) → JType_ArrayItemSize rt ct = some 8) := by
  have hne := Runtime.elementTypes_ne rt hdistinct
  simp only [List.pairwise_cons, List.mem_cons, List.mem_singleton, forall_eq_or_imp,
    forall_eq, List.not_mem_nil, false_implies, implies_true, List.Pairwise.nil, and_true,
    ne_eq] at hne
  unfold JType_ArrayItemSize
  refine ⟨?_, ?_, ?_, ?_⟩ <;> rintro (h | h) <;> rw [← h] at hne <;> simp_all

/-- Counterexample to C11: for a `boolean[]` parameter the format `B` of the other signedness
scores 100, the same as the format `b`, not less. -/
theorem JType_AssessToJObject_boolean_format_counterexample :
    rtExample.JPy_JBoolean = some 1 ∧
    (stateArrays.typeAt (paramExample 18).type).componentType = some 1 ∧
    (stateArrays.typeAt 1).isPrimitive = true ∧
    (viewExample [1, 0] 1 (some "b")).format = some "b" ∧
    (viewExample [1, 0] 1 (some "B")).format = some "B" ∧
    ¬ (JType_AssessToJObject rtExample stateArrays (paramExample 18)
        (bufferObject (viewExample [1, 0] 1 (some "B"))) <
       JType_AssessToJObject rtExample stateArrays (paramExample 18)
        (bufferObject (viewExample [1, 0] 1 (some "b")))) ∧
    JType_AssessToJObject rtExample stateArrays (paramExample 18)
        (bufferObject (viewExample [1, 0] 1 (some "b"))) = 100 ∧
    JType_AssessToJObject rtExample stateArrays (paramExample 18)
        (bufferObject (viewExample [1, 0] 1 (some "B"))) = 100 := by
  refine ⟨rfl, by decide, by decide, rfl, rfl, ?_, ?_, ?_⟩ <;> decide

/-- C11 as amended: the score table of `JType_AssessToJObject` for a buffer with a format tag
offered to a primitive array parameter, by the first character of the tag.  For byte, short,
int and long the exact format scores 100 and the format of the other signedness 90; for char
`u` scores 100, `H` 90 and `h` 80; for boolean `b` and `B` both score 100; float and double
accept `f` and `d` only; every other format scores 0. -/
theorem JType_AssessToJObject_format_scores (rt : Runtime) (s : JPy_State)
    (pd : JPy_ParamDescriptor) (pyArg : PyObject) (ct : TypeRef) (view : Py_buffer)
    (fmt : String) (hdistinct : rt.wellKnownTypes.Nodup)
    (hct : (s.typeAt pd.type).componentType = some ct)
    (hprim : (s.typeAt ct).isPrimitive = true) (hbuf : PyObject_CheckBuffer pyArg = true)
    (hview : PyObject_GetBuffer pyArg PyBUF_FORMAT = some view)
    (hfmt : view.format = some fmt) :
    (some ct = rt.JPy_JBoolean → JType_AssessToJObject rt s pd pyArg =
      if formatChar fmt = 'b' ∨ formatChar fmt = 'B' then 100 else 0) ∧
    (some ct = rt.JPy_JByte → JType_AssessToJObject rt s pd pyArg =
      if formatChar fmt = 'b' then 100 else if formatChar fmt = 'B' then 90 else 0) ∧
    (some ct = rt.JPy_JChar → JType_AssessToJObject rt s pd pyArg =
      if formatChar fmt = 'u' then 100 else if formatChar fmt = 'H' then 90
      else if formatChar fmt = 'h' then 80 else 0) ∧
    (some ct = rt.JPy_JShort → JType_AssessToJObject rt s pd pyArg =
      if formatChar fmt = 'h' then 100 else if formatChar fmt = 'H' then 90 else 0) ∧
    (some ct = rt.JPy_JInt → JType_AssessToJObject rt s pd pyArg =
      if formatChar fmt = 'i' ∨ formatChar fmt = 'l' then 100
      else if formatChar fmt = 'I' ∨ formatChar fmt = 'L' then 90 else 0) ∧
    (some ct = rt.JPy_JLong → JType_AssessToJObject rt s pd pyArg =
      if formatChar fmt = 'q' then 100 else if formatChar fmt = 'Q' then 90 else 0) ∧
    (some ct = rt.JPy_JFloat → JType_AssessToJObject rt s pd pyArg =
      if formatChar fmt = 'f' then 100 else 0) ∧
    (some ct = rt.JPy_JDouble → JType_AssessToJObject rt s pd pyArg =
      if formatChar fmt = 'd' then 100 else 0) := by
  have hne := Runtime.elementTypes_ne rt hdistinct
  simp only [List.pairwise_cons, List.mem_cons, List.mem_singleton, forall_eq_or_imp,
    forall_eq, List.not_mem_nil, false_implies, implies_true, List.Pairwise.nil, and_true,
    ne_eq] at hne
  rw [JType_AssessToJObject_buffer rt s pd pyArg ct view hct hprim hbuf hview]
  unfold JType_AssessBuffer
  simp only [hfmt, Bool.or_eq_true, decide_eq_true_eq]
  refine ⟨?_, ?_, ?_, ?_, ?_, ?_, ?_, ?_⟩ <;> intro h <;> rw [← h] at hne <;> simp_all

/-- Witness for the amended C11: four bytes tagged `I` offered to an `int[]` parameter score
90. -/
theorem JType_AssessToJObject_format_scores_witness :
    rtExample.wellKnownTypes.Nodup ∧
    (stateArrays.typeAt (paramExample 20).type).componentType = some 5 ∧
    (stateArrays.typeAt 5).isPrimitive = true ∧
    PyObject_CheckBuffer (bufferObject (viewExample [1, 0, 0, 0] 4 (some "I"))) = true ∧
    PyObject_GetBuffer (bufferObject (viewExample [1, 0, 0, 0] 4 (some "I"))) PyBUF_FORMAT =
      some (viewExample [1, 0, 0, 0] 4 (some "I")) ∧
    JType_AssessToJObject rtExample stateArrays (paramExample 20)
      (bufferObject (viewExample [1, 0, 0, 0] 4 (some "I"))) = 90 :=
  ⟨by decide, by decide, by decide, rfl, rfl,
   ((JType_AssessToJObject_format_scores rtExample stateArrays (paramExample 20)
      (bufferObject (viewExample [1, 0, 0, 0] 4 (some "I"))) 5
      (viewExample [1, 0, 0, 0] 4 (some "I")) "I" (by decide) (by decide) (by decide) rfl rfl
      rfl).2.2.2.2.1 rfl).trans (by decide)⟩

/-- C12 (width-only matching): for a buffer without a format tag offered to a primitive array
parameter, `JType_AssessToJObject` returns 10 if the item size of the buffer is the element
width (1 for boolean and byte, 2 for char and short, 4 for int and float, 8 for long and
double) and 0 otherwise; and every positive score that a buffer with a format tag gets for the
same parameter is above 10. -/
theorem JType_AssessToJObject_width_only (rt : Runtime) (s : JPy_State)
    (pd : JPy_ParamDescriptor) (pyArg : PyObject) (ct : TypeRef) (view : Py_buffer)
    (hdistinct : rt.wellKnownTypes.Nodup)
    (hct : (s.typeAt pd.type).componentType = some ct)
    (hprim : (s.typeAt ct).isPrimitive = true) (hbuf : PyObject_CheckBuffer pyArg = true)
    (hview : PyObject_GetBuffer pyArg PyBUF_FORMAT = some view)
    (hfmt : view.format = none) :
    ((some ct = rt.JPy_JBoolean ∨ some ct = rt.JPy_JByte) →
      JType_AssessToJObject rt s pd pyArg = if view.itemsize = 1 then 10 else 0) ∧
    ((some ct = rt.JPy_JChar ∨ some ct = rt.JPy_JShort) →
      JType_AssessToJObject rt s pd pyArg = if view.itemsize = 2 then 10 else 0) ∧
    ((some ct = rt.JPy_JInt ∨ some ct = rt.JPy_JFloat) →
      JType_AssessToJObject rt s pd pyArg = if view.itemsize = 4 then 10 else 0) ∧
    ((some ct = rt.JPy_JLong ∨ some ct = rt.JPy_JDouble) →
      JType_AssessToJObject rt s pd pyArg = if view.itemsize = 8 then 10 else 0) ∧
    (∀ (pyArg' : PyObject) (view' : Py_buffer) (fmt : String),
      PyObject_CheckBuffer pyArg' = true →
      PyObject_GetBuffer pyArg' PyBUF_FORMAT = some view' → view'.format = some fmt →
      0 < JType_AssessToJObject rt s pd pyArg' → 10 < JType_AssessToJObject rt s pd pyArg') := by
  have hw := JType_ArrayItemSize_widths rt hdistinct ct
  rw [JType_AssessToJObject_buffer rt s pd pyArg ct view hct hprim hbuf hview]
  refine ⟨fun h => JType_AssessBuffer_width_only rt ct view 1 hfmt (hw.1 h),
    fun h => JType_AssessBuffer_width_only rt ct view 2 hfmt (hw.2.1 h),
    fun h => JType_AssessBuffer_width_only rt ct view 4 hfmt (hw.2.2.1 h),
    fun h => JType_AssessBuffer_width_only rt ct view 8 hfmt (hw.2.2.2 h), ?_⟩
  intro pyArg' view' fmt hbuf' hview' hfmt' hpos
  rw [JType_AssessToJObject_buffer rt s pd pyArg' ct view' hct hprim hbuf' hview'] at hpos ⊢
  have := JType_AssessBuffer_tagged_positive rt ct view' fmt hfmt' hpos
  omega

/-- Witness for C12: four untagged bytes of item size 4 offered to an `int[]` parameter score
10. -/
theorem JType_AssessToJObject_width_only_witness :
    rtExample.wellKnownTypes.Nodup ∧
    (stateArrays.typeAt (paramExample 20).type).componentType = some 5 ∧
    (stateArrays.typeAt 5).isPrimitive = true ∧
    PyObject_CheckBuffer (bufferObject (viewExample [1, 0, 0, 0] 4 none)) = true ∧
    PyObject_GetBuffer (bufferObject (viewExample [1, 0, 0, 0] 4 none)) PyBUF_FORMAT =
      some (viewExample [1, 0, 0, 0] 4 none) ∧
    (viewExample [1, 0, 0, 0] 4 none).format = none ∧
    JType_AssessToJObject rtExample stateArrays (paramExample 20)
      (bufferObject (viewExample [1, 0, 0, 0] 4 none)) = 10 :=
  ⟨by decide, by decide, by decide, rfl, rfl, rfl,
   ((JType_AssessToJObject_width_only rtExample stateArrays (paramExample 20)
      (bufferObject (viewExample [1, 0, 0, 0] 4 none)) 5
      (viewExample [1, 0, 0, 0] 4 none) (by decide) (by decide) (by decide) rfl rfl
      rfl).2.2.1 (Or.inl rfl)).trans (by decide)⟩

theorem tdiv_nonpos_of_nonpos (a b : Int) (ha : a ≤ 0) (hb : 0 ≤ b) : a.tdiv b ≤ 0 := by
  have h := Int.tdiv_nonneg (a := -a) (b := b) (by omega) hb
  rw [Int.neg_tdiv] at h
  omega

theorem JType_ArrayItemSize_cases (rt : Runtime) (ct : TypeRef) (w : Int)
    (hw : JType_ArrayItemSize rt ct = some w) : w = 1 ∨ w = 2 ∨ w = 4 ∨ w = 8 := by
  unfold JType_ArrayItemSize at hw
  split_ifs at hw <;> simp at hw <;> omega

theorem JType_ConvertToJObject_length_test (len itemsize w : Int) (hitem : 1 ≤ itemsize)
    (hw : w = 1 ∨ w = 2 ∨ w = 4 ∨ w = 8)
    (hbad : len % w ≠ 0 ∨ len.tdiv itemsize ≤ 0 ∨ len.tdiv w ≤ 0)
    (hcount : ¬ len.tdiv itemsize ≤ 0) : len ≠ len.tdiv itemsize * w := by
  have hpos : 0 < len := by
    by_contra hlen
    exact hcount (tdiv_nonpos_of_nonpos len itemsize (by omega) (by omega))
  intro heq
  have hc : 1 ≤ len.tdiv itemsize := by omega
  rcases hbad with h | h | h
  · apply h
    rw [heq, Int.mul_emod_left]
  · exact hcount h
  · rw [Int.tdiv_eq_ediv (by omega) (by omega)] at h
    have hge : w ≤ len := by
      have : 1 * w ≤ len.tdiv itemsize * w := Int.mul_le_mul_of_nonneg_right hc (by omega)
      omega
    rcases hw with rfl | rfl | rfl | rfl <;> omega

theorem JType_ConvertToJObject_buffer (rt : Runtime) (pd : JPy_ParamDescriptor)
    (pyArg : PyObject) (cs : JPy_CallState) (value : jvalue) (disposer : JPy_ArgDisposer)
    (ct : TypeRef) (view : Py_buffer)
    (hct : (cs.jpy.typeAt pd.type).componentType = some ct)
    (hprim : (cs.jpy.typeAt ct).isPrimitive = true)
    (hbuf : PyObject_CheckBuffer pyArg = true)
    (hmem : rt.PyMem_New_fails cs.jpy = false)
    (hview : PyObject_GetBuffer pyArg (if pd.isMutable then PyBUF_WRITABLE else PyBUF_SIMPLE)
      = some view) :
    JType_ConvertToJObject rt pd pyArg cs value disposer =
      JType_ConvertBufferToJArray rt pd ct view { cs with exports := cs.exports + 1 } value
        disposer := by
  cases pyArg with
  | PyOther n gb =>
    simp only [JType_ConvertToJObject, PyObject.isNone, hct, hprim, hbuf, hmem, hview,
      Bool.and_self, if_true, Bool.false_eq_true, if_false]
  | _ => simp [PyObject_CheckBuffer] at hbuf

theorem JType_ConvertBufferToJArray_some (rt : Runtime) (pd : JPy_ParamDescriptor)
    (ct : TypeRef) (view : Py_buffer) (cs : JPy_CallState) (value : jvalue)
    (disposer : JPy_ArgDisposer) (hitem : view.itemsize ≠ 0) :
    JType_ConvertBufferToJArray rt pd ct view cs value disposer =
      some (JType_ConvertBufferToJArray_count rt pd ct view cs value disposer
        (view.len.tdiv view.itemsize)) := by
  unfold JType_ConvertBufferToJArray
  rw [if_neg hitem]

/-- C13 (size check): when `JType_ConvertToJObject` has obtained the view of a buffer with an
item size of at least 1 for a primitive array parameter, and the byte length of the view is
no exact multiple of the element width, or the view gives no element, the function returns -1
with a `ValueError`, leaves the output value and the disposer as they were, and has released
the view again. -/
theorem JType_ConvertToJObject_size_check (rt : Runtime) (pd : JPy_ParamDescriptor)
    (pyArg : PyObject) (cs : JPy_CallState) (value : jvalue) (disposer : JPy_ArgDisposer)
    (ct : TypeRef) (view : Py_buffer) (w : Int)
    (hct : (cs.jpy.typeAt pd.type).componentType = some ct)
    (hprim : (cs.jpy.typeAt ct).isPrimitive = true)
    (hbuf : PyObject_CheckBuffer pyArg = true)
    (hmem : rt.PyMem_New_fails cs.jpy = false)
    (hview : PyObject_GetBuffer pyArg (if pd.isMutable then PyBUF_WRITABLE else PyBUF_SIMPLE)
      = some view)
    (hitem : 1 ≤ view.itemsize)
    (hw : JType_ArrayItemSize rt ct = some w)
    (hbad : view.len % w ≠ 0 ∨ view.len.tdiv view.itemsize ≤ 0 ∨ view.len.tdiv w ≤ 0) :
    ∃ r, JType_ConvertToJObject rt pd pyArg cs value disposer = some r ∧
      r.ret = -1 ∧
      (∃ msg, r.state.jpy.pyErr = some (PyExc.ValueError, msg)) ∧
      r.value = value ∧
      r.disposer = disposer ∧
      r.state.exports = cs.exports := by
  rw [JType_ConvertToJObject_buffer rt pd pyArg cs value disposer ct view hct hprim hbuf hmem
    hview, JType_ConvertBufferToJArray_some _ _ _ _ _ _ _ (by omega)]
  refine ⟨_, rfl, ?_⟩
  unfold JType_ConvertBufferToJArray_count
  by_cases hcount : view.len.tdiv view.itemsize ≤ 0
  · simp [hcount, PyBuffer_Release, PyErr_SetString]
  · have hlen := JType_ConvertToJObject_length_test view.len view.itemsize w hitem
      (JType_ArrayItemSize_cases rt ct w hw) hbad hcount
    simp only [hcount, if_false, hw, ne_eq, hlen, not_false_eq_true, if_true]
    unfold JNI_NewArray
    split_ifs <;> simp [PyBuffer_Release, PyErr_SetString]

/-- Witness for C13: six bytes offered to an `int[]` parameter. -/
theorem JType_ConvertToJObject_size_check_witness :
    (callStateArrays.jpy.typeAt (paramExample 20).type).componentType = some 5 ∧
    (callStateArrays.jpy.typeAt 5).isPrimitive = true ∧
    JType_ArrayItemSize rtExample 5 = some 4 ∧
    (viewExample [1, 2, 3, 4, 5, 6] 1 none).len % 4 ≠ 0 ∧
    ∃ r, JType_ConvertToJObject rtExample (paramExample 20)
      (bufferObject (viewExample [1, 2, 3, 4, 5, 6] 1 none)) callStateArrays (jvalue.l none)
      disposerNone = some r ∧ r.ret = -1 :=
  ⟨by decide, by decide, by decide, by decide,
   (JType_ConvertToJObject_size_check rtExample (paramExample 20)
      (bufferObject (viewExample [1, 2, 3, 4, 5, 6] 1 none)) callStateArrays (jvalue.l none)
      disposerNone 5 (viewExample [1, 2, 3, 4, 5, 6] 1 none) 4 (by decide) (by decide) rfl rfl
      rfl (by decide) (by decide) (Or.inl (by decide))).imp (fun _ h => ⟨h.1, h.2.1⟩)⟩

theorem JType_ConvertBufferToJArray_cases (rt : Runtime) (pd : JPy_ParamDescriptor)
    (ct : TypeRef) (view : Py_buffer) (cs : JPy_CallState) (value : jvalue)
    (disposer : JPy_ArgDisposer) (w : Int) (hw : JType_ArrayItemSize rt ct = some w) :
    ((JType_ConvertBufferToJArray_count rt pd ct view cs value disposer
        (view.len.tdiv view.itemsize)).ret = 0 ∧
      ¬ view.len.tdiv view.itemsize ≤ 0 ∧ view.len = view.len.tdiv view.itemsize * w) ∨
    ((JType_ConvertBufferToJArray_count rt pd ct view cs value disposer
        (view.len.tdiv view.itemsize)).ret = -1 ∧
      (JType_ConvertBufferToJArray_count rt pd ct view cs value disposer
        (view.len.tdiv view.itemsize)).value = value ∧
      (JType_ConvertBufferToJArray_count rt pd ct view cs value disposer
        (view.len.tdiv view.itemsize)).disposer = disposer) := by
  unfold JType_ConvertBufferToJArray_count
  by_cases hcount : view.len.tdiv view.itemsize ≤ 0
  · simp [hcount]
  · by_cases hlen : view.len = view.len.tdiv view.itemsize * w
    · simp only [hcount, if_false, hw, ne_eq]
      rw [if_neg (not_not.mpr hlen)]
      unfold JNI_NewArray
      by_cases hnew : toSigned 32 (view.len.tdiv view.itemsize) < 0 ∨
          rt.NewArray_fails cs.arrays (toSigned 32 (view.len.tdiv view.itemsize)) = true
      · simp [hnew]
      · simp only [hnew, if_false]
        split
        · simp
        · split <;> simp [hcount, ← hlen]
    · simp only [hcount, if_false, hw, ne_eq, hlen, not_false_eq_true, if_true]
      simp

/-- Counterexample to C14: a view of four bytes with the item size 3 is accepted for an `int[]`
parameter, whose element width is 4, and becomes an array of one element; and for a view with
the item size 0 the division by the item size is undefined and the call does not return, so
that the view is not rejected either. -/
theorem JType_ConvertToJObject_validates_width_counterexample :
    (callStateArrays.jpy.typeAt (paramExample 20).type).componentType = some 5 ∧
    (callStateArrays.jpy.typeAt 5).isPrimitive = true ∧
    some 5 = rtExample.JPy_JInt ∧
    JType_ArrayItemSize rtExample 5 = some 4 ∧
    (viewExample [1, 2, 3, 4] 3 none).itemsize = 3 ∧
    (JType_ConvertToJObject rtExample (paramExample 20)
      (bufferObject (viewExample [1, 2, 3, 4] 3 none)) callStateArrays (jvalue.l none)
      disposerNone).map (fun r => (r.ret, r.state.arrays)) =
        some (0, [JArray.mk 1 4 [1, 2, 3, 4]]) ∧
    JType_ConvertToJObject rtExample (paramExample 20)
      (bufferObject (viewExample [1, 2, 3, 4] 0 none)) callStateArrays (jvalue.l none)
      disposerNone = none :=
  ⟨by decide, by decide, by decide, by decide, by decide, by rfl, by rfl⟩

/-- C14 as amended (element width): for a buffer whose item size is not 0 and whose byte length
is a whole number of its items, as the buffer protocol defines the length,
`JType_ConvertToJObject` returns, and a primitive array parameter accepts the buffer only if
its item size is the element width of the parameter; a buffer with another item size is
rejected with -1 and the output untouched.  The element width is 1 for boolean and byte, 2 for
char and short, 4 for int and float, 8 for long and double. -/
theorem JType_ConvertToJObject_validates_width (rt : Runtime) (pd : JPy_ParamDescriptor)
    (pyArg : PyObject) (cs : JPy_CallState) (value : jvalue) (disposer : JPy_ArgDisposer)
    (ct : TypeRef) (view : Py_buffer) (w : Int)
    (hct : (cs.jpy.typeAt pd.type).componentType = some ct)
    (hprim : (cs.jpy.typeAt ct).isPrimitive = true)
    (hbuf : PyObject_CheckBuffer pyArg = true)
    (hmem : rt.PyMem_New_fails cs.jpy = false)
    (hview : PyObject_GetBuffer pyArg (if pd.isMutable then PyBUF_WRITABLE else PyBUF_SIMPLE)
      = some view)
    (hitem : view.itemsize ≠ 0)
    (hwhole : view.len % view.itemsize = 0)
    (hw : JType_ArrayItemSize rt ct = some w) :
    (∃ r, JType_ConvertToJObject rt pd pyArg cs value disposer = some r ∧
      (r.ret = 0 → view.itemsize = w) ∧
      (view.itemsize ≠ w → r.ret = -1 ∧ r.value = value ∧ r.disposer = disposer)) ∧
    (rt.wellKnownTypes.Nodup →
      ((some ct = rt.JPy_JBoolean ∨ some ct = rt.JPy_JByte) → w = 1) ∧
      ((some ct = rt.JPy_JChar ∨ some ct = rt.JPy_JShort) → w = 2) ∧
      ((some ct = rt.JPy_JInt ∨ some ct = rt.JPy_JFloat) → w = 4) ∧
      ((some ct = rt.JPy_JLong ∨ some ct = rt.JPy_JDouble) → w = 8)) := by
  rw [JType_ConvertToJObject_buffer rt pd pyArg cs value disposer ct view hct hprim hbuf hmem
    hview, JType_ConvertBufferToJArray_some _ _ _ _ _ _ _ hitem]
  have hacc : ¬ view.len.tdiv view.itemsize ≤ 0 →
      view.len = view.len.tdiv view.itemsize * w → view.itemsize = w := by
    intro hcount hlen
    have hdiv : view.len.tdiv view.itemsize * view.itemsize = view.len :=
      Int.tdiv_mul_cancel (Int.dvd_of_emod_eq_zero hwhole)
    exact Int.eq_of_mul_eq_mul_left (by omega) (hdiv.trans hlen)
  have hcases := JType_ConvertBufferToJArray_cases rt pd ct view
    { cs with exports := cs.exports + 1 } value disposer w hw
  refine ⟨⟨_, rfl, ?_, ?_⟩, ?_⟩
  · intro hret
    rcases hcases with ⟨_, hcount, hlen⟩ | ⟨hfail, _⟩
    · exact hacc hcount hlen
    · rw [hret] at hfail
      exact absurd hfail (by decide)
  · intro hne
    rcases hcases with ⟨_, hcount, hlen⟩ | hfail
    · exact absurd (hacc hcount hlen) hne
    · exact hfail
  · intro hdistinct
    have hwidths := JType_ArrayItemSize_widths rt hdistinct ct
    refine ⟨fun h => ?_, fun h => ?_, fun h => ?_, fun h => ?_⟩
    · have := hwidths.1 h
      rw [hw] at this
      exact Option.some.inj this
    · have := hwidths.2.1 h
      rw [hw] at this
      exact Option.some.inj this
    · have := hwidths.2.2.1 h
      rw [hw] at this
      exact Option.some.inj this
    · have := hwidths.2.2.2 h
      rw [hw] at this
      exact Option.some.inj this

/-- Witness for the amended C14: four items of two bytes offered to an `int[]` parameter are
rejected. -/
theorem JType_ConvertToJObject_validates_width_witness :
    (callStateArrays.jpy.typeAt (paramExample 20).type).componentType = some 5 ∧
    (callStateArrays.jpy.typeAt 5).isPrimitive = true ∧
    JType_ArrayItemSize rtExample 5 = some 4 ∧
    (viewExample [1, 2, 3, 4, 5, 6, 7, 8] 2 none).len %
      (viewExample [1, 2, 3, 4, 5, 6, 7, 8] 2 none).itemsize = 0 ∧
    ∃ r, JType_ConvertToJObject rtExample (paramExample 20)
      (bufferObject (viewExample [1, 2, 3, 4, 5, 6, 7, 8] 2 none)) callStateArrays
      (jvalue.l none) disposerNone = some r ∧ r.ret = -1 :=
  ⟨by decide, by decide, by decide, by decide,
   (JType_ConvertToJObject_validates_width rtExample (paramExample 20)
      (bufferObject (viewExample [1, 2, 3, 4, 5, 6, 7, 8] 2 none)) callStateArrays
      (jvalue.l none) disposerNone 5 (viewExample [1, 2, 3, 4, 5, 6, 7, 8] 2 none) 4
      (by decide) (by decide) rfl rfl rfl (by decide) (by decide) (by decide)).1.imp
      (fun _ h => ⟨h.1, (h.2.2 (by decide)).1⟩)⟩

theorem toSigned_wrap_8 (n : Int) : toSigned 8 n = (n + 2 ^ 7) % 2 ^ 8 - 2 ^ 7 := by
  unfold toSigned
  norm_num
  split_ifs <;> omega

theorem toSigned_wrap_16 (n : Int) : toSigned 16 n = (n + 2 ^ 15) % 2 ^ 16 - 2 ^ 15 := by
  unfold toSigned
  norm_num
  split_ifs <;> omega

theorem toSigned_wrap_32 (n : Int) : toSigned 32 n = (n + 2 ^ 31) % 2 ^ 32 - 2 ^ 31 := by
  unfold toSigned
  norm_num
  split_ifs <;> omega

theorem PyLong_AsLong_of_range (rt : Runtime) (n : Int)
    (hn : -(2 ^ (rt.LONG_BIT - 1)) ≤ n ∧ n ≤ 2 ^ (rt.LONG_BIT - 1) - 1) :
    PyLong_AsLong rt (PyLong n) = (n, none) := by
  simp only [PyLong_AsLong, hn, and_self, if_true]

/-- C16 (scalar boundaries): for a host integer `n` in the range of the C type `long`,
`JPy_AS_JBYTE`, `JPy_AS_JSHORT` and `JPy_AS_JINT` raise no exception, and converting back with
the matching `JPy_FROM_` macro gives `n` wrapped to a signed value of 8, 16 and 32 bits; the
result is `n` exactly when `n` is in the range of the target type, and -128 and 127 come back
unchanged through byte. -/
theorem JPy_AS_FROM_integral_round_trip (rt : Runtime) (n : Int)
    (hlong : 32 ≤ rt.LONG_BIT)
    (hn : -(2 ^ (rt.LONG_BIT - 1)) ≤ n ∧ n ≤ 2 ^ (rt.LONG_BIT - 1) - 1) :
    ((JPy_AS_JBYTE rt (PyLong n)).2 = none ∧
      JPy_FROM_JBYTE (JPy_AS_JBYTE rt (PyLong n)).1 = PyLong ((n + 2 ^ 7) % 2 ^ 8 - 2 ^ 7) ∧
      (JPy_FROM_JBYTE (JPy_AS_JBYTE rt (PyLong n)).1 = PyLong n ↔
        -(2 ^ 7) ≤ n ∧ n ≤ 2 ^ 7 - 1)) ∧
    ((JPy_AS_JSHORT rt (PyLong n)).2 = none ∧
      JPy_FROM_JSHORT (JPy_AS_JSHORT rt (PyLong n)).1 =
        PyLong ((n + 2 ^ 15) % 2 ^ 16 - 2 ^ 15) ∧
      (JPy_FROM_JSHORT (JPy_AS_JSHORT rt (PyLong n)).1 = PyLong n ↔
        -(2 ^ 15) ≤ n ∧ n ≤ 2 ^ 15 - 1)) ∧
    ((JPy_AS_JINT rt (PyLong n)).2 = none ∧
      JPy_FROM_JINT (JPy_AS_JINT rt (PyLong n)).1 = PyLong ((n + 2 ^ 31) % 2 ^ 32 - 2 ^ 31) ∧
      (JPy_FROM_JINT (JPy_AS_JINT rt (PyLong n)).1 = PyLong n ↔
        -(2 ^ 31) ≤ n ∧ n ≤ 2 ^ 31 - 1)) ∧
    JPy_FROM_JBYTE (JPy_AS_JBYTE rt (PyLong (-128))).1 = PyLong (-128) ∧
    JPy_FROM_JBYTE (JPy_AS_JBYTE rt (PyLong 127)).1 = PyLong 127 := by
  have hpow : (2 : Int) ^ 31 ≤ 2 ^ (rt.LONG_BIT - 1) :=
    pow_le_pow_right₀ (by norm_num) (by omega)
  have hlow := PyLong_AsLong_of_range rt (-128) ⟨by omega, by omega⟩
  have hhigh := PyLong_AsLong_of_range rt 127 ⟨by omega, by omega⟩
  have hval := PyLong_AsLong_of_range rt n hn
  simp only [JPy_AS_JBYTE, JPy_AS_JSHORT, JPy_AS_JINT, JPy_FROM_JBYTE, JPy_FROM_JSHORT,
    JPy_FROM_JINT, PyObject.isNone, Bool.false_eq_true, if_false, hval, hlow, hhigh,
    PyObject.PyLong.injEq, toSigned_wrap_8, toSigned_wrap_16, toSigned_wrap_32, true_and]
  norm_num
  omega

/-- Witness for C16: 200 comes back as -56 through byte. -/
theorem JPy_AS_FROM_integral_round_trip_witness :
    32 ≤ rtExample.LONG_BIT ∧
    (-(2 ^ (rtExample.LONG_BIT - 1)) ≤ (200 : Int) ∧
      (200 : Int) ≤ 2 ^ (rtExample.LONG_BIT - 1) - 1) ∧
    JPy_FROM_JBYTE (JPy_AS_JBYTE rtExample (PyLong 200)).1 = PyLong (-56) :=
  ⟨by decide, by decide,
   (JPy_AS_FROM_integral_round_trip rtExample 200 (by decide) (by decide)).1.2.1.trans
     (by norm_num)⟩

/-- C17 (null handling): each of the eight converters for a primitive parameter turns `None`
into the zero value of its type, returns 0, raises nothing and leaves the disposer alone. -/
theorem JType_ConvertToJ_primitive_of_none (rt : Runtime) (pd : JPy_ParamDescriptor)
    (cs : JPy_CallState) (value : jvalue) (disposer : JPy_ArgDisposer) :
    JType_ConvertToJBoolean rt pd Py_None cs value disposer =
      { state := cs, ret := 0, value := jvalue.z 0, disposer := disposer } ∧
    JType_ConvertToJChar rt pd Py_None cs value disposer =
      { state := cs, ret := 0, value := jvalue.c 0, disposer := disposer } ∧
    JType_ConvertToJByte rt pd Py_None cs value disposer =
      { state := cs, ret := 0, value := jvalue.b 0, disposer := disposer } ∧
    JType_ConvertToJShort rt pd Py_None cs value disposer =
      { state := cs, ret := 0, value := jvalue.s 0, disposer := disposer } ∧
    JType_ConvertToJInt rt pd Py_None cs value disposer =
      { state := cs, ret := 0, value := jvalue.i 0, disposer := disposer } ∧
    JType_ConvertToJLong rt pd Py_None cs value disposer =
      { state := cs, ret := 0, value := jvalue.j 0, disposer := disposer } ∧
    JType_ConvertToJFloat rt pd Py_None cs value disposer =
      { state := cs, ret := 0, value := jvalue.f 0, disposer := disposer } ∧
    JType_ConvertToJDouble rt pd Py_None cs value disposer =
      { state := cs, ret := 0, value := jvalue.d 0, disposer := disposer } := by
  refine ⟨?_, ?_, ?_, ?_, ?_, ?_, ?_, ?_⟩ <;>
    simp [JType_ConvertToJBoolean, JType_ConvertToJChar, JType_ConvertToJByte,
      JType_ConvertToJShort, JType_ConvertToJInt, JType_ConvertToJLong, JType_ConvertToJFloat,
      JType_ConvertToJDouble, JPy_AS_JBOOLEAN, JPy_AS_JCHAR, JPy_AS_JBYTE, JPy_AS_JSHORT,
      JPy_AS_JINT, JPy_AS_JLONG, JPy_AS_JFLOAT, JPy_AS_JDOUBLE, PyObject.isNone,
      JPy_CallState.raise, toSigned, toUnsigned]

/-! ## Cataloging of members -/

theorem typeAt_tp_dict_lt (s : JPy_State) (t : TypeRef) (d : PyDict Member)
    (h : (s.typeAt t).tp_dict = some d) : t < s.heap.length := by
  by_contra hge
  rw [typeAt_of_le s t (Nat.le_of_not_lt hge)] at h
  simp [JPy_JType.null] at h

theorem Runtime.fieldTypes_ne (rt : Runtime) (hdistinct : rt.wellKnownTypes.Nodup) :
    List.Pairwise (fun a b => a ≠ b ∧ b ≠ a)
      [rt.JPy_JBoolean, rt.JPy_JByte, rt.JPy_JChar, rt.JPy_JShort, rt.JPy_JInt, rt.JPy_JLong,
       rt.JPy_JFloat, rt.JPy_JDouble, rt.JPy_JString] := by
  have h1 : (rt.primitiveTypes ++ [rt.JPy_JString]).Nodup := by
    unfold Runtime.wellKnownTypes at hdistinct
    exact List.Nodup.of_append_left hdistinct
  unfold Runtime.primitiveTypes at h1
  simp only [List.cons_append, List.nil_append] at h1
  exact List.Pairwise.imp (fun h => ⟨h, Ne.symm h⟩) (List.nodup_cons.mp h1).2

theorem JType_StaticFieldValue_table (rt : Runtime) (hdistinct : rt.wellKnownTypes.Nodup)
    (classRef : JClass) (fieldType : TypeRef) (fid : Nat) :
    (some fieldType = rt.JPy_JBoolean →
      JType_StaticFieldValue rt classRef fieldType fid =
        PyBool (rt.GetStaticIntegralField classRef fid != 0)) ∧
    ((some fieldType = rt.JPy_JChar ∨ some fieldType = rt.JPy_JByte ∨
      some fieldType = rt.JPy_JShort ∨ some fieldType = rt.JPy_JInt ∨
      some fieldType = rt.JPy_JLong) →
      JType_StaticFieldValue rt classRef fieldType fid =
        PyLong (rt.GetStaticIntegralField classRef fid)) ∧
    ((some fieldType = rt.JPy_JFloat ∨ some fieldType = rt.JPy_JDouble) →
      JType_StaticFieldValue rt classRef fieldType fid =
        PyFloat (rt.GetStaticFloatingField classRef fid)) ∧
    (some fieldType = rt.JPy_JString →
      JType_StaticFieldValue rt classRef fieldType fid =
        rt.JPy_FromJString (rt.GetStaticObjectField classRef fid)) ∧
    (some fieldType ∉ [rt.JPy_JBoolean, rt.JPy_JByte, rt.JPy_JChar, rt.JPy_JShort,
        rt.JPy_JInt, rt.JPy_JLong, rt.JPy_JFloat, rt.JPy_JDouble, rt.JPy_JString] →
      JType_StaticFieldValue rt classRef fieldType fid =
        rt.JPy_FromJObjectWithType (rt.GetStaticObjectField classRef fid) fieldType) := by
  have hne := Runtime.fieldTypes_ne rt hdistinct
  simp only [List.pairwise_cons, List.mem_cons, List.mem_singleton, forall_eq_or_imp,
    forall_eq, List.not_mem_nil, false_implies, implies_true, List.Pairwise.nil, and_true,
    ne_eq] at hne
  unfold JType_StaticFieldValue
  refine ⟨?_, ?_, ?_, ?_, ?_⟩
  · intro h
    rw [if_pos h]
  · rintro (h | h | h | h | h) <;> rw [← h] at hne <;> simp_all
  · rintro (h | h) <;> rw [← h] at hne <;> simp_all
  · intro h
    rw [← h] at hne
    simp_all
  · intro h
    simp only [List.mem_cons, List.mem_singleton, List.not_mem_nil, or_false, not_or] at h
    simp only [h, if_false]

/-- C18 (fields): when the type of the field can be mirrored and the declaring type has a
member table, `JType_ProcessField` returns 0 in each of the three cases: for a static final
field it stores the value read from the field under the field name; for a field that is not
static, and a field descriptor that can be allocated, it stores the field descriptor under the
field name; for a static field that is not final it leaves the state as it is.  The value
stored for a static final field is the snapshot of the field taken at that moment: a host
boolean for a boolean field, the host integer of the field value for a char, byte, short, int
or long field, the host float of the field value for a float or double field, the converted
string for a string field, and the converted object for a field of any other type. -/
theorem JType_ProcessField_stores (rt : Runtime) (getType : GetTypeFn)
    (declaringClass : TypeRef) (fieldKey : String) (fieldClassRef : JClass)
    (isStatic isFinal : Bool) (fid : Nat) (s s1 : JPy_State) (fieldType : TypeRef)
    (d : PyDict Member)
    (hget : getType fieldClassRef false s = some (s1, some fieldType))
    (hdict : (s1.typeAt declaringClass).tp_dict = some d) :
    (isStatic = true → isFinal = true →
      ∃ s2, JType_ProcessField rt getType declaringClass fieldKey fieldClassRef isStatic isFinal
          fid s = some (s2, 0) ∧
        s2 = s1.update declaringClass (fun t =>
          { t with tp_dict := some (PyDict_SetItem d fieldKey (Member.value
                     (JType_StaticFieldValue rt (s1.typeAt declaringClass).classRef fieldType
                       fid))) }) ∧
        (s2.typeAt declaringClass).tp_dict = some (PyDict_SetItem d fieldKey
          (Member.value (JType_StaticFieldValue rt (s1.typeAt declaringClass).classRef
            fieldType fid)))) ∧
    (isStatic = false → rt.JField_New_fails fieldKey s1 = false →
      ∃ s2, JType_ProcessField rt getType declaringClass fieldKey fieldClassRef isStatic isFinal
          fid s = some (s2, 0) ∧
        s2 = s1.update declaringClass (fun t =>
          { t with tp_dict := some (PyDict_SetItem d fieldKey (Member.field
                     (JPy_JField.mk declaringClass fieldKey fieldType false isFinal fid))) }) ∧
        (s2.typeAt declaringClass).tp_dict = some (PyDict_SetItem d fieldKey
          (Member.field (JPy_JField.mk declaringClass fieldKey fieldType false isFinal
            fid)))) ∧
    (isStatic = true → isFinal = false →
      JType_ProcessField rt getType declaringClass fieldKey fieldClassRef isStatic isFinal
        fid s = some (s1, 0)) ∧
    (rt.wellKnownTypes.Nodup → ∀ (classRef : JClass),
      (some fieldType = rt.JPy_JBoolean →
        JType_StaticFieldValue rt classRef fieldType fid =
          PyBool (rt.GetStaticIntegralField classRef fid != 0)) ∧
      ((some fieldType = rt.JPy_JChar ∨ some fieldType = rt.JPy_JByte ∨
        some fieldType = rt.JPy_JShort ∨ some fieldType = rt.JPy_JInt ∨
        some fieldType = rt.JPy_JLong) →
        JType_StaticFieldValue rt classRef fieldType fid =
          PyLong (rt.GetStaticIntegralField classRef fid)) ∧
      ((some fieldType = rt.JPy_JFloat ∨ some fieldType = rt.JPy_JDouble) →
        JType_StaticFieldValue rt classRef fieldType fid =
          PyFloat (rt.GetStaticFloatingField classRef fid)) ∧
      (some fieldType = rt.JPy_JString →
        JType_StaticFieldValue rt classRef fieldType fid =
          rt.JPy_FromJString (rt.GetStaticObjectField classRef fid)) ∧
      (some fieldType ∉ [rt.JPy_JBoolean, rt.JPy_JByte, rt.JPy_JChar, rt.JPy_JShort,
          rt.JPy_JInt, rt.JPy_JLong, rt.JPy_JFloat, rt.JPy_JDouble, rt.JPy_JString] →
        JType_StaticFieldValue rt classRef fieldType fid =
          rt.JPy_FromJObjectWithType (rt.GetStaticObjectField classRef fid) fieldType)) := by
  have hlt := typeAt_tp_dict_lt s1 declaringClass d hdict
  refine ⟨?_, ?_, ?_, fun hdistinct classRef =>
    JType_StaticFieldValue_table rt hdistinct classRef fieldType fid⟩
  · intro hs hf
    subst hs hf
    refine ⟨_, ?_, rfl, ?_⟩
    · simp [JType_ProcessField, hget, JType_AddFieldAttribute, hdict]
    · rw [typeAt_update_self _ _ _ hlt]
  · intro hs hnew
    subst hs
    refine ⟨_, ?_, rfl, ?_⟩
    · simp [JType_ProcessField, hget, JField_New, hnew, JType_AcceptField, JType_AddField,
        hdict]
    · rw [typeAt_update_self _ _ _ hlt]
  · intro hs hf
    subst hs hf
    simp [JType_ProcessField, hget]

/-- Witness for C18: for a class with the member table empty, the static final `int` field
`MAX` with the value 42 is stored as the host integer 42, the final instance field `x` is
stored as a field descriptor, and the static field `y` that is not final leaves the state as
it is. -/
theorem JType_ProcessField_stores_witness :
    JType_GetType rtStatic 1 1 false stateStatic = some (stateStatic, some 5) ∧
    (stateStatic.typeAt 18).tp_dict = some [] ∧
    rtStatic.JField_New_fails "x" stateStatic = false ∧
    (JType_ProcessField rtStatic (JType_GetType rtStatic 1) 18 "MAX" 1 true true 7
      stateStatic).map (fun r => (r.2, (r.1.typeAt 18).tp_dict)) =
        some (0, some [("MAX", Member.value (PyLong 42))]) ∧
    (JType_ProcessField rtStatic (JType_GetType rtStatic 1) 18 "x" 1 false true 7
      stateStatic).map (fun r => (r.2, (r.1.typeAt 18).tp_dict.map PyDict.keys)) =
        some (0, some ["x"]) ∧
    JType_ProcessField rtStatic (JType_GetType rtStatic 1) 18 "y" 1 true false 7
      stateStatic = some (stateStatic, 0) :=
  ⟨by rfl, rfl, rfl, by
    have hall := JType_ProcessField_stores rtStatic (JType_GetType rtStatic 1) 18
      "MAX" 1 true true 7 stateStatic stateStatic 5 [] (by rfl) rfl
    obtain ⟨s2, h, _, hd⟩ := hall.1 rfl rfl
    have hv := (hall.2.2.2 (by decide) (stateStatic.typeAt 18).classRef).2.1
      (Or.inr (Or.inr (Or.inr (Or.inl rfl))))
    rw [h]
    simp only [Option.map_some', hd, hv]
    rfl, by
    obtain ⟨s2, h, _, hd⟩ := (JType_ProcessField_stores rtStatic (JType_GetType rtStatic 1) 18
      "x" 1 false true 7 stateStatic stateStatic 5 [] (by rfl) rfl).2.1 rfl rfl
    rw [h]
    simp only [Option.map_some', hd]
    rfl,
   (JType_ProcessField_stores rtStatic (JType_GetType rtStatic 1) 18
      "y" 1 true false 7 stateStatic stateStatic 5 [] (by rfl) rfl).2.2.1 rfl rfl⟩

theorem JType_ProcessClassConstructors_loop_public (rt : Runtime) (getType : GetTypeFn)
    (type : TypeRef) (l : List JMethodInfo) : ∀ (s : JPy_State),
    JType_ProcessClassConstructors_loop rt getType type l s =
      processEach (fun ctor => JType_ProcessMethod rt getType type JPy_JINIT_ATTR_NAME none
        ctor.parameterTypes true ctor.mid) (l.filter (fun m => isPublic m.modifiers)) s := by
  induction l with
  | nil => intro s; rfl
  | cons m rest ih =>
    intro s
    rw [JType_ProcessClassConstructors_loop]
    by_cases hp : isPublic m.modifiers = true
    · have hp2 : ((m.modifiers &&& 0x0001) != 0) = true := hp
      simp only [List.filter_cons, hp, hp2, if_true]
      rw [processEach]
      cases h : JType_ProcessMethod rt getType type JPy_JINIT_ATTR_NAME none m.parameterTypes true
          m.mid s with
      | none => rfl
      | some r =>
        obtain ⟨s1, x⟩ := r
        exact ih s1
    · have hp2 : ((m.modifiers &&& 0x0001) != 0) = false := Bool.eq_false_iff.mpr hp
      simp only [List.filter_cons, hp, hp2, Bool.false_eq_true, if_false]
      exact ih s

theorem JType_ProcessClassMethods_loop_public (rt : Runtime) (getType : GetTypeFn)
    (type : TypeRef) (l : List JMethodInfo) : ∀ (s : JPy_State),
    JType_ProcessClassMethods_loop rt getType type l s =
      processEach (fun method => JType_ProcessMethod rt getType type method.name
        method.returnType method.parameterTypes ((method.modifiers &&& 0x0008) != 0) method.mid)
        (l.filter (fun m => isPublic m.modifiers)) s := by
  induction l with
  | nil => intro s; rfl
  | cons m rest ih =>
    intro s
    rw [JType_ProcessClassMethods_loop]
    by_cases hp : isPublic m.modifiers = true
    · have hp2 : ((m.modifiers &&& 0x0001) != 0) = true := hp
      simp only [List.filter_cons, hp, hp2, if_true]
      rw [processEach]
      cases h : JType_ProcessMethod rt getType type m.name m.returnType m.parameterTypes
          ((m.modifiers &&& 0x0008) != 0) m.mid s with
      | none => rfl
      | some r =>
        obtain ⟨s1, x⟩ := r
        exact ih s1
    · have hp2 : ((m.modifiers &&& 0x0001) != 0) = false := Bool.eq_false_iff.mpr hp
      simp only [List.filter_cons, hp, hp2, Bool.false_eq_true, if_false]
      exact ih s

theorem JType_ProcessClassFields_loop_public (rt : Runtime) (getType : GetTypeFn)
    (type : TypeRef) (l : List JFieldInfo) : ∀ (s : JPy_State),
    JType_ProcessClassFields_loop rt getType type l s =
      processEach (fun field => JType_ProcessField rt getType type field.name field.type
        ((field.modifiers &&& 0x0008) != 0) ((field.modifiers &&& 0x0010) != 0) field.fid)
        (l.filter (fun m => isPublic m.modifiers)) s := by
  induction l with
  | nil => intro s; rfl
  | cons m rest ih =>
    intro s
    rw [JType_ProcessClassFields_loop]
    by_cases hp : isPublic m.modifiers = true
    · have hp2 : ((m.modifiers &&& 0x0001) != 0) = true := hp
      simp only [List.filter_cons, hp, hp2, if_true]
      rw [processEach]
      cases h : JType_ProcessField rt getType type m.name m.type ((m.modifiers &&& 0x0008) != 0)
          ((m.modifiers &&& 0x0010) != 0) m.fid s with
      | none => rfl
      | some r =>
        obtain ⟨s1, x⟩ := r
        exact ih s1
    · have hp2 : ((m.modifiers &&& 0x0001) != 0) = false := Bool.eq_false_iff.mpr hp
      simp only [List.filter_cons, hp, hp2, Bool.false_eq_true, if_false]
      exact ih s

theorem filter_eq_nil_of_none {α : Type} (p : α → Bool) (l : List α)
    (h : ∀ m ∈ l, p m = false) : l.filter p = [] := by
  rw [List.filter_eq_nil_iff]
  intro m hm
  simp [h m hm]

/-- C19 (visibility filter): each of the three cataloging loops hands exactly the members whose
modifier word has the public bit `0x0001` to `JType_ProcessMethod` and `JType_ProcessField`,
in the declared order, and does nothing for the others; for a class without public
constructors, methods or fields the cataloger returns 0 and leaves the state unchanged. -/
theorem JType_ProcessClass_visibility (rt : Runtime) (getType : GetTypeFn) (type : TypeRef) :
    (∀ (l : List JMethodInfo) (s : JPy_State),
      JType_ProcessClassConstructors_loop rt getType type l s =
        processEach (fun ctor => JType_ProcessMethod rt getType type JPy_JINIT_ATTR_NAME none
          ctor.parameterTypes true ctor.mid) (l.filter (fun m => isPublic m.modifiers)) s) ∧
    (∀ (l : List JMethodInfo) (s : JPy_State),
      JType_ProcessClassMethods_loop rt getType type l s =
        processEach (fun method => JType_ProcessMethod rt getType type method.name
          method.returnType method.parameterTypes ((method.modifiers &&& 0x0008) != 0)
          method.mid) (l.filter (fun m => isPublic m.modifiers)) s) ∧
    (∀ (l : List JFieldInfo) (s : JPy_State),
      JType_ProcessClassFields_loop rt getType type l s =
        processEach (fun field => JType_ProcessField rt getType type field.name field.type
          ((field.modifiers &&& 0x0008) != 0) ((field.modifiers &&& 0x0010) != 0) field.fid)
          (l.filter (fun m => isPublic m.modifiers)) s) ∧
    (∀ (s : JPy_State),
      (∀ m ∈ rt.getDeclaredConstructors (s.typeAt type).classRef,
        isPublic m.modifiers = false) →
      JType_ProcessClassConstructors rt getType type s = some (s, 0)) ∧
    (∀ (s : JPy_State),
      (∀ m ∈ rt.getDeclaredMethods (s.typeAt type).classRef, isPublic m.modifiers = false) →
      JType_ProcessClassMethods rt getType type s = some (s, 0)) ∧
    (∀ (s : JPy_State),
      (∀ m ∈ rt.getDeclaredFields (s.typeAt type).classRef, isPublic m.modifiers = false) →
      JType_ProcessClassFields rt getType type s = some (s, 0)) := by
  refine ⟨JType_ProcessClassConstructors_loop_public rt getType type,
    JType_ProcessClassMethods_loop_public rt getType type,
    JType_ProcessClassFields_loop_public rt getType type, ?_, ?_, ?_⟩
  · intro s h
    simp only [JType_ProcessClassConstructors,
      JType_ProcessClassConstructors_loop_public, filter_eq_nil_of_none _ _ h, processEach]
  · intro s h
    simp only [JType_ProcessClassMethods,
      JType_ProcessClassMethods_loop_public, filter_eq_nil_of_none _ _ h, processEach]
  · intro s h
    simp only [JType_ProcessClassFields,
      JType_ProcessClassFields_loop_public, filter_eq_nil_of_none _ _ h, processEach]

/-- Witness for C19: the private field of class `A` is skipped, and of its two methods only the
public one is cataloged. -/
theorem JType_ProcessClass_visibility_witness :
    (∀ m ∈ rtVisibility.getDeclaredFields (stateA.typeAt 0).classRef,
      isPublic m.modifiers = false) ∧
    JType_ProcessClassFields rtVisibility (JType_GetType rtVisibility 1) 0 stateA =
      some (stateA, 0) ∧
    (JType_ProcessClassMethods rtVisibility (JType_GetType rtVisibility 1) 0 stateA).map
      (fun r => (r.2, (r.1.typeAt 0).tp_dict.map PyDict.keys)) = some (0, some ["shown"]) :=
  ⟨by decide,
   (JType_ProcessClass_visibility rtVisibility (JType_GetType rtVisibility 1) 0).2.2.2.2.2
     stateA (by decide),
   by decide⟩

theorem JType_GetType_miss_fresh (rt : Runtime) (fuel : Nat) (c : JClass) (r : Bool)
    (s s' : JPy_State) (d : PyDict TypeRef) (t : TypeRef)
    (hd : s.JPy_Types = some d) (hmiss : PyDict_GetItem d (rt.typeName c) = none)
    (h : JType_GetType rt fuel c r s = some (s', some t)) : t = s.heap.length := by
  cases fuel with
  | zero => simp [JType_GetType, JType_fns] at h
  | succ n =>
    rw [JType_GetType_succ] at h
    unfold JType_GetTypeBody at h
    simp only [hd, hmiss] at h
    cases hnew : JType_New rt c r s with
    | mk s1 o =>
      cases o with
      | none => simp [hnew] at h
      | some type =>
        have ht := (JType_New_some rt c r s s1 type hnew).1
        simp only [hnew] at h
        split at h
        · simp at h
        · split at h
          · simp at h
          · split at h
            · simp at h
            · split at h
              · simp at h
              · split at h
                · simp at h
                · have hfin := (JType_GetType_finish_ok _ (JType_ResolveType_ok rt n) _ _ _ _ _
                    h).2
                  rw [← ht]
                  exact (Option.some.inj hfin)

theorem StubEvicted.of_delete (rt : Runtime) (fuel : Nat) (classRef : JClass) (resolve : Bool)
    (s s3 : JPy_State) (type : TypeRef) (d3 : PyDict TypeRef)
    (hd3 : s3.JPy_Types = some d3) (hlt : type < s3.heap.length)
    (h : JType_GetType rt fuel classRef resolve s =
      some (JPy_Types_DelItem s3 (rt.typeName classRef), none)) :
    StubEvicted rt fuel classRef resolve s type := by
  have hreg : (JPy_Types_DelItem s3 (rt.typeName classRef)).JPy_Types =
      some (PyDict_DelItem d3 (rt.typeName classRef)) := by
    simp [JPy_Types_DelItem, hd3]
  have hnone : PyDict_GetItem (PyDict_DelItem d3 (rt.typeName classRef)) (rt.typeName classRef)
      = none := by
    rw [PyDict_GetItem_DelItem]
    simp
  refine ⟨_, h, ⟨_, hreg, hnone⟩, ?_⟩
  intro fuel' classRef' resolve' s'' t' hname hcall
  have ht := JType_GetType_miss_fresh rt fuel' classRef' resolve' _ s'' _ t' hreg
    (by rw [hname]; exact hnone) hcall
  have hlen : (JPy_Types_DelItem s3 (rt.typeName classRef)).heap.length = s3.heap.length := by
    simp [JPy_Types_DelItem]
  intro heq
  rw [heq, hlen] at ht
  exact absurd ht (Nat.ne_of_lt hlt)

/-- C21 (stub eviction): when `JType_GetType` misses the registry and has created and
registered a new type object, and then `JType_InitSuperType`, or `JType_InitComponentType`,
or `JType_InitSlots` fails for it, `JType_GetType` returns `NULL`, the registry it leaves has
no entry under the name of the class, and a later lookup of a class of that name never returns
the evicted type object: it starts from a miss. -/
theorem JType_GetType_evicts_stub (rt : Runtime) (fuel : Nat) (classRef : JClass)
    (resolve : Bool) (s s1 : JPy_State) (types : PyDict TypeRef) (type : TypeRef)
    (hreg : s.JPy_Types = some types)
    (hmiss : PyDict_GetItem types (rt.typeName classRef) = none)
    (hnew : JType_New rt classRef resolve s = (s1, some type)) :
    (∀ (s3 : JPy_State) (r3 : Int),
      JType_InitSuperType rt (JType_GetType rt fuel) type resolve
        (JPy_Types_SetItem s1 (rt.typeName classRef) type) = some (s3, r3) →
      r3 < 0 → StubEvicted rt (fuel + 1) classRef resolve s type) ∧
    (∀ (s3 s4 : JPy_State) (r3 r4 : Int),
      JType_InitSuperType rt (JType_GetType rt fuel) type resolve
        (JPy_Types_SetItem s1 (rt.typeName classRef) type) = some (s3, r3) →
      ¬ r3 < 0 →
      JType_InitComponentType rt (JType_GetType rt fuel) type resolve s3 = some (s4, r4) →
      r4 < 0 → StubEvicted rt (fuel + 1) classRef resolve s type) ∧
    (∀ (s3 s4 : JPy_State) (r3 r4 : Int),
      JType_InitSuperType rt (JType_GetType rt fuel) type resolve
        (JPy_Types_SetItem s1 (rt.typeName classRef) type) = some (s3, r3) →
      ¬ r3 < 0 →
      JType_InitComponentType rt (JType_GetType rt fuel) type resolve s3 = some (s4, r4) →
      ¬ r4 < 0 → (JType_InitSlots rt type s4).2 < 0 →
      StubEvicted rt (fuel + 1) classRef resolve s type) := by
  have hok := JType_GetType_ok rt fuel
  obtain ⟨ht, hreg1, hlen1, _, _⟩ := JType_New_some rt classRef resolve s s1 type hnew
  have hreg2 : (JPy_Types_SetItem s1 (rt.typeName classRef) type).JPy_Types =
      some (PyDict_SetItem types (rt.typeName classRef) type) := by
    simp [JPy_Types_SetItem, hreg1, hreg]
  have hlen2 : (JPy_Types_SetItem s1 (rt.typeName classRef) type).heap.length =
      s.heap.length + 1 := by
    simp [JPy_Types_SetItem, hlen1]
  have hstub : type < s.heap.length + 1 := by
    rw [ht]
    exact Nat.lt_succ_self _
  refine ⟨?_, ?_, ?_⟩
  · intro s3 r3 h3 hr3
    have f3 := JType_InitSuperType_frame rt _ hok type resolve _ s3 r3 h3
    obtain ⟨d3, hd3, _, _⟩ := f3.registry _ hreg2
    have hlt : type < s3.heap.length := by
      have := f3.heap_le
      rw [hlen2] at this
      exact Nat.lt_of_lt_of_le hstub this
    apply StubEvicted.of_delete rt (fuel + 1) classRef resolve s s3 type d3 hd3 hlt
    rw [JType_GetType_succ]
    unfold JType_GetTypeBody
    simp only [hreg, hmiss, hnew, h3, hr3, if_true]
  · intro s3 s4 r3 r4 h3 hr3 h4 hr4
    have f3 := JType_InitSuperType_frame rt _ hok type resolve _ s3 r3 h3
    have f4 := JType_InitComponentType_frame rt _ hok type resolve s3 s4 r4 h4
    have f34 := Frame.trans f3 f4
    obtain ⟨d4, hd4, _, _⟩ := f34.registry _ hreg2
    have hlt : type < s4.heap.length := by
      have := f34.heap_le
      rw [hlen2] at this
      exact Nat.lt_of_lt_of_le hstub this
    apply StubEvicted.of_delete rt (fuel + 1) classRef resolve s s4 type d4 hd4 hlt
    rw [JType_GetType_succ]
    unfold JType_GetTypeBody
    simp only [hreg, hmiss, hnew, h3, hr3, if_false, h4, hr4, if_true]
  · intro s3 s4 r3 r4 h3 hr3 h4 hr4 hslots
    have f3 := JType_InitSuperType_frame rt _ hok type resolve _ s3 r3 h3
    have f4 := JType_InitComponentType_frame rt _ hok type resolve s3 s4 r4 h4
    have f5 := JType_InitSlots_frame rt type s4
    have f35 := Frame.trans (Frame.trans f3 f4) f5
    obtain ⟨d5, hd5, _, _⟩ := f35.registry _ hreg2
    have hlt : type < (JType_InitSlots rt type s4).1.heap.length := by
      have := f35.heap_le
      rw [hlen2] at this
      exact Nat.lt_of_lt_of_le hstub this
    apply StubEvicted.of_delete rt (fuel + 1) classRef resolve s _ type d5 hd5 hlt
    rw [JType_GetType_succ]
    unfold JType_GetTypeBody
    simp only [hreg, hmiss, hnew, h3, hr3, if_false, h4, hr4, hslots, if_true]

/-- Witness for C21: `JType_InitSlots` fails for class `A`, looked up in the empty state. -/
theorem JType_GetType_evicts_stub_witness :
    stateEmpty.JPy_Types = some [] ∧
    JType_New rtSlotsFail 0 false stateEmpty =
      ((JType_New rtSlotsFail 0 false stateEmpty).1, some 0) ∧
    JType_GetType rtSlotsFail 1 0 false stateEmpty =
      some ({ (JType_New rtSlotsFail 0 false stateEmpty).1 with JPy_Types := some [] }, none) ∧
    StubEvicted rtSlotsFail 1 0 false stateEmpty 0 :=
  ⟨rfl, by rfl, by rfl,
   (JType_GetType_evicts_stub rtSlotsFail 0 0 false stateEmpty
      (JType_New rtSlotsFail 0 false stateEmpty).1 [] 0 rfl rfl (by rfl)).2.2 _ _ 0 0
      (by rfl) (by decide) (by rfl) (by decide) (by decide)⟩

theorem JType_GetTypeForName_replaceDots_eq_map (l : List Char) :
    JType_GetTypeForName_replaceDots l = l.map (fun c => if c = '.' then '/' else c) := by
  induction l with
  | nil => rfl
  | cons c rest ih => simp [JType_GetTypeForName_replaceDots, ih]

theorem slashed_of_no_dot (name : String) (h : '.' ∉ name.data) : slashed name = name := by
  have hmap : name.data.map (fun c => if c = '.' then '/' else c) = name.data := by
    have : ∀ l : List Char, '.' ∉ l → l.map (fun c => if c = '.' then '/' else c) = l := by
      intro l
      induction l with
      | nil => intro _; rfl
      | cons c rest ih =>
        intro hl
        simp only [List.mem_cons, not_or] at hl
        have hc : ¬ c = '.' := fun e => hl.1 e.symm
        simp [hc, ih hl.2]
    exact this _ h
  unfold slashed
  rw [hmap]

theorem slashed_no_dot (name : String) : '.' ∉ (slashed name).data := by
  unfold slashed
  simp only [List.mem_map, not_exists, not_and]
  intro c _ hc
  by_cases h : c = '.'
  · simp [h] at hc
  · simp [h] at hc

/-- C22 (class-name lookup): when the copy of the name can be allocated,
`JType_GetTypeForName` passes the name with every `.` replaced by `/` to `FindClass`, and
continues with `JType_GetType` for the class found; a name without `.` is passed unchanged,
without a copy; so the dotted and the slash-delimited form of a name give the same result;
and when no class is found the function returns `NULL` with the `ValueError` "Java class not
found" and the registry and all type objects unchanged. -/
theorem JType_GetTypeForName_lookup (rt : Runtime) (getType : GetTypeFn) (typeName : String)
    (resolve : Bool) (s : JPy_State) :
    (rt.PyMem_New_fails s = false →
      JType_GetTypeForName rt getType typeName resolve s =
        match rt.FindClass (slashed typeName) with
        | none => some (PyErr_SetString s PyExc.ValueError "Java class not found", none)
        | some classRef => getType classRef resolve s) ∧
    ('.' ∉ typeName.data →
      slashed typeName = typeName ∧
      JType_GetTypeForName rt getType typeName resolve s =
        match rt.FindClass typeName with
        | none => some (PyErr_SetString s PyExc.ValueError "Java class not found", none)
        | some classRef => getType classRef resolve s) ∧
    (rt.PyMem_New_fails s = false →
      JType_GetTypeForName rt getType typeName resolve s =
        JType_GetTypeForName rt getType (slashed typeName) resolve s) ∧
    (rt.PyMem_New_fails s = false → rt.FindClass (slashed typeName) = none →
      ∃ s', JType_GetTypeForName rt getType typeName resolve s = some (s', none) ∧
        s'.pyErr = some (PyExc.ValueError, "Java class not found") ∧
        s'.JPy_Types = s.JPy_Types ∧ s'.heap = s.heap) := by
  have hnodot : ∀ name : String, '.' ∉ name.data →
      JType_GetTypeForName rt getType name resolve s =
        JType_GetTypeForName_find rt getType name resolve s := by
    intro name h
    simp only [JType_GetTypeForName, h, if_false]
  have hgen : rt.PyMem_New_fails s = false →
      JType_GetTypeForName rt getType typeName resolve s =
        JType_GetTypeForName_find rt getType (slashed typeName) resolve s := by
    intro hmem
    by_cases h : '.' ∈ typeName.data
    · simp only [JType_GetTypeForName, h, if_true, hmem, Bool.false_eq_true, if_false,
        JType_GetTypeForName_replaceDots_eq_map, slashed]
    · rw [hnodot typeName h, slashed_of_no_dot typeName h]
  refine ⟨?_, ?_, ?_, ?_⟩
  · intro hmem
    rw [hgen hmem]
    unfold JType_GetTypeForName_find
    split <;> simp_all
  · intro h
    refine ⟨slashed_of_no_dot typeName h, ?_⟩
    rw [hnodot typeName h]
    unfold JType_GetTypeForName_find
    split <;> simp_all
  · intro hmem
    rw [hgen hmem, hnodot (slashed typeName) (slashed_no_dot typeName)]
  · intro hmem hfind
    refine ⟨PyErr_SetString s PyExc.ValueError "Java class not found", ?_, rfl, rfl, rfl⟩
    rw [hgen hmem]
    simp only [JType_GetTypeForName_find, hfind]

/-- Witness for C22: the names `A.B` and `A/B` reach the same registered type. -/
theorem JType_GetTypeForName_lookup_witness :
    rtFind.PyMem_New_fails stateA = false ∧
    slashed "A.B" = "A/B" ∧
    JType_GetTypeForName rtFind (JType_GetType rtFind 1) "A.B" false stateA =
      some (stateA, some 0) ∧
    JType_GetTypeForName rtFind (JType_GetType rtFind 1) "A/B" false stateA =
      some (stateA, some 0) :=
  ⟨rfl, by decide, by rfl,
   ((JType_GetTypeForName_lookup rtFind (JType_GetType rtFind 1) "A.B" false stateA).2.2.1
      rfl).symm.trans (by rfl)⟩

/-! ## Conversion of objects -/

theorem JType_ArrayFormat_table (rt : Runtime) (hdistinct : rt.wellKnownTypes.Nodup)
    (ct : TypeRef) :
    (some ct = rt.JPy_JBoolean → JType_ArrayFormat rt ct = some "b") ∧
    (some ct = rt.JPy_JByte → JType_ArrayFormat rt ct = some "b") ∧
    (some ct = rt.JPy_JChar → JType_ArrayFormat rt ct = some "H") ∧
    (some ct = rt.JPy_JShort → JType_ArrayFormat rt ct = some "h") ∧
    (some ct = rt.JPy_JInt → JType_ArrayFormat rt ct = some "l") ∧
    (some ct = rt.JPy_JLong → JType_ArrayFormat rt ct = some "q") ∧
    (some ct = rt.JPy_JFloat → JType_ArrayFormat rt ct = some "f") ∧
    (some ct = rt.JPy_JDouble → JType_ArrayFormat rt ct = some "d") := by
  have hne := Runtime.elementTypes_ne rt hdistinct
  simp only [List.pairwise_cons, List.mem_cons, List.mem_singleton, forall_eq_or_imp,
    forall_eq, List.not_mem_nil, false_implies, implies_true, List.Pairwise.nil, and_true,
    ne_eq] at hne
  unfold JType_ArrayFormat
  refine ⟨?_, ?_, ?_, ?_, ?_, ?_, ?_, ?_⟩ <;> intro h <;> rw [← h] at hne <;> simp_all

theorem JType_ConvertJavaToPythonObject_array (rt : Runtime) (cs : JPy_CallState)
    (type ct : TypeRef) (objectRef : JObject) (array : JArray) (format : String)
    (hct : (cs.jpy.typeAt type).componentType = some ct)
    (hprim : (cs.jpy.typeAt ct).isPrimitive = true)
    (harray : cs.arrays.get? objectRef = some array)
    (hpin : rt.GetPrimitiveArrayCritical_fails cs.arrays objectRef = false)
    (hnew : rt.CArray_New_fails format array.length = false)
    (hformat : JType_ArrayFormat rt ct = some format) :
    ∃ container : JPy_CArray,
      (JType_ConvertJavaToPythonObject rt cs type (some objectRef)).2 =
        some container.toPyObject ∧
      container.length = array.length ∧ container.format = format := by
  refine ⟨JPy_CArray.mk format array.length (rt.CArray_ItemSize format)
    (memcpy (List.replicate (rt.CArray_ItemSize format * array.length).toNat 0) array.items
      (rt.CArray_ItemSize format * array.length).toNat), ?_, ?_, ?_⟩
  · simp only [JType_ConvertJavaToPythonObject, hct, hprim, if_true,
      JNI_GetPrimitiveArrayCritical, hpin, Bool.false_eq_true, if_false, harray,
      Option.map_some', hformat, JNI_GetArrayLength, CArray_New, hnew]
  · rfl
  · rfl

/-- C23 (inbound primitive arrays): for an array handle whose type has a primitive component
type, when the array can be pinned and the container can be allocated,
`JType_ConvertJavaToPythonObject` returns a container with the length of the foreign array
and the format `b` for boolean and byte, `H` for char, `h` for short, `l` for int, `q` for
long, `f` for float and `d` for double; for a primitive component type that is none of these
eight it returns `NULL` with the `RuntimeError` "internal error: unknown primitive Java
type". -/
theorem JType_ConvertJavaToPythonObject_primitive_array (rt : Runtime) (cs : JPy_CallState)
    (type ct : TypeRef) (objectRef : JObject) (array : JArray)
    (hdistinct : rt.wellKnownTypes.Nodup)
    (hct : (cs.jpy.typeAt type).componentType = some ct)
    (hprim : (cs.jpy.typeAt ct).isPrimitive = true)
    (harray : cs.arrays.get? objectRef = some array)
    (hpin : rt.GetPrimitiveArrayCritical_fails cs.arrays objectRef = false)
    (hnew : ∀ format, rt.CArray_New_fails format array.length = false) :
    (∀ format,
      (some ct = rt.JPy_JBoolean ∧ format = "b") ∨ (some ct = rt.JPy_JByte ∧ format = "b") ∨
      (some ct = rt.JPy_JChar ∧ format = "H") ∨ (some ct = rt.JPy_JShort ∧ format = "h") ∨
      (some ct = rt.JPy_JInt ∧ format = "l") ∨ (some ct = rt.JPy_JLong ∧ format = "q") ∨
      (some ct = rt.JPy_JFloat ∧ format = "f") ∨ (some ct = rt.JPy_JDouble ∧ format = "d") →
      ∃ container : JPy_CArray,
        (JType_ConvertJavaToPythonObject rt cs type (some objectRef)).2 =
          some container.toPyObject ∧
        container.length = array.length ∧ container.format = format) ∧
    (some ct ∉ [rt.JPy_JBoolean, rt.JPy_JByte, rt.JPy_JChar, rt.JPy_JShort, rt.JPy_JInt,
        rt.JPy_JLong, rt.JPy_JFloat, rt.JPy_JDouble] →
      (JType_ConvertJavaToPythonObject rt cs type (some objectRef)).2 = none ∧
      (JType_ConvertJavaToPythonObject rt cs type (some objectRef)).1.jpy.pyErr =
        some (PyExc.RuntimeError, "internal error: unknown primitive Java type")) := by
  have htable := JType_ArrayFormat_table rt hdistinct ct
  constructor
  · intro format hcase
    apply JType_ConvertJavaToPythonObject_array rt cs type ct objectRef array format hct hprim
      harray hpin (hnew format)
    rcases hcase with ⟨h, rfl⟩ | ⟨h, rfl⟩ | ⟨h, rfl⟩ | ⟨h, rfl⟩ | ⟨h, rfl⟩ | ⟨h, rfl⟩ |
      ⟨h, rfl⟩ | ⟨h, rfl⟩
    · exact htable.1 h
    · exact htable.2.1 h
    · exact htable.2.2.1 h
    · exact htable.2.2.2.1 h
    · exact htable.2.2.2.2.1 h
    · exact htable.2.2.2.2.2.1 h
    · exact htable.2.2.2.2.2.2.1 h
    · exact htable.2.2.2.2.2.2.2 h
  · intro hnot
    simp only [List.mem_cons, List.mem_singleton, List.not_mem_nil, or_false, not_or] at hnot
    obtain ⟨h1, h2, h3, h4, h5, h6, h7, h8⟩ := hnot
    have hformat : JType_ArrayFormat rt ct = none := by
      simp only [JType_ArrayFormat, h1, h2, h3, h4, h5, h6, h7, h8, if_false]
    simp only [JType_ConvertJavaToPythonObject, hct, hprim, if_true,
      JNI_GetPrimitiveArrayCritical, hpin, Bool.false_eq_true, if_false, harray,
      Option.map_some', hformat, PyErr_SetString, and_self]

/-- Witness for C23: a foreign `int[]` of two elements becomes a container of length 2 with
the format `l`. -/
theorem JType_ConvertJavaToPythonObject_primitive_array_witness :
    rtExample.wellKnownTypes.Nodup ∧
    (callStateIntArray.jpy.typeAt 20).componentType = some 5 ∧
    (callStateIntArray.jpy.typeAt 5).isPrimitive = true ∧
    callStateIntArray.arrays.get? 0 = some (JArray.mk 2 4 [1, 0, 0, 0, 2, 0, 0, 0]) ∧
    ∃ container : JPy_CArray,
      (JType_ConvertJavaToPythonObject rtExample callStateIntArray 20 (some 0)).2 =
        some container.toPyObject ∧
      container.length = 2 ∧ container.format = "l" :=
  ⟨by decide, by decide, by decide, rfl,
   (JType_ConvertJavaToPythonObject_primitive_array rtExample callStateIntArray 20 5 0
      (JArray.mk 2 4 [1, 0, 0, 0, 2, 0, 0, 0]) (by decide) (by decide) (by decide) rfl rfl
      (fun _ => rfl)).1 "l" (Or.inr (Or.inr (Or.inr (Or.inr (Or.inl ⟨rfl, rfl⟩)))))⟩

/-- C24 (mirrored objects): for a wrapper of a foreign object `JType_AssessToJObject` returns
100 exactly when the type of the wrapper is the parameter type; 90 exactly when it is not, the
object is an instance of the parameter class and both types have the same component type
(or both none); 80 exactly when it is not, the object is an instance, the component types
differ, both types are array types and the component class of the argument is assignable to
that of the parameter; and 0 in every other case.  A value that is neither `None`, nor such a
wrapper, nor a buffer offered to a parameter with a primitive component type scores 0. -/
theorem JType_AssessToJObject_mirrored (rt : Runtime) (s : JPy_State)
    (pd : JPy_ParamDescriptor) (argType : TypeRef) (objectRef : Option JObject) (score : Int)
    (hscore : score = JType_AssessToJObject rt s pd (JObj argType objectRef)) :
    (score = 100 ↔ argType = pd.type) ∧
    (score = 90 ↔ argType ≠ pd.type ∧
      rt.IsInstanceOf objectRef (s.typeAt pd.type).classRef = true ∧
      (s.typeAt argType).componentType = (s.typeAt pd.type).componentType) ∧
    (score = 80 ↔ argType ≠ pd.type ∧
      rt.IsInstanceOf objectRef (s.typeAt pd.type).classRef = true ∧
      (s.typeAt argType).componentType ≠ (s.typeAt pd.type).componentType ∧
      ∃ argComponent paramComponent,
        (s.typeAt argType).componentType = some argComponent ∧
        (s.typeAt pd.type).componentType = some paramComponent ∧
        rt.IsAssignableFrom (s.typeAt argComponent).classRef
          (s.typeAt paramComponent).classRef = true) ∧
    (score = 100 ∨ score = 90 ∨ score = 80 ∨ score = 0) ∧
    (∀ pyArg : PyObject, pyArg.isNone = false → (∀ t r, pyArg ≠ JObj t r) →
      ¬ (∃ ct, (s.typeAt pd.type).componentType = some ct ∧ (s.typeAt ct).isPrimitive = true ∧
          PyObject_CheckBuffer pyArg = true) →
      JType_AssessToJObject rt s pd pyArg = 0) := by
  refine ⟨?_, ?_, ?_, ?_, ?_⟩
  rotate_right
  · intro pyArg hnone hobj hbuf
    cases pyArg with
    | Py_None => simp [PyObject.isNone] at hnone
    | JObj t r => exact absurd rfl (hobj t r)
    | _ =>
      simp only [JType_AssessToJObject]
      cases hc : (s.typeAt pd.type).componentType with
      | none => rfl
      | some ct =>
        simp only
        split
        · rename_i hcond
          simp only [Bool.and_eq_true] at hcond
          exact absurd ⟨ct, hc, hcond.1, hcond.2⟩ hbuf
        · rfl
  all_goals
    subst hscore
    simp only [JType_AssessToJObject]
    by_cases h1 : argType = pd.type
    · simp [h1]
    · by_cases h2 : rt.IsInstanceOf objectRef (s.typeAt pd.type).classRef = true
      · by_cases h3 : (s.typeAt argType).componentType = (s.typeAt pd.type).componentType
        · simp [h1, h2, h3]
        · cases ha : (s.typeAt argType).componentType with
          | none =>
            simp only [ha] at h3
            simp [h1, h2, ha, h3]
          | some a =>
            cases hp : (s.typeAt pd.type).componentType with
            | none => simp [h1, h2, ha, hp]
            | some p =>
              simp only [ha, hp] at h3
              by_cases h4 : rt.IsAssignableFrom (s.typeAt a).classRef (s.typeAt p).classRef
                = true
              · simp [h1, h2, ha, hp, h3, h4]
              · simp [h1, h2, ha, hp, h3, h4]
      · simp [h1, h2]

/-- Witness for C24: a `byte[]` object offered to a `boolean[]` parameter in a runtime where
every instance and assignability test succeeds scores 80, and a string scores 0. -/
theorem JType_AssessToJObject_mirrored_witness :
    80 = JType_AssessToJObject rtInstance stateArrays (paramExample 18) (JObj 19 (some 0)) ∧
    (19 : TypeRef) ≠ (paramExample 18).type ∧
    (stateArrays.typeAt 19).componentType ≠
      (stateArrays.typeAt (paramExample 18).type).componentType ∧
    JType_AssessToJObject rtInstance stateArrays (paramExample 18) (PyUnicode "x") = 0 :=
  ⟨by decide,
   ((JType_AssessToJObject_mirrored rtInstance stateArrays (paramExample 18) 19 (some 0) 80
      (by decide)).2.2.1.mp rfl).1,
   ((JType_AssessToJObject_mirrored rtInstance stateArrays (paramExample 18) 19 (some 0) 80
      (by decide)).2.2.1.mp rfl).2.2.1,
   (JType_AssessToJObject_mirrored rtInstance stateArrays (paramExample 18) 19 (some 0) 80
      (by decide)).2.2.2.2 (PyUnicode "x") rfl (fun _ _ h => PyObject.noConfusion h)
      (fun ⟨_, _, _, h⟩ => by simp [PyObject_CheckBuffer] at h)⟩

theorem JType_ConvertPythonToJavaObject_other_cases (rt : Runtime) (cs : JPy_CallState)
    (type : TypeRef) (pyArg : PyObject) (objectRef : Option JObject) :
    ((JType_ConvertPythonToJavaObject_other rt cs type pyArg objectRef).ret = 0 ∧
      Convertible rt type pyArg) ∨
    JType_ConvertPythonToJavaObject_other rt cs type pyArg objectRef =
      JType_ConvertPythonToJavaObject_error cs objectRef := by
  unfold JType_ConvertPythonToJavaObject_other
  by_cases h1 : some type = rt.JPy_JBoolean ∨ some type = rt.JPy_JBooleanObj
  · rw [if_pos h1]
    cases hc : (PyBool_Check pyArg || PyLong_Check pyArg) with
    | false =>
      right
      simp only [Bool.not_false, if_true]
    | true =>
      left
      simp only [Bool.not_true, Bool.false_eq_true, if_false, true_and]
      unfold Convertible
      have hk : PyBool_Check pyArg = true ∨ PyLong_Check pyArg = true := by
        simpa using hc
      exact Or.inl ⟨h1, hk⟩
  rw [if_neg h1]
  by_cases h2 : some type = rt.JPy_JChar ∨ some type = rt.JPy_JCharacterObj
  · rw [if_pos h2]
    cases hc : PyLong_Check pyArg with
    | false =>
      right
      simp only [Bool.not_false, if_true]
    | true =>
      left
      simp only [Bool.not_true, Bool.false_eq_true, if_false, true_and]
      unfold Convertible
      exact Or.inr (Or.inl ⟨h2.elim (fun a => Or.inl a)
        (fun a => Or.inr (Or.inl a)),
        hc⟩)
  rw [if_neg h2]
  by_cases h3 : some type = rt.JPy_JByte ∨ some type = rt.JPy_JByteObj
  · rw [if_pos h3]
    cases hc : PyLong_Check pyArg with
    | false =>
      right
      simp only [Bool.not_false, if_true]
    | true =>
      left
      simp only [Bool.not_true, Bool.false_eq_true, if_false, true_and]
      unfold Convertible
      exact Or.inr (Or.inl ⟨h3.elim (fun a => Or.inr (Or.inr (Or.inl a)))
        (fun a => Or.inr (Or.inr (Or.inr (Or.inl a)))),
        hc⟩)
  rw [if_neg h3]
  by_cases h4 : some type = rt.JPy_JShort ∨ some type = rt.JPy_JShortObj
  · rw [if_pos h4]
    cases hc : PyLong_Check pyArg with
    | false =>
      right
      simp only [Bool.not_false, if_true]
    | true =>
      left
      simp only [Bool.not_true, Bool.false_eq_true, if_false, true_and]
      unfold Convertible
      exact Or.inr (Or.inl ⟨h4.elim (fun a => Or.inr (Or.inr (Or.inr (Or.inr (Or.inl a)))))
        (fun a => Or.inr (Or.inr (Or.inr (Or.inr (Or.inr (Or.inl a)))))),
        hc⟩)
  rw [if_neg h4]
  by_cases h5 : some type = rt.JPy_JInt ∨ some type = rt.JPy_JIntegerObj
  · rw [if_pos h5]
    cases hc : PyLong_Check pyArg with
    | false =>
      right
      simp only [Bool.not_false, if_true]
    | true =>
      left
      simp only [Bool.not_true, Bool.false_eq_true, if_false, true_and]
      unfold Convertible
      exact Or.inr (Or.inl ⟨h5.elim (fun a => Or.inr (Or.inr (Or.inr (Or.inr (Or.inr (Or.inr (Or.inl a)))))))
        (fun a => Or.inr (Or.inr (Or.inr (Or.inr (Or.inr (Or.inr (Or.inr (Or.inl a)))))))),
        hc⟩)
  rw [if_neg h5]
  by_cases h6 : some type = rt.JPy_JLong ∨ some type = rt.JPy_JLongObj
  · rw [if_pos h6]
    cases hc : PyLong_Check pyArg with
    | false =>
      right
      simp only [Bool.not_false, if_true]
    | true =>
      left
      simp only [Bool.not_true, Bool.false_eq_true, if_false, true_and]
      unfold Convertible
      exact Or.inr (Or.inl ⟨h6.elim (fun a => Or.inr (Or.inr (Or.inr (Or.inr (Or.inr (Or.inr (Or.inr (Or.inr (Or.inl a)))))))))
        (fun a => Or.inr (Or.inr (Or.inr (Or.inr (Or.inr (Or.inr (Or.inr (Or.inr (Or.inr (a)))))))))),
        hc⟩)
  rw [if_neg h6]
  by_cases h7 : some type = rt.JPy_JFloat ∨ some type = rt.JPy_JFloatObj
  · rw [if_pos h7]
    cases hc : PyFloat_Check pyArg with
    | false =>
      right
      simp only [Bool.not_false, if_true]
    | true =>
      left
      simp only [Bool.not_true, Bool.false_eq_true, if_false, true_and]
      unfold Convertible
      exact Or.inr (Or.inr (Or.inl ⟨h7.elim (fun a => Or.inl a)
        (fun a => Or.inr (Or.inl a)),
        hc⟩))
  rw [if_neg h7]
  by_cases h8 : some type = rt.JPy_JDouble ∨ some type = rt.JPy_JDoubleObj
  · rw [if_pos h8]
    cases hc : PyFloat_Check pyArg with
    | false =>
      right
      simp only [Bool.not_false, if_true]
    | true =>
      left
      simp only [Bool.not_true, Bool.false_eq_true, if_false, true_and]
      unfold Convertible
      exact Or.inr (Or.inr (Or.inl ⟨h8.elim (fun a => Or.inr (Or.inr (Or.inl a)))
        (fun a => Or.inr (Or.inr (Or.inr (a)))),
        hc⟩))
  rw [if_neg h8]
  by_cases h9 : some type = rt.JPy_JString
  · rw [if_pos h9]
    cases hc : PyUnicode_Check pyArg with
    | false =>
      right
      simp only [Bool.not_false, if_true]
    | true =>
      simp only [Bool.not_true, Bool.false_eq_true, if_false]
      cases rt.JPy_AsJString pyArg with
      | none => right; rfl
      | some stringRef =>
        left
        simp only [true_and]
        unfold Convertible
        exact Or.inr (Or.inr (Or.inr ⟨h9, hc⟩))
  rw [if_neg h9]
  exact Or.inr rfl

/-- C25 (boxed outbound conversion): for every target type `JType_ConvertPythonToJavaObject`
returns 0 with a `NULL` handle for `None` and 0 with the handle of the wrapper for a wrapper
of a foreign object.  For any other argument it returns 0 only if the pair of target type
and argument is `Convertible`: the target is the primitive or boxed boolean type and the
argument passes `PyBool_Check` or `PyLong_Check`, or it is a primitive or boxed char, byte,
short, int or long type and the argument passes `PyLong_Check`, or a primitive or boxed float
or double type and the argument is a float instance, or the string type and the argument is
text.  In every other case it returns -1 with the `RuntimeError` "failed to convert Python
object to Java object" and leaves the output handle as it was; it has no third outcome. -/
theorem JType_ConvertPythonToJavaObject_kinds (rt : Runtime) (cs : JPy_CallState)
    (type : TypeRef) (objectRef : Option JObject) :
    JType_ConvertPythonToJavaObject rt cs type Py_None objectRef =
      { state := cs, ret := 0, objectRef := none } ∧
    (∀ (argType : TypeRef) (ref : Option JObject),
      JType_ConvertPythonToJavaObject rt cs type (JObj argType ref) objectRef =
        { state := cs, ret := 0, objectRef := ref }) ∧
    (∀ pyArg : PyObject, pyArg.isNone = false → (∀ t r, pyArg ≠ JObj t r) →
      ((JType_ConvertPythonToJavaObject rt cs type pyArg objectRef).ret = 0 →
        Convertible rt type pyArg) ∧
      (¬ Convertible rt type pyArg →
        (JType_ConvertPythonToJavaObject rt cs type pyArg objectRef).ret = -1 ∧
        (JType_ConvertPythonToJavaObject rt cs type pyArg objectRef).state.jpy.pyErr =
          some (PyExc.RuntimeError, "failed to convert Python object to Java object") ∧
        (JType_ConvertPythonToJavaObject rt cs type pyArg objectRef).objectRef = objectRef) ∧
      ((JType_ConvertPythonToJavaObject rt cs type pyArg objectRef).ret = 0 ∨
        (JType_ConvertPythonToJavaObject rt cs type pyArg objectRef).ret = -1 ∧
        (JType_ConvertPythonToJavaObject rt cs type pyArg objectRef).state.jpy.pyErr =
          some (PyExc.RuntimeError, "failed to convert Python object to Java object") ∧
        (JType_ConvertPythonToJavaObject rt cs type pyArg objectRef).objectRef =
          objectRef)) := by
  refine ⟨rfl, fun _ _ => rfl, ?_⟩
  intro pyArg hnone hobj
  have hother : JType_ConvertPythonToJavaObject rt cs type pyArg objectRef =
      JType_ConvertPythonToJavaObject_other rt cs type pyArg objectRef := by
    cases pyArg with
    | Py_None => simp [PyObject.isNone] at hnone
    | JObj t r => exact absurd rfl (hobj t r)
    | _ => rfl
  rw [hother]
  rcases JType_ConvertPythonToJavaObject_other_cases rt cs type pyArg objectRef with
    ⟨hret, hconv⟩ | herr
  · exact ⟨fun _ => hconv, fun hn => absurd hconv hn, Or.inl hret⟩
  · rw [herr]
    refine ⟨fun hret => ?_, fun _ => ⟨rfl, rfl, rfl⟩, Or.inr ⟨rfl, rfl, rfl⟩⟩
    simp [JType_ConvertPythonToJavaObject_error] at hret

/-- Witness for C25: a string is not convertible to the `int` type, the integer 7 is. -/
theorem JType_ConvertPythonToJavaObject_kinds_witness :
    (PyUnicode "x").isNone = false ∧
    ¬ Convertible rtExample 5 (PyUnicode "x") ∧
    (JType_ConvertPythonToJavaObject rtExample callStateArrays 5 (PyUnicode "x") (some 3)).ret
      = -1 ∧
    (JType_ConvertPythonToJavaObject rtExample callStateArrays 5 (PyLong 7) (some 3)).ret
      = 0 :=
  ⟨rfl, by unfold Convertible; decide,
   (((JType_ConvertPythonToJavaObject_kinds rtExample callStateArrays 5 (some 3)).2.2
      (PyUnicode "x") rfl (fun _ _ h => PyObject.noConfusion h)).2.1 (by unfold Convertible; decide)).1,
   by decide⟩

/-! ## Assessors and converters of the primitive types -/

theorem Runtime.primitiveTypes_ne (rt : Runtime) (hdistinct : rt.wellKnownTypes.Nodup) :
    List.Pairwise (fun a b => a ≠ b ∧ b ≠ a) rt.primitiveTypes := by
  have h1 : rt.primitiveTypes.Nodup := by
    unfold Runtime.wellKnownTypes at hdistinct
    exact (List.Nodup.of_append_left (List.Nodup.of_append_left hdistinct))
  exact List.Pairwise.imp (fun h => ⟨h, Ne.symm h⟩) h1

theorem JType_InitParamDescriptorFunctions_primitive (rt : Runtime)
    (hdistinct : rt.wellKnownTypes.Nodup) (pd : JPy_ParamDescriptor) :
    (some pd.type = rt.JPy_JBoolean →
      JType_InitParamDescriptorFunctions rt pd =
        { pd with paramAssessor := some ParamAssessor.toJBoolean,
                  paramConverter := some ParamConverter.toJBoolean }) ∧
    (some pd.type = rt.JPy_JByte →
      JType_InitParamDescriptorFunctions rt pd =
        { pd with paramAssessor := some ParamAssessor.toJByte,
                  paramConverter := some ParamConverter.toJByte }) ∧
    (some pd.type = rt.JPy_JChar →
      JType_InitParamDescriptorFunctions rt pd =
        { pd with paramAssessor := some ParamAssessor.toJChar,
                  paramConverter := some ParamConverter.toJChar }) ∧
    (some pd.type = rt.JPy_JShort →
      JType_InitParamDescriptorFunctions rt pd =
        { pd with paramAssessor := some ParamAssessor.toJShort,
                  paramConverter := some ParamConverter.toJShort }) ∧
    (some pd.type = rt.JPy_JInt →
      JType_InitParamDescriptorFunctions rt pd =
        { pd with paramAssessor := some ParamAssessor.toJInt,
                  paramConverter := some ParamConverter.toJInt }) ∧
    (some pd.type = rt.JPy_JLong →
      JType_InitParamDescriptorFunctions rt pd =
        { pd with paramAssessor := some ParamAssessor.toJLong,
                  paramConverter := some ParamConverter.toJLong }) ∧
    (some pd.type = rt.JPy_JFloat →
      JType_InitParamDescriptorFunctions rt pd =
        { pd with paramAssessor := some ParamAssessor.toJFloat,
                  paramConverter := some ParamConverter.toJFloat }) ∧
    (some pd.type = rt.JPy_JDouble →
      JType_InitParamDescriptorFunctions rt pd =
        { pd with paramAssessor := some ParamAssessor.toJDouble,
                  paramConverter := some ParamConverter.toJDouble }) := by
  have hne := Runtime.primitiveTypes_ne rt hdistinct
  simp only [Runtime.primitiveTypes, List.pairwise_cons, List.mem_cons, List.mem_singleton,
    forall_eq_or_imp, forall_eq, List.not_mem_nil, false_implies, implies_true,
    List.Pairwise.nil, and_true, ne_eq] at hne
  unfold JType_InitParamDescriptorFunctions
  refine ⟨?_, ?_, ?_, ?_, ?_, ?_, ?_, ?_⟩ <;> intro h <;> rw [← h] at hne <;> simp_all

/-- C26 (`None` and primitive parameters): each of the eight primitive assessors scores `None`
with 0; hence the assessor that `JType_InitParamDescriptorFunctions` installs for a parameter
of a primitive type scores `None` with 0, although the converter it installs for the same
parameter would succeed for `None` and give the zero value of the type. -/
theorem JType_Assess_primitive_of_none (rt : Runtime) (s : JPy_State) (cs : JPy_CallState)
    (pd : JPy_ParamDescriptor) (value : jvalue) (disposer : JPy_ArgDisposer) :
    (JType_AssessToJBoolean pd Py_None = 0 ∧ JType_AssessToJByte pd Py_None = 0 ∧
      JType_AssessToJChar pd Py_None = 0 ∧ JType_AssessToJShort pd Py_None = 0 ∧
      JType_AssessToJInt pd Py_None = 0 ∧ JType_AssessToJLong pd Py_None = 0 ∧
      JType_AssessToJFloat pd Py_None = 0 ∧ JType_AssessToJDouble pd Py_None = 0) ∧
    (rt.wellKnownTypes.Nodup →
      some pd.type = rt.JPy_JBoolean ∨ some pd.type = rt.JPy_JByte ∨
      some pd.type = rt.JPy_JChar ∨ some pd.type = rt.JPy_JShort ∨
      some pd.type = rt.JPy_JInt ∨ some pd.type = rt.JPy_JLong ∨
      some pd.type = rt.JPy_JFloat ∨ some pd.type = rt.JPy_JDouble →
      (JType_InitParamDescriptorFunctions rt pd).assess rt s Py_None = some 0 ∧
      ∃ r, (JType_InitParamDescriptorFunctions rt pd).convert rt Py_None cs value disposer
          = some r ∧ r.ret = 0 ∧ r.state = cs ∧
        r.value ∈ [jvalue.z 0, jvalue.b 0, jvalue.c 0, jvalue.s 0, jvalue.i 0, jvalue.j 0,
          jvalue.f 0, jvalue.d 0]) := by
  constructor
  · simp [JType_AssessToJBoolean, JType_AssessToJByte, JType_AssessToJChar,
      JType_AssessToJShort, JType_AssessToJInt, JType_AssessToJLong, JType_AssessToJFloat,
      JType_AssessToJDouble, PyBool_Check, PyLong_Check, PyFloat_Check, PyNumber_Check]
  · intro hdistinct hkind
    have hinit := JType_InitParamDescriptorFunctions_primitive rt hdistinct pd
    rcases hkind with h | h | h | h | h | h | h | h
    · rw [hinit.1 h]
      refine ⟨rfl, _, rfl, rfl, rfl, ?_⟩
      simp [JType_ConvertToJBoolean, JPy_AS_JBOOLEAN]
    · rw [hinit.2.1 h]
      refine ⟨rfl, _, rfl, rfl, rfl, ?_⟩
      simp [JType_ConvertToJByte, JPy_AS_JBYTE, PyObject.isNone, toSigned]
    · rw [hinit.2.2.1 h]
      refine ⟨rfl, _, rfl, rfl, rfl, ?_⟩
      simp [JType_ConvertToJChar, JPy_AS_JCHAR, PyObject.isNone, toUnsigned]
    · rw [hinit.2.2.2.1 h]
      refine ⟨rfl, _, rfl, rfl, rfl, ?_⟩
      simp [JType_ConvertToJShort, JPy_AS_JSHORT, PyObject.isNone, toSigned]
    · rw [hinit.2.2.2.2.1 h]
      refine ⟨rfl, _, rfl, rfl, rfl, ?_⟩
      simp [JType_ConvertToJInt, JPy_AS_JINT, PyObject.isNone, toSigned]
    · rw [hinit.2.2.2.2.2.1 h]
      refine ⟨rfl, _, rfl, rfl, rfl, ?_⟩
      simp [JType_ConvertToJLong, JPy_AS_JLONG, PyObject.isNone, toSigned]
    · rw [hinit.2.2.2.2.2.2.1 h]
      refine ⟨rfl, _, rfl, rfl, rfl, ?_⟩
      simp [JType_ConvertToJFloat, JPy_AS_JFLOAT, PyObject.isNone]
    · rw [hinit.2.2.2.2.2.2.2 h]
      refine ⟨rfl, _, rfl, rfl, rfl, ?_⟩
      simp [JType_ConvertToJDouble, JPy_AS_JDOUBLE, PyObject.isNone]

/-- Witness for C26: an `int` parameter. -/
theorem JType_Assess_primitive_of_none_witness :
    rtExample.wellKnownTypes.Nodup ∧ some (paramExample 5).type = rtExample.JPy_JInt ∧
    (JType_InitParamDescriptorFunctions rtExample (paramExample 5)).assess rtExample stateArrays
      Py_None = some 0 :=
  ⟨by decide, rfl,
   ((JType_Assess_primitive_of_none rtExample stateArrays callStateArrays (paramExample 5)
      (jvalue.l none) disposerNone).2 (by decide)
      (Or.inr (Or.inr (Or.inr (Or.inr (Or.inl rfl)))))).1⟩

theorem JType_Assess_integral_positive (pd : JPy_ParamDescriptor) (pyArg : PyObject)
    (h : 0 < JType_AssessToJBoolean pd pyArg ∨ 0 < JType_AssessToJByte pd pyArg ∨
      0 < JType_AssessToJChar pd pyArg ∨ 0 < JType_AssessToJShort pd pyArg ∨
      0 < JType_AssessToJInt pd pyArg ∨ 0 < JType_AssessToJLong pd pyArg) :
    (∃ b, pyArg = PyBool b) ∨ (∃ n, pyArg = PyLong n) := by
  cases pyArg with
  | PyBool b => exact Or.inl ⟨b, rfl⟩
  | PyLong n => exact Or.inr ⟨n, rfl⟩
  | _ =>
    simp [JType_AssessToJBoolean, JType_AssessToJByte, JType_AssessToJChar,
      JType_AssessToJShort, JType_AssessToJInt, JType_AssessToJLong, PyBool_Check,
      PyLong_Check] at h

theorem JPy_AS_integral_no_error (rt : Runtime) (pyArg : PyObject)
    (hlong : rt.LONG_BIT ≤ 64)
    (hkind : (∃ b, pyArg = PyBool b) ∨ (∃ n, pyArg = PyLong n))
    (hrange : ∀ n, pyArg = PyLong n →
      -(2 ^ (rt.LONG_BIT - 1)) ≤ n ∧ n ≤ 2 ^ (rt.LONG_BIT - 1) - 1) :
    (JPy_AS_JBOOLEAN rt pyArg).2 = none ∧ (JPy_AS_JBYTE rt pyArg).2 = none ∧
    (JPy_AS_JCHAR rt pyArg).2 = none ∧ (JPy_AS_JSHORT rt pyArg).2 = none ∧
    (JPy_AS_JINT rt pyArg).2 = none ∧ (JPy_AS_JLONG pyArg).2 = none := by
  rcases hkind with ⟨b, rfl⟩ | ⟨n, rfl⟩
  · cases b <;>
      simp [JPy_AS_JBOOLEAN, JPy_AS_JBYTE, JPy_AS_JCHAR, JPy_AS_JSHORT, JPy_AS_JINT,
        JPy_AS_JLONG, PyLong_AsLong, PyLong_AsLongLong, PyObject.isNone]
  · have hn := hrange n rfl
    have hpow : (2 : Int) ^ (rt.LONG_BIT - 1) ≤ 2 ^ 63 :=
      pow_le_pow_right₀ (by norm_num) (by omega)
    have hll : -(2 ^ 63) ≤ n ∧ n ≤ 2 ^ 63 - 1 := ⟨by omega, by omega⟩
    simp only [JPy_AS_JBOOLEAN, JPy_AS_JBYTE, JPy_AS_JCHAR, JPy_AS_JSHORT, JPy_AS_JINT,
      JPy_AS_JLONG, PyLong_AsLong, PyLong_AsLongLong, PyObject.isNone, hn, hll, and_self,
      if_true, Bool.false_eq_true, if_false]

/-- C27 (assessor and converter agree): for a parameter of the type boolean, byte, char,
short, int or long, an argument that the installed assessor scores above 0 is a host boolean
or a host integer; and for such an argument, if it is a boolean or an integer in the range
of the C type `long`, the installed converter returns 0 and raises nothing. -/
theorem JType_Assess_Convert_integral_consistent (rt : Runtime) (s : JPy_State)
    (cs : JPy_CallState) (pd : JPy_ParamDescriptor) (pyArg : PyObject) (value : jvalue)
    (disposer : JPy_ArgDisposer) (score : Int)
    (hdistinct : rt.wellKnownTypes.Nodup) (hlong : rt.LONG_BIT ≤ 64)
    (hkind : some pd.type = rt.JPy_JBoolean ∨ some pd.type = rt.JPy_JByte ∨
      some pd.type = rt.JPy_JChar ∨ some pd.type = rt.JPy_JShort ∨
      some pd.type = rt.JPy_JInt ∨ some pd.type = rt.JPy_JLong)
    (hscore : (JType_InitParamDescriptorFunctions rt pd).assess rt s pyArg = some score)
    (hpos : 0 < score) :
    ((∃ b, pyArg = PyBool b) ∨ (∃ n, pyArg = PyLong n)) ∧
    ((∀ n, pyArg = PyLong n →
        -(2 ^ (rt.LONG_BIT - 1)) ≤ n ∧ n ≤ 2 ^ (rt.LONG_BIT - 1) - 1) →
      ∃ r, (JType_InitParamDescriptorFunctions rt pd).convert rt pyArg cs value disposer
          = some r ∧ r.ret = 0 ∧ r.state = cs) := by
  have hinit := JType_InitParamDescriptorFunctions_primitive rt hdistinct pd
  have hint : (∃ b, pyArg = PyBool b) ∨ (∃ n, pyArg = PyLong n) := by
    apply JType_Assess_integral_positive pd pyArg
    rcases hkind with h | h | h | h | h | h
    · rw [hinit.1 h] at hscore
      simp only [JPy_ParamDescriptor.assess, Option.some.injEq] at hscore
      exact Or.inl (by rw [← hscore] at hpos; exact hpos)
    · rw [hinit.2.1 h] at hscore
      simp only [JPy_ParamDescriptor.assess, Option.some.injEq] at hscore
      exact Or.inr (Or.inl (by rw [← hscore] at hpos; exact hpos))
    · rw [hinit.2.2.1 h] at hscore
      simp only [JPy_ParamDescriptor.assess, Option.some.injEq] at hscore
      exact Or.inr (Or.inr (Or.inl (by rw [← hscore] at hpos; exact hpos)))
    · rw [hinit.2.2.2.1 h] at hscore
      simp only [JPy_ParamDescriptor.assess, Option.some.injEq] at hscore
      exact Or.inr (Or.inr (Or.inr (Or.inl (by rw [← hscore] at hpos; exact hpos))))
    · rw [hinit.2.2.2.2.1 h] at hscore
      simp only [JPy_ParamDescriptor.assess, Option.some.injEq] at hscore
      exact Or.inr (Or.inr (Or.inr (Or.inr (Or.inl (by rw [← hscore] at hpos; exact hpos)))))
    · rw [hinit.2.2.2.2.2.1 h] at hscore
      simp only [JPy_ParamDescriptor.assess, Option.some.injEq] at hscore
      exact Or.inr (Or.inr (Or.inr (Or.inr (Or.inr (by rw [← hscore] at hpos; exact hpos)))))
  refine ⟨hint, ?_⟩
  intro hrange
  obtain ⟨e1, e2, e3, e4, e5, e6⟩ := JPy_AS_integral_no_error rt pyArg hlong hint hrange
  rcases hkind with h | h | h | h | h | h
  · rw [hinit.1 h]
    exact ⟨_, rfl, rfl, by simp [JType_ConvertToJBoolean, e1, JPy_CallState.raise]⟩
  · rw [hinit.2.1 h]
    exact ⟨_, rfl, rfl, by simp [JType_ConvertToJByte, e2, JPy_CallState.raise]⟩
  · rw [hinit.2.2.1 h]
    exact ⟨_, rfl, rfl, by simp [JType_ConvertToJChar, e3, JPy_CallState.raise]⟩
  · rw [hinit.2.2.2.1 h]
    exact ⟨_, rfl, rfl, by simp [JType_ConvertToJShort, e4, JPy_CallState.raise]⟩
  · rw [hinit.2.2.2.2.1 h]
    exact ⟨_, rfl, rfl, by simp [JType_ConvertToJInt, e5, JPy_CallState.raise]⟩
  · rw [hinit.2.2.2.2.2.1 h]
    exact ⟨_, rfl, rfl, by simp [JType_ConvertToJLong, e6, JPy_CallState.raise]⟩

/-- Witness for C27: the integer 200 offered to a `byte` parameter. -/
theorem JType_Assess_Convert_integral_consistent_witness :
    rtExample.wellKnownTypes.Nodup ∧ rtExample.LONG_BIT ≤ 64 ∧
    some (paramExample 3).type = rtExample.JPy_JByte ∧
    (JType_InitParamDescriptorFunctions rtExample (paramExample 3)).assess rtExample stateArrays
      (PyLong 200) = some 100 ∧
    ∃ r, (JType_InitParamDescriptorFunctions rtExample (paramExample 3)).convert rtExample
        (PyLong 200) callStateArrays (jvalue.l none) disposerNone = some r ∧
      r.ret = 0 ∧ r.state = callStateArrays :=
  ⟨by decide, by decide, rfl, by decide,
   (JType_Assess_Convert_integral_consistent rtExample stateArrays callStateArrays
      (paramExample 3) (PyLong 200) (jvalue.l none) disposerNone 100 (by decide) (by decide)
      (Or.inr (Or.inl rfl)) (by decide) (by decide)).2
      (fun n h => by
        have hn : n = 200 := (PyObject.PyLong.inj h).symm
        subst hn
        decide)⟩

end JPy
